import Mathlib

/-!
# Colive backend: booking lifecycle and wallet ledger

A shallow embedding of `src/routes/wallet.js` and `src/routes/booking.js`
together with the Mongoose schemas they write to (`models/User.js`,
`models/WalletTransaction.js`, `models/Request.js`), of the user
management of `src/routes/admin.js` and of `POST /` of `src/routes/request.js`.

Conventions of the embedding

* A MongoDB collection is a function from document id to `Option` document;
  the `WalletTransaction` collection is the list of its documents in insertion
  order.
* A JavaScript `Number` that carries money is a rational number: arithmetic is
  exact, floating point rounding is not modelled.
* A request body field is given the type its schema path casts it to; a field
  that may be missing is an `Option`.  Schema validators that look at the value
  (`enum`, `min`) are modelled, since `Model.create` rejects the document when
  one of them fails.
* Generated ids of transactions, dates and timestamps are left out.
* Every handler is a function from the state before the request to the state
  after it and the response; an exception caught by the handler's `catch`
  block is the response `internalError`, and the writes performed before the
  exception stay in the state, as they do in the database.
* Requests are served one after the other, except for `/deduct`, which is
  also given in the two steps between its `await`s, so that the handlers of
  several requests can take turns.
* The user management counts documents, so its user collection is the list of
  its documents.
-/

namespace Colive

abbrev UserId := Nat
abbrev BookingId := Nat
abbrev Amount := ℚ

/-! ## Schemas -/

/-- The `role` enum of `models/User.js`. -/
inductive Role where
  | tenant | landlord | admin
  deriving DecidableEq, Repr

/-- The `wallet` sub-document of `models/User.js` (`wallet.balance`). -/
structure Wallet where
  balance : Amount
  deriving DecidableEq

/-- A document of `models/User.js`, restricted to the wallet. -/
structure User where
  wallet : Wallet
  deriving DecidableEq

/-- The `type` enum of `models/WalletTransaction.js`. -/
inductive TxType where
  | credit | debit
  deriving DecidableEq, Repr

/-- The `reason` enum of `models/WalletTransaction.js`. -/
inductive Reason where
  | payment | refund | cancellation | deposit | earnings | withdrawal | adjustment
  deriving DecidableEq, Repr

/-- The `paymentGateway` enum of `models/WalletTransaction.js`. -/
inductive Gateway where
  | razorpay | stripe | wallet | upi
  deriving DecidableEq, Repr

/-- The `status` enum of `models/WalletTransaction.js`. -/
inductive TxStatus where
  | pending | completed | failed
  deriving DecidableEq, Repr

/-- A stored document of `models/WalletTransaction.js`. -/
structure WalletTransaction where
  userId : UserId
  type : TxType
  amount : Amount
  reason : Reason
  bookingId : Option BookingId
  description : Option String
  balanceBefore : Option Amount
  balanceAfter : Option Amount
  paymentGateway : Gateway
  status : TxStatus
  deriving DecidableEq

/-- The object handed to `WalletTransaction.create`: `reason` is still the
string the caller supplied, `paymentGateway` and `status` may be left out. -/
structure TxDoc where
  userId : UserId
  type : TxType
  amount : Amount
  reason : String
  bookingId : Option BookingId := none
  description : Option String := none
  balanceBefore : Option Amount := none
  balanceAfter : Option Amount := none
  paymentGateway : Option Gateway := none
  status : Option TxStatus := none

/-- The `enum` validator of the `reason` path. -/
def Reason.ofString (s : String) : Option Reason :=
  if s = "payment" then some .payment
  else if s = "refund" then some .refund
  else if s = "cancellation" then some .cancellation
  else if s = "deposit" then some .deposit
  else if s = "earnings" then some .earnings
  else if s = "withdrawal" then some .withdrawal
  else if s = "adjustment" then some .adjustment
  else none

/-- The document stored for `doc` once its `reason` has passed the enum
validator, with the schema defaults (`paymentGateway: 'wallet'`,
`status: 'completed'`) filled in. -/
def TxDoc.toRecord (d : TxDoc) (r : Reason) : WalletTransaction :=
  { userId := d.userId, type := d.type, amount := d.amount, reason := r,
    bookingId := d.bookingId, description := d.description,
    balanceBefore := d.balanceBefore, balanceAfter := d.balanceAfter,
    paymentGateway := d.paymentGateway.getD .wallet,
    status := d.status.getD .completed }

/-- `WalletTransaction.create(doc)`: validates `doc` against the schema
(`reason` in its enum, `amount` at least `min: 0`), fills the defaults and
inserts the document.  `none` is the rejected promise (a `ValidationError`);
nothing is inserted. -/
def WalletTransaction.create (log : List WalletTransaction) (d : TxDoc) :
    Option (List WalletTransaction) :=
  match Reason.ofString d.reason with
  | none => none
  | some r => if d.amount < 0 then none else some (log ++ [d.toRecord r])

/-- The `bookingType` enum of `models/Request.js`. -/
inductive BookingType where
  | rent | buy | own_contact | general
  deriving DecidableEq, Repr

/-- The `payment.status` enum of `models/Request.js`. -/
inductive PaymentStatus where
  | pending | completed | failed | refunded
  deriving DecidableEq, Repr

/-- The `bookingStatus` enum of `models/Request.js`. -/
inductive BookingStatus where
  | inquiry | awaiting_payment | payment_completed | confirmed | active
  | completed | cancelled | rejected
  deriving DecidableEq, Repr

/-- The `landlordApproval.status` enum of `models/Request.js`. -/
inductive ApprovalStatus where
  | pending | approved | rejected
  deriving DecidableEq, Repr

/-- The `cancellationPolicy` enum of `models/Request.js`. -/
inductive CancellationPolicy where
  | free | paid | no_cancellation
  deriving DecidableEq, Repr

/-- The `payment` path of `models/Request.js`.  `paidAmount` has no default in
the schema; a missing value is represented by `0` (the routes read it only
under `payment.status === 'completed'`, which `pay` writes together with
`paidAmount`). -/
structure Payment where
  status : PaymentStatus
  paymentMethod : Option String
  paidAmount : Amount
  refundAmount : Amount
  deriving DecidableEq

/-- The `landlordApproval` path of `models/Request.js`. -/
structure LandlordApproval where
  status : ApprovalStatus
  message : Option String
  deriving DecidableEq

/-- The `cancellation` path of `models/Request.js`. -/
structure Cancellation where
  cancelled : Bool
  cancelledBy : Option String
  reason : Option String
  refundAmount : Option Amount
  refundStatus : Option String
  deriving DecidableEq

/-- A document of `models/Request.js` (a booking).  `rentTotalPrice` is
`rentDetails.totalPrice` and `buyTotalPrice` is `buyDetails.totalPrice`. -/
structure Booking where
  tenant : UserId
  landlord : Option UserId
  bookingType : BookingType
  rentTotalPrice : Option Amount
  buyTotalPrice : Option Amount
  payment : Payment
  bookingStatus : BookingStatus
  landlordApproval : LandlordApproval
  cancellationPolicy : CancellationPolicy
  cancellation : Cancellation
  deriving DecidableEq

/-- The three collections the wallet and booking routes read and write. -/
structure State where
  users : UserId → Option User
  log : List WalletTransaction
  bookings : BookingId → Option Booking

/-- The decoded token `req.user` set by `middleware/auth.js`. -/
structure Caller where
  userId : UserId
  role : Option Role
  deriving DecidableEq

/-- The responses of the wallet and booking routes, one constructor per
`res.json` call; `Response.status` gives the HTTP status of each. -/
inductive Response where
  /-- 401 `No role found in token` (roleCheck) -/
  | noRole
  /-- 403 `Forbidden: <role> cannot access this resource` (roleCheck) -/
  | forbiddenRole
  /-- 400 `Invalid amount` -/
  | invalidAmount
  /-- 400 `Maximum ₹50,000 per transaction for testing` -/
  | maxTopup
  /-- 404 `User not found` -/
  | userNotFound
  /-- 400 `Insufficient wallet balance` with `required`, `available` and, on
  `/deduct`, `shortfall` -/
  | insufficient (required available : Amount) (shortfall : Option Amount)
  /-- 500 with the message of the caught exception -/
  | internalError
  /-- 200 of `/add-credit`, `/deduct`, `/refund` with the new `balance` -/
  | walletOk (balance : Amount)
  /-- 404 `Booking not found` -/
  | bookingNotFound
  /-- 403 `Not authorized` -/
  | notAuthorized
  /-- 400 `Booking is not awaiting payment` -/
  | notAwaitingPayment
  /-- 400 `Invalid booking amount` -/
  | invalidBookingAmount
  /-- 200 `Payment successful from wallet` with the updated booking -/
  | paid (booking : Option Booking)
  /-- 200 `Ready for card payment` with `amount`, `bookingId`, `paymentMethod` -/
  | cardReady (amount : Amount) (bookingId : BookingId) (paymentMethod : String)
  /-- 400 `Cannot cancel this booking` -/
  | cannotCancel
  /-- 200 `Booking cancelled` with `refundAmount` and the updated booking -/
  | cancelled (refundAmount : Amount) (booking : Option Booking)
  /-- 200 `Booking approved` with the updated booking -/
  | approved (booking : Option Booking)
  /-- 200 `Booking rejected` with the updated booking -/
  | rejected (booking : Option Booking)
  deriving DecidableEq

/-- The HTTP status code of a response. -/
def Response.status : Response → Nat
  | .noRole => 401
  | .forbiddenRole => 403
  | .invalidAmount => 400
  | .maxTopup => 400
  | .userNotFound => 404
  | .insufficient _ _ _ => 400
  | .internalError => 500
  | .walletOk _ => 200
  | .bookingNotFound => 404
  | .notAuthorized => 403
  | .notAwaitingPayment => 400
  | .invalidBookingAmount => 400
  | .paid _ => 200
  | .cardReady _ _ _ => 200
  | .cannotCancel => 400
  | .cancelled _ _ => 200
  | .approved _ => 200
  | .rejected _ => 200

/-- A request succeeded when it was answered with status 200. -/
def Response.isSuccess (r : Response) : Bool := r.status == 200

/-! ## Store primitives -/

/-- `User.findById(id)`. -/
def findUser (s : State) (id : UserId) : Option User := s.users id

/-- `User.findByIdAndUpdate(id, { $inc: { 'wallet.balance': delta }, ... })`:
the collection after the update and the updated document (`null` when no
user has that id, in which case nothing is written). -/
def incBalance (users : UserId → Option User) (id : UserId) (delta : Amount) :
    (UserId → Option User) × Option User :=
  match users id with
  | none => (users, none)
  | some u =>
    let u' : User := { wallet := { balance := u.wallet.balance + delta } }
    (Function.update users id (some u'), some u')

/-- `Request.findByIdAndUpdate(id, patch, { new: true })`: the collection after
the update and the updated document (`null` when no booking has that id). -/
def updateBooking (bookings : BookingId → Option Booking) (id : BookingId)
    (patch : Booking → Booking) : (BookingId → Option Booking) × Option Booking :=
  match bookings id with
  | none => (bookings, none)
  | some b => (Function.update bookings id (some (patch b)), some (patch b))

/-- JavaScript `!amount || amount <= 0` on a body field that is a number or
missing: `undefined` and `0` are falsy. -/
def invalidAmount : Option Amount → Bool
  | none => true
  | some a => a == 0 || decide (a ≤ 0)

/-- JavaScript `s || d` on a string that may be missing: `undefined` and the
empty string are falsy. -/
def strOr : Option String → String → String
  | none, d => d
  | some s, d => if s = "" then d else s

/-- JavaScript `x || d` on a number that may be missing: `undefined` and `0`
are falsy. -/
def numOr : Option Amount → Amount → Amount
  | none, d => d
  | some x, d => if x = 0 then d else x

/-- The middleware `roleCheck(allowed)`: `none` when the request is let
through to the handler. -/
def roleCheck (allowed : List Role) (caller : Caller) : Option Response :=
  match caller.role with
  | none => some .noRole
  | some r => if r ∈ allowed then none else some .forbiddenRole

/-! ## `routes/wallet.js` -/

/-- `POST /add-credit` with body `{ amount }`. -/
def addCredit (s : State) (caller : Caller) (amount : Option Amount) : State × Response :=
  if invalidAmount amount then (s, .invalidAmount)
  else
    let a := amount.getD 0
    if a > 50000 then (s, .maxTopup)
    else
      match incBalance s.users caller.userId a with
      | (_, none) => (s, .internalError)
      | (users', some user) =>
        match WalletTransaction.create s.log
            { userId := caller.userId, type := .credit, amount := a, reason := "deposit",
              paymentGateway := some .wallet, description := some "Test credit added",
              balanceBefore := some (user.wallet.balance - a),
              balanceAfter := some user.wallet.balance, status := some .completed } with
        | none => ({ s with users := users' }, .internalError)
        | some log' => ({ s with users := users', log := log' }, .walletOk user.wallet.balance)

/-- `POST /deduct` with body `{ amount, reason, bookingId, description }`. -/
def deduct (s : State) (caller : Caller) (amount : Option Amount) (reason : Option String)
    (bookingId : Option BookingId) (description : Option String) : State × Response :=
  if invalidAmount amount then (s, .invalidAmount)
  else
    let a := amount.getD 0
    match findUser s caller.userId with
    | none => (s, .userNotFound)
    | some user =>
      if user.wallet.balance < a then
        (s, .insufficient a user.wallet.balance (some (a - user.wallet.balance)))
      else
        match incBalance s.users caller.userId (-a) with
        | (_, none) => (s, .internalError)
        | (users', some updatedUser) =>
          match WalletTransaction.create s.log
              { userId := caller.userId, type := .debit, amount := a,
                reason := strOr reason "payment", bookingId := bookingId,
                description := description, balanceBefore := some user.wallet.balance,
                balanceAfter := some updatedUser.wallet.balance,
                status := some .completed } with
          | none => ({ s with users := users' }, .internalError)
          | some log' =>
            ({ s with users := users', log := log' }, .walletOk updatedUser.wallet.balance)

/-- `POST /refund` with body `{ amount, bookingId, reason }`. -/
def refund (s : State) (caller : Caller) (amount : Option Amount)
    (bookingId : Option BookingId) (reason : Option String) : State × Response :=
  if invalidAmount amount then (s, .invalidAmount)
  else
    let a := amount.getD 0
    match incBalance s.users caller.userId a with
    | (_, none) => (s, .internalError)
    | (users', some user) =>
      match WalletTransaction.create s.log
          { userId := caller.userId, type := .credit, amount := a, reason := "refund",
            bookingId := bookingId, description := some (strOr reason "Booking refund"),
            balanceBefore := some (user.wallet.balance - a),
            balanceAfter := some user.wallet.balance, status := some .completed } with
      | none => ({ s with users := users' }, .internalError)
      | some log' => ({ s with users := users', log := log' }, .walletOk user.wallet.balance)

/-! ## `routes/booking.js` -/

/-- The string a `bookingType` is stored as (used in template strings). -/
def BookingType.toString : BookingType → String
  | .rent => "rent"
  | .buy => "buy"
  | .own_contact => "own_contact"
  | .general => "general"

/-- `booking.rentDetails?.totalPrice || booking.buyDetails?.totalPrice || 0`. -/
def totalPrice (b : Booking) : Amount :=
  numOr b.rentTotalPrice (numOr b.buyTotalPrice 0)

/-- JavaScript `Math.round`: the nearest integer, a tie going up. -/
def mathRound (x : Amount) : Amount := ((⌊x + 1 / 2⌋ : ℤ) : ℚ)

/-- The update `pay` applies to the booking: `bookingStatus: 'payment_completed'`,
`payment.status: 'completed'`, `payment.paymentMethod: 'wallet'`,
`payment.paidAmount: totalPrice`, `landlordApproval.status: 'pending'`. -/
def paidPatch (total : Amount) (b : Booking) : Booking :=
  { b with
    bookingStatus := .payment_completed
    payment := { b.payment with
                 status := .completed
                 paymentMethod := some "wallet"
                 paidAmount := total }
    landlordApproval := { b.landlordApproval with status := .pending } }

/-- `POST /:bookingId/pay` with body `{ paymentMethod }`, behind
`roleCheck(['tenant'])`. -/
def pay (s : State) (caller : Caller) (bookingId : BookingId)
    (paymentMethod : Option String) : State × Response :=
  match roleCheck [.tenant] caller with
  | some r => (s, r)
  | none =>
    match s.bookings bookingId with
    | none => (s, .bookingNotFound)
    | some booking =>
      if booking.tenant ≠ caller.userId then (s, .notAuthorized)
      else if booking.bookingStatus ≠ .awaiting_payment then (s, .notAwaitingPayment)
      else
        let total := totalPrice booking
        if total = 0 ∨ total ≤ 0 then (s, .invalidBookingAmount)
        else if paymentMethod = some "wallet" then
          match findUser s caller.userId with
          | none => (s, .internalError)
          | some user =>
            if user.wallet.balance < total then
              (s, .insufficient total user.wallet.balance none)
            else
              let users' := (incBalance s.users caller.userId (-total)).1
              match WalletTransaction.create s.log
                  { userId := caller.userId, type := .debit, amount := total,
                    reason := "payment", bookingId := some bookingId,
                    description :=
                      some ("Payment for " ++ booking.bookingType.toString ++ " booking"),
                    paymentGateway := some .wallet, status := some .completed } with
              | none => ({ s with users := users' }, .internalError)
              | some log' =>
                let upd := updateBooking s.bookings bookingId (paidPatch total)
                ({ users := users', log := log', bookings := upd.1 }, .paid upd.2)
        else (s, .cardReady total bookingId "card")

/-- The refund computed by `cancel` (`let refundAmount = 0; if (...) { ... }`). -/
def cancelRefund (b : Booking) : Amount :=
  if b.payment.status = .completed ∧ b.cancellationPolicy ≠ .no_cancellation then
    if b.cancellationPolicy = .free then b.payment.paidAmount
    else if b.cancellationPolicy = .paid then mathRound (b.payment.paidAmount * (1 / 2))
    else 0
  else 0

/-- `refundAmount > 0 ? 'processed' : 'no_refund'`. -/
def refundStatusOf (refundAmount : Amount) : String :=
  if refundAmount > 0 then "processed" else "no_refund"

/-- The update `cancel` applies to the booking: `bookingStatus: 'cancelled'`
and the `cancellation.*` paths. -/
def cancelPatch (reason : Option String) (refundAmount : Amount) (b : Booking) : Booking :=
  { b with
    bookingStatus := .cancelled
    cancellation :=
      { cancelled := true
        cancelledBy := some "tenant"
        reason := reason
        refundAmount := some refundAmount
        refundStatus := some (refundStatusOf refundAmount) } }

/-- `POST /:bookingId/cancel` with body `{ reason }` (no role check). -/
def cancel (s : State) (caller : Caller) (bookingId : BookingId)
    (reason : Option String) : State × Response :=
  match s.bookings bookingId with
  | none => (s, .bookingNotFound)
  | some booking =>
    if booking.tenant ≠ caller.userId then (s, .notAuthorized)
    else if booking.bookingStatus ∈
        [BookingStatus.completed, BookingStatus.cancelled, BookingStatus.rejected] then
      (s, .cannotCancel)
    else
      let refundAmount := cancelRefund booking
      let patch := cancelPatch reason refundAmount
      if booking.payment.status = .completed ∧ booking.cancellationPolicy ≠ .no_cancellation
          ∧ refundAmount > 0 then
        let users' := (incBalance s.users caller.userId refundAmount).1
        match WalletTransaction.create s.log
            { userId := caller.userId, type := .credit, amount := refundAmount,
              reason := "refund", bookingId := some bookingId,
              description := some "Refund for cancelled booking" } with
        | none => ({ s with users := users' }, .internalError)
        | some log' =>
          let upd := updateBooking s.bookings bookingId patch
          ({ users := users', log := log', bookings := upd.1 }, .cancelled refundAmount upd.2)
      else
        let upd := updateBooking s.bookings bookingId patch
        ({ s with bookings := upd.1 }, .cancelled refundAmount upd.2)

/-- The update `approve` applies to the booking: `landlordApproval.status:
'approved'`, `landlordApproval.message`, `bookingStatus: 'confirmed'`. -/
def approvePatch (message : Option String) (b : Booking) : Booking :=
  { b with
    landlordApproval := { status := .approved, message := message }
    bookingStatus := .confirmed }

/-- `POST /:bookingId/approve` with body `{ message }`, behind
`roleCheck(['landlord'])`. -/
def approve (s : State) (caller : Caller) (bookingId : BookingId)
    (message : Option String) : State × Response :=
  match roleCheck [.landlord] caller with
  | some r => (s, r)
  | none =>
    match s.bookings bookingId with
    | none => (s, .bookingNotFound)
    | some booking =>
      match booking.landlord with
      | none => (s, .internalError)
      | some landlord =>
        if landlord ≠ caller.userId then (s, .notAuthorized)
        else
          let upd := updateBooking s.bookings bookingId (approvePatch message)
          ({ s with bookings := upd.1 }, .approved upd.2)

/-- The update `reject` applies to the booking: `landlordApproval.status:
'rejected'`, `landlordApproval.message`, `bookingStatus: 'rejected'`,
`payment.status: 'refunded'`. -/
def rejectPatch (message : Option String) (b : Booking) : Booking :=
  { b with
    landlordApproval := { status := .rejected, message := message }
    bookingStatus := .rejected
    payment := { b.payment with status := .refunded } }

/-- `POST /:bookingId/reject` with body `{ message }`, behind
`roleCheck(['landlord'])`. -/
def reject (s : State) (caller : Caller) (bookingId : BookingId)
    (message : Option String) : State × Response :=
  match roleCheck [.landlord] caller with
  | some r => (s, r)
  | none =>
    match s.bookings bookingId with
    | none => (s, .bookingNotFound)
    | some booking =>
      match booking.landlord with
      | none => (s, .internalError)
      | some landlord =>
        if landlord ≠ caller.userId then (s, .notAuthorized)
        else
          let patch := rejectPatch message
          if booking.payment.status = .completed then
            let refundAmount := booking.payment.paidAmount
            let users' := (incBalance s.users booking.tenant refundAmount).1
            match WalletTransaction.create s.log
                { userId := booking.tenant, type := .credit, amount := refundAmount,
                  reason := "refund", bookingId := some bookingId,
                  description := some "Refund for rejected booking" } with
            | none => ({ s with users := users' }, .internalError)
            | some log' =>
              let upd := updateBooking s.bookings bookingId patch
              ({ users := users', log := log', bookings := upd.1 }, .rejected upd.2)
          else
            let upd := updateBooking s.bookings bookingId patch
            ({ s with bookings := upd.1 }, .rejected upd.2)

/-! ## Requests and runs -/

/-- One request to a state-changing route of `wallet.js` or `booking.js`. -/
inductive Op where
  | addCredit (caller : Caller) (amount : Option Amount)
  | deduct (caller : Caller) (amount : Option Amount) (reason : Option String)
      (bookingId : Option BookingId) (description : Option String)
  | refund (caller : Caller) (amount : Option Amount) (bookingId : Option BookingId)
      (reason : Option String)
  | pay (caller : Caller) (bookingId : BookingId) (paymentMethod : Option String)
  | cancel (caller : Caller) (bookingId : BookingId) (reason : Option String)
  | approve (caller : Caller) (bookingId : BookingId) (message : Option String)
  | reject (caller : Caller) (bookingId : BookingId) (message : Option String)

/-- Serving one request. -/
def step (s : State) : Op → State × Response
  | .addCredit c a => addCredit s c a
  | .deduct c a r b d => deduct s c a r b d
  | .refund c a b r => refund s c a b r
  | .pay c b m => pay s c b m
  | .cancel c b r => cancel s c b r
  | .approve c b m => approve s c b m
  | .reject c b m => reject s c b m

/-- Serving a sequence of requests one after the other (no interleaving). -/
def run (s : State) (ops : List Op) : State :=
  ops.foldl (fun st op => (step st op).1) s

/-! ## `routes/auth.js`: the welcome credit -/

/-- The wallet part of `POST /signup`, reached once the OTP and e-mail checks
have passed: the new user is saved with `wallet.balance: 5000` under the id
MongoDB generated for it (`id`), then the welcome-bonus record is logged. -/
def signup (s : State) (id : UserId) : State :=
  let users' := Function.update s.users id (some { wallet := { balance := 5000 } })
  match WalletTransaction.create s.log
      { userId := id, type := .credit, amount := 5000, reason := "deposit",
        description := some "Welcome bonus - Test credit for new users",
        balanceBefore := some 0, balanceAfter := some 5000, status := some .completed } with
  | none => { s with users := users' }
  | some log' => { s with users := users', log := log' }

/-- The empty database. -/
def emptyState : State :=
  { users := fun _ => none, log := [], bookings := fun _ => none }

/-! ## `routes/booking.js`: `POST /create` -/

abbrev PropertyId := Nat

/-- A document of `models/Property.js`, restricted to what `create` reads:
the required `owner` and the `title`. -/
structure Property where
  owner : UserId
  title : String
  deriving DecidableEq

/-- The `rentDetails` object of a request body (dates left out). -/
structure RentDetails where
  period : Option String
  pricePerUnit : Option Amount
  totalPrice : Option Amount
  nights : Option Amount
  deriving DecidableEq

/-- The `buyDetails` object of a request body. -/
structure BuyDetails where
  totalPrice : Option Amount
  paymentMethod : Option String
  ownership : Option String
  deriving DecidableEq

/-- The `ownDetails` object of a request body. -/
structure OwnDetails where
  message : Option String
  deriving DecidableEq

/-- The body of `POST /create`. -/
structure CreateBody where
  propertyId : Option PropertyId
  bookingType : Option String
  rentDetails : Option RentDetails
  buyDetails : Option BuyDetails
  ownDetails : Option OwnDetails
  paymentMethod : Option String

/-- The object `bookingData` that `create` builds and hands to
`Request.create`; a path the handler does not assign is `none`. -/
structure BookingData where
  title : String
  description : String
  tenant : UserId
  landlord : UserId
  property : Option PropertyId
  bookingType : String
  rentDetails : Option RentDetails := none
  buyDetails : Option BuyDetails := none
  ownDetails : Option OwnDetails := none
  payment : Option Payment := none
  bookingStatus : Option BookingStatus := none
  deriving DecidableEq

/-- The `enum` validator of the `bookingType` path of `models/Request.js`. -/
def BookingType.ofString (s : String) : Option BookingType :=
  if s = "rent" then some .rent
  else if s = "buy" then some .buy
  else if s = "own_contact" then some .own_contact
  else if s = "general" then some .general
  else none

/-- An optional string path with an `enum` validator: a missing value passes. -/
def enumOk (allowed : List String) : Option String → Bool
  | none => true
  | some v => decide (v ∈ allowed)

/-- The validators of `models/Request.js` that look at a value `create` takes
from the request body: `rentDetails.period`, `buyDetails.paymentMethod` and
`buyDetails.ownership`. -/
def BookingData.payloadValid (d : BookingData) : Bool :=
  (match d.rentDetails with
    | none => true
    | some r => enumOk ["daily", "monthly", "yearly"] r.period) &&
  (match d.buyDetails with
    | none => true
    | some b => enumOk ["wallet", "card", "upi"] b.paymentMethod &&
        enumOk ["lease", "purchase"] b.ownership)

/-- The document saved for `bookingData`, in the fields of `Booking`, with
the defaults of `models/Request.js` for every path `bookingData` leaves out:
`bookingStatus: 'inquiry'`, `payment.status: 'pending'`,
`landlordApproval.status: 'pending'`, `cancellationPolicy: 'paid'`,
`cancellation.cancelled: false`. -/
def BookingData.toBooking (d : BookingData) (t : BookingType) : Booking :=
  { tenant := d.tenant, landlord := some d.landlord, bookingType := t,
    rentTotalPrice := d.rentDetails.bind fun r => r.totalPrice,
    buyTotalPrice := d.buyDetails.bind fun b => b.totalPrice,
    payment := d.payment.getD
      { status := .pending, paymentMethod := none, paidAmount := 0, refundAmount := 0 },
    bookingStatus := d.bookingStatus.getD .inquiry,
    landlordApproval := { status := .pending, message := none },
    cancellationPolicy := .paid,
    cancellation := { cancelled := false, cancelledBy := none, reason := none,
                      refundAmount := none, refundStatus := none } }

/-- `Request.create(bookingData)`: validates the document (`bookingType` in
its enum, the payload enums) and inserts it under `newId`, the `_id` MongoDB
generates for it.  `none` is the rejected promise; nothing is inserted. -/
def Request.create (bookings : BookingId → Option Booking) (newId : BookingId)
    (d : BookingData) : Option ((BookingId → Option Booking) × Booking) :=
  match BookingType.ofString d.bookingType with
  | none => none
  | some t =>
    if d.payloadValid then
      some (Function.update bookings newId (some (d.toBooking t)), d.toBooking t)
    else none

/-- The responses of `POST /create`. -/
inductive CreateResponse where
  /-- the answer of `roleCheck(['tenant'])` when it stops the request -/
  | refused (r : Response)
  /-- 404 `Property not found` -/
  | propertyNotFound
  /-- 400 `Rent details required` -/
  | rentDetailsRequired
  /-- 400 `Buy details required` -/
  | buyDetailsRequired
  /-- 400 `Contact details required` -/
  | contactDetailsRequired
  /-- 500 with the message of the caught exception -/
  | internalError
  /-- 200 `Booking request created` with the saved `booking` and `totalPrice`;
  `data` is the object that was handed to `Request.create` -/
  | created (data : BookingData) (booking : Booking) (totalPrice : Amount)
  deriving DecidableEq

/-- The HTTP status code of a response of `POST /create`. -/
def CreateResponse.status : CreateResponse → Nat
  | .refused r => r.status
  | .propertyNotFound => 404
  | .rentDetailsRequired => 400
  | .buyDetailsRequired => 400
  | .contactDetailsRequired => 400
  | .internalError => 500
  | .created _ _ _ => 200

/-- The payment block `create` sets for every type but `own_contact`:
`{ status: 'pending', paymentMethod: paymentMethod || 'wallet', paidAmount: 0 }`
(`refundAmount` takes its schema default 0). -/
def initialPayment (paymentMethod : Option String) : Payment :=
  { status := .pending, paymentMethod := some (strOr paymentMethod "wallet"),
    paidAmount := 0, refundAmount := 0 }

/-- The block `if (bookingType !== 'own_contact') { bookingData.payment = ...;
bookingData.bookingStatus = 'awaiting_payment' }` of `create`. -/
def withPayment (bookingType : String) (paymentMethod : Option String)
    (bookingData : BookingData) : BookingData :=
  if bookingType ≠ "own_contact" then
    { bookingData with
      payment := some (initialPayment paymentMethod)
      bookingStatus := some .awaiting_payment }
  else bookingData

/-- The second half of `create`, from `if (bookingType !== 'own_contact')` on:
the payment block, `Request.create` and the answer. -/
def createFinish (s : State) (newId : BookingId) (bookingType : String)
    (paymentMethod : Option String) (bookingData : BookingData) (totalPrice : Amount) :
    State × CreateResponse :=
  match Request.create s.bookings newId (withPayment bookingType paymentMethod bookingData) with
  | none => (s, .internalError)
  | some (bookings', booking) =>
    ({ s with bookings := bookings' },
      .created (withPayment bookingType paymentMethod bookingData) booking totalPrice)

/-- `POST /create`, behind `roleCheck(['tenant'])`.  `properties` is the
property collection, which the route only reads. -/
def create (properties : PropertyId → Option Property) (s : State) (caller : Caller)
    (newId : BookingId) (body : CreateBody) : State × CreateResponse :=
  match roleCheck [.tenant] caller with
  | some r => (s, .refused r)
  | none =>
    match body.propertyId.bind properties with
    | none => (s, .propertyNotFound)
    | some property =>
      match body.bookingType with
      | none => (s, .internalError)
      | some bookingType =>
        let bookingData : BookingData :=
          { title := bookingType.toUpper ++ " Request - " ++ property.title,
            description := "Booking request for property: " ++ property.title,
            tenant := caller.userId, landlord := property.owner,
            property := body.propertyId, bookingType := bookingType }
        if bookingType = "rent" then
          match body.rentDetails with
          | none => (s, .rentDetailsRequired)
          | some rentDetails =>
            createFinish s newId bookingType body.paymentMethod
              { bookingData with rentDetails := some rentDetails }
              (numOr rentDetails.totalPrice 0)
        else if bookingType = "buy" then
          match body.buyDetails with
          | none => (s, .buyDetailsRequired)
          | some buyDetails =>
            createFinish s newId bookingType body.paymentMethod
              { bookingData with buyDetails := some buyDetails }
              (numOr buyDetails.totalPrice 0)
        else if bookingType = "own_contact" then
          match body.ownDetails with
          | none => (s, .contactDetailsRequired)
          | some ownDetails =>
            createFinish s newId bookingType body.paymentMethod
              { bookingData with
                ownDetails := some ownDetails
                bookingStatus := some .inquiry } 0
        else createFinish s newId bookingType body.paymentMethod bookingData 0

/-! ## `routes/wallet.js`: `POST /deduct` between its `await`s -/

/-- A `/deduct` request: the caller and the body
`{ amount, reason, bookingId, description }`. -/
structure DeductRequest where
  caller : Caller
  amount : Option Amount
  reason : Option String
  bookingId : Option BookingId
  description : Option String

/-- Where the handler of a `/deduct` request stands: not started, past the
balance check on the document `user` it read (about to write), or answered. -/
inductive DeductProgress where
  | start
  | checked (a : Amount) (user : User)
  | answered (r : Response)
  deriving DecidableEq

/-- The handler of `/deduct` up to its first write: the amount check,
`await User.findById` and the balance check on the document read. -/
def deductCheck (s : State) (q : DeductRequest) : DeductProgress :=
  if invalidAmount q.amount then .answered .invalidAmount
  else
    let a := q.amount.getD 0
    match findUser s q.caller.userId with
    | none => .answered .userNotFound
    | some user =>
      if user.wallet.balance < a then
        .answered (.insufficient a user.wallet.balance (some (a - user.wallet.balance)))
      else .checked a user

/-- The rest of the handler of `/deduct`: `await User.findByIdAndUpdate` with
the `$inc` and `await WalletTransaction.create`, where `user` is the document
read before the balance check. -/
def deductCommit (s : State) (q : DeductRequest) (a : Amount) (user : User) :
    State × Response :=
  match incBalance s.users q.caller.userId (-a) with
  | (_, none) => (s, .internalError)
  | (users', some updatedUser) =>
    match WalletTransaction.create s.log
        { userId := q.caller.userId, type := .debit, amount := a,
          reason := strOr q.reason "payment", bookingId := q.bookingId,
          description := q.description, balanceBefore := some user.wallet.balance,
          balanceAfter := some updatedUser.wallet.balance,
          status := some .completed } with
    | none => ({ s with users := users' }, .internalError)
    | some log' =>
      ({ s with users := users', log := log' }, .walletOk updatedUser.wallet.balance)

/-- The handler of a `/deduct` request runs until it next gives up control:
from the start to the end of the balance check, from there to its answer. -/
def deductAdvance (s : State) (q : DeductRequest) : DeductProgress → State × DeductProgress
  | .start => (s, deductCheck s q)
  | .checked a user => ((deductCommit s q a user).1, .answered (deductCommit s q a user).2)
  | .answered r => (s, .answered r)

/-- One turn of the event loop: the handler of request number `i` runs. -/
def tick (q : DeductRequest) (sp : State × List DeductProgress) (i : Nat) :
    State × List DeductProgress :=
  match sp.2.get? i with
  | none => sp
  | some p => ((deductAdvance sp.1 q p).1, sp.2.set i (deductAdvance sp.1 q p).2)

/-- The database and the handlers after `n` copies of the request `q` have
been served concurrently, `schedule` naming the handler that runs at each
turn. -/
def interleave (s : State) (q : DeductRequest) (n : Nat) (schedule : List Nat) :
    State × List DeductProgress :=
  schedule.foldl (tick q) (s, List.replicate n .start)

/-- The number of requests answered with status 200. -/
def successes (ps : List DeductProgress) : Nat :=
  (ps.filter fun p =>
    match p with
    | .answered r => r.isSuccess
    | _ => false).length

/-! ## `routes/admin.js`: user management -/

/-- A document of `models/User.js`, restricted to the paths that the user
management of `routes/admin.js` reads or writes: `_id`, `role` and `name`.
The schema has no path `isActive`. -/
structure Account where
  id : UserId
  role : Role
  name : Option String
  deriving DecidableEq

/-- What `routes/admin.js` asks of Mongoose that depends on the installed
version, which the repository does not pin: whether a filter on a path that
is not in the schema is dropped from the query (`strictQuery`) or sent to
the database, and whether documents have the method `delete`. -/
structure Mongoose where
  strictQuery : Bool
  documentDelete : Bool

/-- The string stored for a role. -/
def Role.toString : Role → String
  | .tenant => "tenant"
  | .landlord => "landlord"
  | .admin => "admin"

/-- The `enum` validator of the `role` path of `models/User.js`. -/
def Role.ofString (s : String) : Option Role :=
  if s = "tenant" then some .tenant
  else if s = "landlord" then some .landlord
  else if s = "admin" then some .admin
  else none

/-- `User.findById(id)` on the collection `users`. -/
def findAccount (users : List Account) (id : UserId) : Option Account :=
  users.find? (fun u => u.id = id)

/-- `User.countDocuments({ role: 'admin' })`. -/
def countAdmins (users : List Account) : Nat :=
  (users.filter (fun u => u.role = .admin)).length

/-- `User.countDocuments({ role: 'admin', isActive: true })`: no document has
the path `isActive`, so the filter matches nothing unless Mongoose drops
`isActive` from it. -/
def countActiveAdmins (m : Mongoose) (users : List Account) : Nat :=
  if m.strictQuery then countAdmins users else 0

/-- `user.save()` of a document whose `role` or `name` was modified: the
stored document with that `_id` is replaced. -/
def saveAccount (users : List Account) (user : Account) : List Account :=
  users.map (fun v => if v.id = user.id then user else v)

/-- `user.delete()`: the document with that `_id` is removed. -/
def deleteAccount (users : List Account) (id : UserId) : List Account :=
  users.filter (fun v => v.id ≠ id)

/-- The body `{ action, role, name }` of `PUT /users/:id`. -/
structure UpdateBody where
  action : Option String
  role : Option String
  name : Option String

/-- The responses of `PUT /users/:id` and `DELETE /users/:id`. -/
inductive AdminResponse where
  /-- 401 or 403 of `roleCheck('admin')` -/
  | refused (r : Response)
  /-- 404 `User not found` -/
  | userNotFound
  /-- 400 `Cannot deactivate the last admin` -/
  | lastAdminDeactivate
  /-- 400 `Cannot remove the last admin` -/
  | lastAdminRole
  /-- 400 `Invalid action` -/
  | invalidAction
  /-- 400 of the catch of `PUT /users/:id`, with the message of the
  `ValidationError` that `user.save()` raised -/
  | validationError
  /-- 200 of `PUT /users/:id` with the user -/
  | updated (user : Account)
  /-- 400 `Cannot delete the last admin` -/
  | lastAdminDelete
  /-- 500 of the catch of `DELETE /users/:id` -/
  | internalError
  /-- 200 `User deleted successfully` -/
  | deleted
  deriving DecidableEq

/-- The HTTP status code of a response of the user management. -/
def AdminResponse.status : AdminResponse → Nat
  | .refused r => r.status
  | .userNotFound => 404
  | .lastAdminDeactivate => 400
  | .lastAdminRole => 400
  | .invalidAction => 400
  | .validationError => 400
  | .updated _ => 200
  | .lastAdminDelete => 400
  | .internalError => 500
  | .deleted => 200

/-- The role to assign when `role && role !== user.role` holds. -/
def roleChange (user : Account) : Option String → Option String
  | none => none
  | some r => if r ≠ "" ∧ r ≠ user.role.toString then some r else none

/-- `if (name) { user.name = name; }`; the schema trims the name. -/
def withName (user : Account) : Option String → Account
  | none => user
  | some n => if n = "" then user else { user with name := some n.trim }

/-- `PUT /users/:id` with body `{ action, role, name }`, behind
`roleCheck('admin')`.  The actions `deactivate` and `activate` assign
`user.isActive`, which is not a path of the schema: `user.save()` has
nothing to write. -/
def updateUser (m : Mongoose) (users : List Account) (caller : Caller) (id : UserId)
    (body : UpdateBody) : List Account × AdminResponse :=
  match roleCheck [.admin] caller with
  | some r => (users, .refused r)
  | none =>
    match findAccount users id with
    | none => (users, .userNotFound)
    | some user =>
      if body.action = some "deactivate" then
        if user.role = .admin ∧ countActiveAdmins m users ≤ 1 then
          (users, .lastAdminDeactivate)
        else (users, .updated user)
      else if body.action = some "activate" then (users, .updated user)
      else if body.action = some "update" then
        match roleChange user body.role with
        | some r =>
          if user.role = .admin ∧ r ≠ "admin" ∧ countAdmins users ≤ 1 then
            (users, .lastAdminRole)
          else
            match Role.ofString r with
            | none => (users, .validationError)
            | some role =>
              (saveAccount users (withName { user with role := role } body.name),
               .updated (withName { user with role := role } body.name))
        | none =>
          (saveAccount users (withName user body.name), .updated (withName user body.name))
      else (users, .invalidAction)

/-- `DELETE /users/:id`, behind `roleCheck('admin')`, on the user collection
(the properties and requests of the user are deleted from their own
collections before `user.delete()`). -/
def deleteUser (m : Mongoose) (users : List Account) (caller : Caller) (id : UserId) :
    List Account × AdminResponse :=
  match roleCheck [.admin] caller with
  | some r => (users, .refused r)
  | none =>
    match findAccount users id with
    | none => (users, .userNotFound)
    | some user =>
      if user.role = .admin ∧ countAdmins users ≤ 1 then (users, .lastAdminDelete)
      else if m.documentDelete then (deleteAccount users user.id, .deleted)
      else (users, .internalError)

/-- At least one user with role admin exists. -/
def HasAdmin (users : List Account) : Prop := ∃ u ∈ users, u.role = .admin

/-- No two documents of the collection share their `_id`. -/
def UniqueIds (users : List Account) : Prop := (users.map (fun u => u.id)).Nodup

/-! ## Properties of states -/

/-- The record `pay` hands to `WalletTransaction.create`, as it is stored. -/
def paymentRecord (c : Caller) (bid : BookingId) (b : Booking) : WalletTransaction :=
  { userId := c.userId, type := .debit, amount := totalPrice b, reason := .payment,
    bookingId := some bid,
    description := some ("Payment for " ++ b.bookingType.toString ++ " booking"),
    balanceBefore := none, balanceAfter := none,
    paymentGateway := .wallet, status := .completed }


/-- Every wallet balance is at least zero. -/
def BalancesNonneg (s : State) : Prop :=
  ∀ u usr, s.users u = some usr → 0 ≤ usr.wallet.balance

/-- Every booking whose payment is completed records a paid amount of at
least zero. -/
def PaidNonneg (s : State) : Prop :=
  ∀ id b, s.bookings id = some b → b.payment.status = .completed → 0 ≤ b.payment.paidAmount

/-- The change `s.users` may undergo in one request: none, or one `$inc` that
keeps the incremented balance at least zero when it was so before. -/
def SafeUsers (s : State) (users' : UserId → Option User) : Prop :=
  users' = s.users ∨
    ∃ id d, users' = (incBalance s.users id d).1 ∧
      ∀ usr, s.users id = some usr → 0 ≤ usr.wallet.balance → 0 ≤ usr.wallet.balance + d

/-- The sum of the amounts of the completed records of kind `t` that `log`
holds for user `u`. -/
def sumOf (t : TxType) (log : List WalletTransaction) (u : UserId) : Amount :=
  ((log.filter fun r => r.userId = u ∧ r.status = .completed ∧ r.type = t).map
    fun r => r.amount).sum

/-- The balance the specification derives from the log (section 8):
`initial_balance + Σcredits − Σdebits` over the user's completed records. -/
def ledgerBalance (initial : Amount) (log : List WalletTransaction) (u : UserId) : Amount :=
  initial + sumOf .credit log u - sumOf .debit log u

/-- Ledger consistency relative to the initial balances `init`: the balance of
every existing user is the one the specification derives from the log. -/
def Consistent (init : UserId → Amount) (s : State) : Prop :=
  ∀ u usr, s.users u = some usr → usr.wallet.balance = ledgerBalance (init u) s.log u

/-- No request of the sequence `ops`, served from `s` on, is answered with
status 500. -/
def NoFault : State → List Op → Prop
  | _, [] => True
  | s, op :: ops => (step s op).2 ≠ .internalError ∧ NoFault (step s op).1 ops

/-- The total that the log holds for booking `bid` in records of type `t`
and reason `r`. -/
def bookingTotal (t : TxType) (r : Reason) (log : List WalletTransaction)
    (bid : BookingId) : Amount :=
  ((log.filter (fun x => x.type = t ∧ x.reason = r ∧ x.bookingId = some bid)).map
    (fun x => x.amount)).sum

/-- The total debited from wallets as payment for booking `bid`. -/
def paidFor (log : List WalletTransaction) (bid : BookingId) : Amount :=
  bookingTotal .debit .payment log bid

/-- The total credited to wallets as refunds for booking `bid`. -/
def refundedFor (log : List WalletTransaction) (bid : BookingId) : Amount :=
  bookingTotal .credit .refund log bid

/-! ## Example data -/

/-- A tenant with user id 1. -/
def exTenant : Caller := { userId := 1, role := some .tenant }

/-- A landlord with user id 2. -/
def exLandlord : Caller := { userId := 2, role := some .landlord }

/-- Users 1 and 2 exist; user 1 holds `balance`, user 2 holds nothing. -/
def exUsers (balance : Amount) : UserId → Option User := fun u =>
  if u = 1 then some { wallet := { balance := balance } }
  else if u = 2 then some { wallet := { balance := 0 } }
  else none

/-- A rent booking of tenant 1 with landlord 2 and a total price of 60. -/
def exBooking (status : BookingStatus) (payment : PaymentStatus) (paid : Amount) : Booking :=
  { tenant := 1, landlord := some 2, bookingType := .rent,
    rentTotalPrice := some 60, buyTotalPrice := none,
    payment := { status := payment, paymentMethod := some "wallet", paidAmount := paid,
                 refundAmount := 0 },
    bookingStatus := status,
    landlordApproval := { status := .pending, message := none },
    cancellationPolicy := .paid,
    cancellation := { cancelled := false, cancelledBy := none, reason := none,
                      refundAmount := none, refundStatus := none } }

/-- A database with users 1 (holding `balance`) and 2, an empty log and the
single booking `b` stored under id 7. -/
def exState (balance : Amount) (b : Booking) : State :=
  { users := exUsers balance, log := [], bookings := fun i => if i = 7 then some b else none }

/-- A booking paid in full from the wallet and waiting for the landlord:
tenant 1, landlord 2, a rent total of `paid`, `payment.status = completed`
with `paidAmount = paid`, under the cancellation policy `policy`. -/
def exPaidBooking (policy : CancellationPolicy) (paid : Amount) : Booking :=
  { tenant := 1, landlord := some 2, bookingType := .rent,
    rentTotalPrice := some paid, buyTotalPrice := none,
    payment := { status := .completed, paymentMethod := some "wallet", paidAmount := paid,
                 refundAmount := 0 },
    bookingStatus := .payment_completed,
    landlordApproval := { status := .pending, message := none },
    cancellationPolicy := policy,
    cancellation := { cancelled := false, cancelledBy := none, reason := none,
                      refundAmount := none, refundStatus := none } }

/-- The document `new Request({ title, description, tenant })` that
`POST /` of `routes/request.js` saves: no landlord, no property, and the
schema defaults of `models/Request.js` everywhere else. -/
def generalRequest (tenant : UserId) : Booking :=
  { tenant := tenant, landlord := none, bookingType := .general,
    rentTotalPrice := none, buyTotalPrice := none,
    payment := { status := .pending, paymentMethod := none, paidAmount := 0,
                 refundAmount := 0 },
    bookingStatus := .inquiry,
    landlordApproval := { status := .pending, message := none },
    cancellationPolicy := .paid,
    cancellation := { cancelled := false, cancelledBy := none, reason := none,
                      refundAmount := none, refundStatus := none } }

/-- The record `reject` hands to `WalletTransaction.create`, as it is stored. -/
def rejectRecord (bid : BookingId) (b : Booking) : WalletTransaction :=
  { userId := b.tenant, type := .credit, amount := b.payment.paidAmount, reason := .refund,
    bookingId := some bid, description := some "Refund for rejected booking",
    balanceBefore := none, balanceAfter := none,
    paymentGateway := .wallet, status := .completed }

/-- The record `cancel` hands to `WalletTransaction.create`, as it is stored. -/
def cancelRecord (c : Caller) (bid : BookingId) (b : Booking) : WalletTransaction :=
  { userId := c.userId, type := .credit, amount := cancelRefund b, reason := .refund,
    bookingId := some bid, description := some "Refund for cancelled booking",
    balanceBefore := none, balanceAfter := none,
    paymentGateway := .wallet, status := .completed }

/-- The database after tenant 1 (holding 100) has paid booking 7 from the
wallet and landlord 2 has rejected it. -/
def exRejectedState : State :=
  run (exState 100 (exBooking .awaiting_payment .pending 0))
    [Op.pay exTenant 7 (some "wallet"), Op.reject exLandlord 7 none]

/-- The database after tenant 1 has cancelled the unpaid booking 7. -/
def exCancelledState : State :=
  run (exState 100 (exBooking .awaiting_payment .pending 0)) [Op.cancel exTenant 7 none]

/-- The object `create` hands to `Request.create` for a rent booking. -/
def rentData (c : Caller) (property : Property) (body : CreateBody) (r : RentDetails) :
    BookingData :=
  { title := "rent".toUpper ++ " Request - " ++ property.title,
    description := "Booking request for property: " ++ property.title,
    tenant := c.userId, landlord := property.owner, property := body.propertyId,
    bookingType := "rent", rentDetails := some r,
    payment := some (initialPayment body.paymentMethod),
    bookingStatus := some .awaiting_payment }

/-- A property collection with the single property 5, owned by user 2. -/
def exProperties : PropertyId → Option Property := fun i =>
  if i = 5 then some { owner := 2, title := "Flat" } else none

/-- Rent details for a month at a total price of 60. -/
def exRent : RentDetails :=
  { period := some "monthly", pricePerUnit := some 60, totalPrice := some 60, nights := none }

/-- A request body asking to rent property `propertyId` for a month. -/
def exRentBody (propertyId : PropertyId) (rentDetails : Option RentDetails) : CreateBody :=
  { propertyId := some propertyId, bookingType := some "rent", rentDetails := rentDetails,
    buyDetails := none, ownDetails := none, paymentMethod := none }

/-- A caller whose token names user 3, who is not in the database. -/
def exStranger : Caller := { userId := 3, role := some .tenant }

/-- The example database with booking 7 made out to tenant 3. -/
def exStrangerState : State :=
  exState 100 { exBooking .awaiting_payment .pending 0 with tenant := 3 }

/-- A debit of 60 by tenant 1. -/
def exDeduct : DeductRequest :=
  { caller := exTenant, amount := some 60, reason := none, bookingId := none,
    description := none }

/-- A caller with the role admin, user 1. -/
def exAdmin : Caller := { userId := 1, role := some .admin }

/-- A user collection whose only admin is user 1. -/
def exAccounts : List Account :=
  [{ id := 1, role := .admin, name := some "root" }, { id := 2, role := .tenant, name := none }]

/-- A Mongoose that sends the filter as written and has `Document.delete`. -/
def exMongoose : Mongoose := { strictQuery := false, documentDelete := true }

/-- Tenant 1 pays booking 7 from the wallet and cancels it, then landlord 2
rejects it. -/
def exRefundTwice : List Op :=
  [Op.pay exTenant 7 (some "wallet"), Op.cancel exTenant 7 none, Op.reject exLandlord 7 none]

/-! ## `routes/request.js` and the reachable states -/

/-- `POST /` of `routes/request.js` with body `{ title, description }`, behind
`roleCheck(['tenant'])`: `new Request({ title, description, tenant })` is
saved under the id `newId` MongoDB generates for it; `save` rejects the
document when the required `title` is missing or empty. -/
def postRequest (s : State) (caller : Caller) (newId : BookingId) (title : Option String) :
    State :=
  match roleCheck [.tenant] caller with
  | some _ => s
  | none =>
    if strOr title "" = "" then s
    else { s with bookings := Function.update s.bookings newId
                                (some (generalRequest caller.userId)) }

/-- The states that the routes build from the empty database, requests
served one after the other: signup, `POST /create` on any property
collection, `POST /` of `routes/request.js`, and the seven requests of
`Op`. -/
inductive Reachable : State → Prop where
  | ofEmpty : Reachable emptyState
  | ofSignup (s : State) (id : UserId) : Reachable s → Reachable (signup s id)
  | ofCreate (properties : PropertyId → Option Property) (s : State) (c : Caller)
      (newId : BookingId) (body : CreateBody) :
      Reachable s → Reachable (create properties s c newId body).1
  | ofRequest (s : State) (c : Caller) (newId : BookingId) (title : Option String) :
      Reachable s → Reachable (postRequest s c newId title)
  | ofStep (s : State) (op : Op) : Reachable s → Reachable (step s op).1

/-! ## Notions of the specification -/

/-- The three states the specification calls terminal. -/
def BookingStatus.isTerminal (st : BookingStatus) : Bool :=
  st = .completed || st = .cancelled || st = .rejected

/-- Rounding half-up to a multiple of `unit`, in the words of the
specification (section 4.4). -/
def specRoundHalfUp (unit x : Amount) : Amount := ((⌊x / unit + 1 / 2⌋ : ℤ) : ℚ) * unit

/-- The minor unit of the currency: the routes count money in rupees
(`₹${amount}`, `currency: 'INR'`), whose minor unit is the paisa. -/
def minorUnit : Amount := 1 / 100

/-! ## Auxiliary facts about the store primitives -/

theorem incBalance_some (users : UserId → Option User) (id : UserId) (d : Amount)
    (u : User) (h : users id = some u) :
    incBalance users id d
      = (Function.update users id (some { wallet := { balance := u.wallet.balance + d } }),
         some { wallet := { balance := u.wallet.balance + d } }) := by
  simp [incBalance, h]

theorem incBalance_none (users : UserId → Option User) (id : UserId) (d : Amount)
    (h : users id = none) : incBalance users id d = (users, none) := by
  simp [incBalance, h]

theorem create_eq_some (log : List WalletTransaction) (d : TxDoc) (r : Reason)
    (hr : Reason.ofString d.reason = some r) (ha : 0 ≤ d.amount) :
    WalletTransaction.create log d = some (log ++ [d.toRecord r]) := by
  simp [WalletTransaction.create, hr, not_lt.mpr ha]

theorem create_some_iff (log log' : List WalletTransaction) (d : TxDoc) :
    WalletTransaction.create log d = some log' ↔
      ∃ r, Reason.ofString d.reason = some r ∧ 0 ≤ d.amount ∧ log' = log ++ [d.toRecord r] := by
  unfold WalletTransaction.create
  cases h : Reason.ofString d.reason with
  | none => simp
  | some r =>
    by_cases ha : d.amount < 0
    · simp [ha]
    · simp [ha, not_lt.mp ha, eq_comm]

theorem invalidAmount_some (a : Amount) : invalidAmount (some a) = decide (a ≤ 0) := by
  by_cases h : a ≤ 0
  · simp [invalidAmount, h]
  · have : a ≠ 0 := fun h0 => h (le_of_eq h0)
    simp [invalidAmount, h, this]

/-! ## Preservation of non-negative balances -/

theorem incBalance_nonneg (users : UserId → Option User) (id : UserId) (d : Amount)
    (h : ∀ u usr, users u = some usr → 0 ≤ usr.wallet.balance)
    (hd : ∀ usr, users id = some usr → 0 ≤ usr.wallet.balance + d) :
    ∀ u usr, (incBalance users id d).1 u = some usr → 0 ≤ usr.wallet.balance := by
  intro u usr hu
  cases hid : users id with
  | none => rw [incBalance_none _ _ _ hid] at hu; exact h u usr hu
  | some v =>
    rw [incBalance_some _ _ _ v hid] at hu
    by_cases huid : u = id
    · subst huid
      simp at hu
      subst hu
      exact hd v hid
    · simp [Function.update, huid] at hu
      exact h u usr hu

theorem SafeUsers.nonneg {s : State} {users' : UserId → Option User} (h : SafeUsers s users')
    (hb : BalancesNonneg s) : ∀ u usr, users' u = some usr → 0 ≤ usr.wallet.balance := by
  rcases h with h | ⟨id, d, h, hd⟩
  · rw [h]; exact hb
  · rw [h]
    exact incBalance_nonneg s.users id d hb (fun usr hu => hd usr hu (hb id usr hu))

theorem safeUsers_credit (s : State) (id : UserId) (d : Amount) (hd : 0 ≤ d) :
    SafeUsers s (incBalance s.users id d).1 :=
  Or.inr ⟨id, d, rfl, fun _ _ h => add_nonneg h hd⟩

theorem addCredit_safe (s : State) (c : Caller) (amount : Option Amount) :
    SafeUsers s (addCredit s c amount).1.users := by
  unfold addCredit
  cases amount with
  | none => exact Or.inl (by simp [invalidAmount])
  | some a =>
    simp only [invalidAmount_some, Option.getD_some]
    by_cases ha : a ≤ 0
    · exact Or.inl (by simp [ha])
    · simp only [ha, decide_False, Bool.false_eq_true, if_false]
      split_ifs
      · exact Or.inl rfl
      · split
        · exact Or.inl rfl
        · rename_i users' user heq
          have hu : users' = (incBalance s.users c.userId a).1 := by rw [heq]
          have := safeUsers_credit s c.userId a (le_of_lt (not_le.mp ha))
          split <;> simpa [hu] using this

theorem refund_safe (s : State) (c : Caller) (amount : Option Amount)
    (b : Option BookingId) (r : Option String) :
    SafeUsers s (refund s c amount b r).1.users := by
  unfold refund
  cases amount with
  | none => exact Or.inl (by simp [invalidAmount])
  | some a =>
    simp only [invalidAmount_some, Option.getD_some]
    by_cases ha : a ≤ 0
    · exact Or.inl (by simp [ha])
    · simp only [ha, decide_False, Bool.false_eq_true, if_false]
      split
      · exact Or.inl rfl
      · rename_i users' user heq
        have hu : users' = (incBalance s.users c.userId a).1 := by rw [heq]
        have := safeUsers_credit s c.userId a (le_of_lt (not_le.mp ha))
        split <;> simpa [hu] using this

theorem deduct_safe (s : State) (c : Caller) (amount : Option Amount) (r : Option String)
    (b : Option BookingId) (d : Option String) :
    SafeUsers s (deduct s c amount r b d).1.users := by
  unfold deduct
  cases amount with
  | none => exact Or.inl (by simp [invalidAmount])
  | some a =>
    simp only [invalidAmount_some, Option.getD_some]
    by_cases ha : a ≤ 0
    · exact Or.inl (by simp [ha])
    · simp only [ha, decide_False, Bool.false_eq_true, if_false]
      split
      · exact Or.inl rfl
      · rename_i user hfind
        split_ifs with hlt
        · exact Or.inl rfl
        · split
          · exact Or.inl rfl
          · rename_i users' user' heq
            have hu : users' = (incBalance s.users c.userId (-a)).1 := by rw [heq]
            have hs : SafeUsers s (incBalance s.users c.userId (-a)).1 := by
              refine Or.inr ⟨c.userId, -a, rfl, fun usr husr _ => ?_⟩
              have : usr = user := by
                simp only [findUser] at hfind
                rw [hfind] at husr
                exact (Option.some.inj husr).symm
              subst this
              linarith [not_lt.mp hlt]
            split <;> simpa [hu] using hs

theorem addCredit_bookings (s : State) (c : Caller) (amount : Option Amount) :
    (addCredit s c amount).1.bookings = s.bookings := by
  simp only [addCredit]
  repeat' split
  all_goals rfl

theorem refund_bookings (s : State) (c : Caller) (amount : Option Amount)
    (b : Option BookingId) (r : Option String) :
    (refund s c amount b r).1.bookings = s.bookings := by
  simp only [refund]
  repeat' split
  all_goals rfl

theorem deduct_bookings (s : State) (c : Caller) (amount : Option Amount) (r : Option String)
    (b : Option BookingId) (d : Option String) :
    (deduct s c amount r b d).1.bookings = s.bookings := by
  simp only [deduct]
  repeat' split
  all_goals rfl

theorem updateBooking_forall (bookings : BookingId → Option Booking) (id : BookingId)
    (patch : Booking → Booking) (P : Booking → Prop)
    (h : ∀ i b, bookings i = some b → P b)
    (hp : ∀ b, bookings id = some b → P (patch b)) :
    ∀ i b, (updateBooking bookings id patch).1 i = some b → P b := by
  intro i b hb
  unfold updateBooking at hb
  cases hid : bookings id with
  | none => simp only [hid] at hb; exact h i b hb
  | some v =>
    simp only [hid] at hb
    by_cases hi : i = id
    · subst hi
      simp at hb
      subst hb
      exact hp v hid
    · simp [Function.update, hi] at hb
      exact h i b hb

theorem pay_inv (s : State) (c : Caller) (bid : BookingId) (m : Option String) :
    SafeUsers s (pay s c bid m).1.users ∧ (PaidNonneg s → PaidNonneg (pay s c bid m).1) := by
  simp only [pay]
  split
  · exact ⟨Or.inl rfl, id⟩
  · split
    · exact ⟨Or.inl rfl, id⟩
    · rename_i booking hbk
      split_ifs with h1 h2 h3
      · exact ⟨Or.inl rfl, id⟩
      · exact ⟨Or.inl rfl, id⟩
      · exact ⟨Or.inl rfl, id⟩
      · split
        · exact ⟨Or.inl rfl, id⟩
        · rename_i user hfind
          have hpos : 0 < totalPrice booking := by
            rcases lt_trichotomy (totalPrice booking) 0 with h | h | h
            · exact absurd (Or.inr (le_of_lt h)) h3
            · exact absurd (Or.inl h) h3
            · exact h
          split_ifs with hlt
          · exact ⟨Or.inl rfl, id⟩
          · have hs : SafeUsers s (incBalance s.users c.userId (-totalPrice booking)).1 := by
              refine Or.inr ⟨c.userId, _, rfl, fun usr husr _ => ?_⟩
              have : usr = user := by
                simp only [findUser] at hfind
                rw [hfind] at husr
                exact (Option.some.inj husr).symm
              subst this
              linarith [not_lt.mp hlt]
            split
            · exact ⟨hs, id⟩
            · refine ⟨hs, fun hp => ?_⟩
              apply updateBooking_forall s.bookings bid _
                (fun b => b.payment.status = .completed → 0 ≤ b.payment.paidAmount) hp
              intro b _ _
              exact le_of_lt hpos
      · exact ⟨Or.inl rfl, id⟩

theorem paid_update_keep (s : State) (id : BookingId) (patch : Booking → Booking)
    (hpatch : ∀ b, (patch b).payment.status = .completed →
      b.payment.status = .completed ∧ (patch b).payment.paidAmount = b.payment.paidAmount)
    (hp : PaidNonneg s) (users : UserId → Option User) (log : List WalletTransaction) :
    PaidNonneg { users := users, log := log, bookings := (updateBooking s.bookings id patch).1 } := by
  apply updateBooking_forall s.bookings id patch
    (fun b => b.payment.status = .completed → 0 ≤ b.payment.paidAmount) hp
  intro b hb hst
  rw [(hpatch b hst).2]
  exact hp id b hb (hpatch b hst).1

theorem cancel_inv (s : State) (c : Caller) (id : BookingId) (r : Option String)
    (hp : PaidNonneg s) :
    SafeUsers s (cancel s c id r).1.users ∧ PaidNonneg (cancel s c id r).1 := by
  simp only [cancel]
  split
  · exact ⟨Or.inl rfl, hp⟩
  · rename_i booking hbk
    split_ifs with h1 h2 h3
    · exact ⟨Or.inl rfl, hp⟩
    · exact ⟨Or.inl rfl, hp⟩
    · have hs := safeUsers_credit s c.userId (cancelRefund booking) (le_of_lt h3.2.2)
      split
      · exact ⟨hs, hp⟩
      · exact ⟨hs, by apply paid_update_keep s id _ _ hp; exact fun b h => ⟨h, rfl⟩⟩
    · exact ⟨Or.inl rfl, by apply paid_update_keep s id _ _ hp; exact fun b h => ⟨h, rfl⟩⟩

theorem approve_inv (s : State) (c : Caller) (id : BookingId) (m : Option String)
    (hp : PaidNonneg s) :
    SafeUsers s (approve s c id m).1.users ∧ PaidNonneg (approve s c id m).1 := by
  simp only [approve]
  repeat' split
  all_goals first
    | exact ⟨Or.inl rfl, hp⟩
    | exact ⟨Or.inl rfl, by apply paid_update_keep s id _ _ hp; exact fun b h => ⟨h, rfl⟩⟩

theorem reject_inv (s : State) (c : Caller) (id : BookingId) (m : Option String)
    (hp : PaidNonneg s) :
    SafeUsers s (reject s c id m).1.users ∧ PaidNonneg (reject s c id m).1 := by
  simp only [reject]
  split
  · exact ⟨Or.inl rfl, hp⟩
  · split
    · exact ⟨Or.inl rfl, hp⟩
    · rename_i booking hbk
      split
      · exact ⟨Or.inl rfl, hp⟩
      · split_ifs with h1 h2
        · exact ⟨Or.inl rfl, hp⟩
        · have hs := safeUsers_credit s booking.tenant booking.payment.paidAmount
            (hp id booking hbk h2)
          split
          · exact ⟨hs, hp⟩
          · exact ⟨hs, by apply paid_update_keep s id _ _ hp; exact fun b h => by simp [rejectPatch] at h⟩
        · exact ⟨Or.inl rfl, by apply paid_update_keep s id _ _ hp; exact fun b h => by simp [rejectPatch] at h⟩

theorem step_inv (s : State) (op : Op) (hb : BalancesNonneg s) (hp : PaidNonneg s) :
    BalancesNonneg (step s op).1 ∧ PaidNonneg (step s op).1 := by
  cases op with
  | addCredit c a =>
    refine ⟨(addCredit_safe s c a).nonneg hb, ?_⟩
    simp only [PaidNonneg, step, addCredit_bookings]; exact hp
  | deduct c a r b d =>
    refine ⟨(deduct_safe s c a r b d).nonneg hb, ?_⟩
    simp only [PaidNonneg, step, deduct_bookings]; exact hp
  | refund c a b r =>
    refine ⟨(refund_safe s c a b r).nonneg hb, ?_⟩
    simp only [PaidNonneg, step, refund_bookings]; exact hp
  | pay c b m => exact ⟨(pay_inv s c b m).1.nonneg hb, (pay_inv s c b m).2 hp⟩
  | cancel c b r => exact ⟨(cancel_inv s c b r hp).1.nonneg hb, (cancel_inv s c b r hp).2⟩
  | approve c b m => exact ⟨(approve_inv s c b m hp).1.nonneg hb, (approve_inv s c b m hp).2⟩
  | reject c b m => exact ⟨(reject_inv s c b m hp).1.nonneg hb, (reject_inv s c b m hp).2⟩

theorem run_inv (ops : List Op) : ∀ s : State, BalancesNonneg s → PaidNonneg s →
    BalancesNonneg (run s ops) ∧ PaidNonneg (run s ops) := by
  induction ops with
  | nil => intro s hb hp; exact ⟨hb, hp⟩
  | cons op ops ih =>
    intro s hb hp
    have h := step_inv s op hb hp
    exact ih (step s op).1 h.1 h.2

/-! ## The balance invariant on example states -/

theorem exUsers_nonneg (balance : Amount) (h : 0 ≤ balance) (b : Booking) :
    BalancesNonneg (exState balance b) := by
  intro u usr hu
  simp only [exState, exUsers] at hu
  split_ifs at hu
  · cases hu; exact h
  · cases hu; exact le_refl _

theorem exState_paidNonneg (balance paid : Amount) (st : BookingStatus) (ps : PaymentStatus)
    (h : ps = .completed → 0 ≤ paid) : PaidNonneg (exState balance (exBooking st ps paid)) := by
  intro i b hb hst
  simp only [exState] at hb
  split_ifs at hb
  cases hb
  exact h hst

/-- The condition of `run_inv` on the paid amounts cannot be dropped for an
arbitrary starting state: every balance is at least zero (tenant 1 holds 50),
booking 7 carries a completed payment with `paidAmount = -100`, and the
landlord's reject increments the tenant's balance by that amount and leaves
it at `-50`.  No route writes such a booking. -/
theorem balance_negative_after_reject :
    BalancesNonneg (exState 50 (exBooking .payment_completed .completed (-100))) ∧
    (run (exState 50 (exBooking .payment_completed .completed (-100)))
        [Op.reject exLandlord 7 none]).users 1 = some { wallet := { balance := -50 } } ∧
    ¬ BalancesNonneg (run (exState 50 (exBooking .payment_completed .completed (-100)))
        [Op.reject exLandlord 7 none]) := by
  have h : (run (exState 50 (exBooking .payment_completed .completed (-100)))
        [Op.reject exLandlord 7 none]).users 1 = some { wallet := { balance := -50 } } := by
    simp [run, step, reject, roleCheck, exLandlord, exState, exBooking, exUsers, incBalance,
      WalletTransaction.create, Reason.ofString]
    norm_num
  refine ⟨exUsers_nonneg 50 (by norm_num) _, h, fun hn => ?_⟩
  have := hn 1 _ h
  norm_num at this

/-! ## Claims on the wallet routes -/

theorem deduct_eq_ok (s : State) (c : Caller) (a : Amount) (reason : Option String)
    (bookingId : Option BookingId) (description : Option String) (user : User) (r : Reason)
    (hu : s.users c.userId = some user) (ha : 0 < a)
    (hr : Reason.ofString (strOr reason "payment") = some r) (hle : a ≤ user.wallet.balance) :
    deduct s c (some a) reason bookingId description
      = ({ s with
           users := Function.update s.users c.userId
             (some { wallet := { balance := user.wallet.balance + -a } })
           log := s.log ++ [{ userId := c.userId, type := .debit, amount := a, reason := r,
                              bookingId := bookingId, description := description,
                              balanceBefore := some user.wallet.balance,
                              balanceAfter := some (user.wallet.balance + -a),
                              paymentGateway := .wallet, status := .completed }] },
         .walletOk (user.wallet.balance + -a)) := by
  have hc := create_eq_some s.log
    { userId := c.userId, type := .debit, amount := a, reason := strOr reason "payment",
      bookingId := bookingId, description := description,
      balanceBefore := some user.wallet.balance,
      balanceAfter := some (user.wallet.balance + -a), status := some .completed } r hr
    (le_of_lt ha)
  simp only [deduct, invalidAmount_some, not_le.mpr ha, findUser, hu, not_lt.mpr hle,
    incBalance_some _ _ _ user hu, Option.getD_some, decide_False, Bool.false_eq_true,
    if_false, hc]
  rfl

theorem deduct_eq_insufficient (s : State) (c : Caller) (a : Amount) (reason : Option String)
    (bookingId : Option BookingId) (description : Option String) (user : User)
    (hu : s.users c.userId = some user) (ha : 0 < a) (hlt : user.wallet.balance < a) :
    deduct s c (some a) reason bookingId description
      = (s, .insufficient a user.wallet.balance (some (a - user.wallet.balance))) := by
  simp [deduct, invalidAmount_some, not_le.mpr ha, findUser, hu, hlt]

/-- C2 (amended).  For every existing user, every amount > 0 and every
`reason` that is left out or is one of the seven reasons of the schema,
`POST /deduct` succeeds if and only if balance >= amount, and on success the
new balance is balance - amount. -/
theorem deduct_succeeds_iff (s : State) (c : Caller) (a : Amount) (reason : Option String)
    (bookingId : Option BookingId) (description : Option String) (user : User)
    (hu : s.users c.userId = some user) (ha : 0 < a)
    (hr : (Reason.ofString (strOr reason "payment")).isSome = true) :
    ((deduct s c (some a) reason bookingId description).2.isSuccess = true
        ↔ a ≤ user.wallet.balance) ∧
    (a ≤ user.wallet.balance →
      (deduct s c (some a) reason bookingId description).2
          = .walletOk (user.wallet.balance - a) ∧
      (deduct s c (some a) reason bookingId description).1.users c.userId
          = some { wallet := { balance := user.wallet.balance - a } }) := by
  obtain ⟨r, hr⟩ := Option.isSome_iff_exists.mp hr
  by_cases hle : a ≤ user.wallet.balance
  · rw [deduct_eq_ok s c a reason bookingId description user r hu ha hr hle]
    simp [Response.isSuccess, Response.status, hle, sub_eq_add_neg]
  · rw [deduct_eq_insufficient s c a reason bookingId description user hu ha (not_le.mp hle)]
    simp [Response.isSuccess, Response.status, hle]

/-- Witness of C2: the scenario of the specification.  With a balance of
100, a debit of 60 succeeds and leaves 40. -/
theorem deduct_succeeds_iff_witness :
    ((deduct (exState 100 (exBooking .awaiting_payment .pending 0))
        exTenant (some 60) none none none).2.isSuccess = true ↔ (60 : Amount) ≤ 100) ∧
    ((60 : Amount) ≤ 100 →
      (deduct (exState 100 (exBooking .awaiting_payment .pending 0))
        exTenant (some 60) none none none).2 = .walletOk (100 - 60) ∧
      (deduct (exState 100 (exBooking .awaiting_payment .pending 0))
        exTenant (some 60) none none none).1.users exTenant.userId
          = some { wallet := { balance := 100 - 60 } }) :=
  deduct_succeeds_iff (exState 100 (exBooking .awaiting_payment .pending 0)) exTenant 60
    none none none { wallet := { balance := 100 } } (by simp [exState, exUsers, exTenant])
    (by norm_num) (by simp [strOr, Reason.ofString])

/-- The scenario of C2 in full: balance 100, debit(60) succeeds and leaves 40;
a second debit(60) fails with required 60 and available 40 and changes
nothing. -/
theorem deduct_scenario :
    (deduct (exState 100 (exBooking .awaiting_payment .pending 0))
        exTenant (some 60) none none none).2 = .walletOk 40 ∧
    deduct (deduct (exState 100 (exBooking .awaiting_payment .pending 0))
        exTenant (some 60) none none none).1 exTenant (some 60) none none none
      = ((deduct (exState 100 (exBooking .awaiting_payment .pending 0))
            exTenant (some 60) none none none).1, .insufficient 60 40 (some 20)) := by
  have h1 := deduct_eq_ok (exState 100 (exBooking .awaiting_payment .pending 0)) exTenant 60
    none none none { wallet := { balance := 100 } } .payment
    (by simp [exState, exUsers, exTenant]) (by norm_num) (by simp [strOr, Reason.ofString])
    (by norm_num)
  rw [h1]
  refine ⟨by norm_num, ?_⟩
  have h2 := deduct_eq_insufficient
    { exState 100 (exBooking .awaiting_payment .pending 0) with
      users := Function.update (exState 100 (exBooking .awaiting_payment .pending 0)).users
        exTenant.userId (some { wallet := { balance := (100 : Amount) + -60 } })
      log := (exState 100 (exBooking .awaiting_payment .pending 0)).log ++
        [{ userId := exTenant.userId, type := .debit, amount := 60, reason := .payment,
           bookingId := none, description := none, balanceBefore := some 100,
           balanceAfter := some ((100 : Amount) + -60), paymentGateway := .wallet,
           status := .completed }] }
    exTenant 60 none none none { wallet := { balance := (100 : Amount) + -60 } }
    (by simp) (by norm_num) (by norm_num)
  rw [h2]
  norm_num

/-- C2 as stated fails: user 1 holds 100 and asks to deduct 60 with the reason
`"bonus"`, which is not in the schema's enum.  The balance suffices, yet the
request is answered with status 500; the balance has been decremented to 40
and no record was written. -/
theorem deduct_fails_on_unknown_reason :
    (exState 100 (exBooking .awaiting_payment .pending 0)).users exTenant.userId
      = some { wallet := { balance := 100 } } ∧
    (60 : Amount) ≤ 100 ∧
    (deduct (exState 100 (exBooking .awaiting_payment .pending 0))
        exTenant (some 60) (some "bonus") none none).2 = .internalError ∧
    (deduct (exState 100 (exBooking .awaiting_payment .pending 0))
        exTenant (some 60) (some "bonus") none none).2.isSuccess = false ∧
    (deduct (exState 100 (exBooking .awaiting_payment .pending 0))
        exTenant (some 60) (some "bonus") none none).1.users 1
      = some { wallet := { balance := 40 } } ∧
    (deduct (exState 100 (exBooking .awaiting_payment .pending 0))
        exTenant (some 60) (some "bonus") none none).1.log = [] := by
  refine ⟨by simp [exState, exUsers, exTenant], by norm_num, ?_, ?_, ?_, ?_⟩ <;>
    simp [deduct, invalidAmount, findUser, exState, exUsers, exTenant, incBalance,
      WalletTransaction.create, Reason.ofString, strOr, Response.isSuccess, Response.status] <;>
    norm_num

/-- C3.  For every user whose balance (at least zero, as the data model
requires) is below the requested amount, `POST /deduct` answers with the
insufficient-funds error carrying `required = amount` and
`available = balance`, and leaves the whole state unchanged: every balance,
the transaction log and the bookings. -/
theorem deduct_insufficient (s : State) (c : Caller) (a : Amount) (reason : Option String)
    (bookingId : Option BookingId) (description : Option String) (user : User)
    (hu : s.users c.userId = some user) (hnn : 0 ≤ user.wallet.balance)
    (hlt : user.wallet.balance < a) :
    deduct s c (some a) reason bookingId description
      = (s, .insufficient a user.wallet.balance (some (a - user.wallet.balance))) :=
  deduct_eq_insufficient s c a reason bookingId description user hu
    (lt_of_le_of_lt hnn hlt) hlt

/-- Witness of C3: a balance of 40 and a debit of 60. -/
theorem deduct_insufficient_witness :
    deduct (exState 40 (exBooking .awaiting_payment .pending 0)) exTenant (some 60)
        none none none
      = (exState 40 (exBooking .awaiting_payment .pending 0),
         .insufficient 60 40 (some (60 - 40))) :=
  deduct_insufficient (exState 40 (exBooking .awaiting_payment .pending 0)) exTenant 60
    none none none { wallet := { balance := 40 } } (by simp [exState, exUsers, exTenant])
    (by norm_num) (by norm_num)

theorem signup_eq (s : State) (id : UserId) :
    signup s id
      = { s with
          users := Function.update s.users id (some { wallet := { balance := 5000 } })
          log := s.log ++ [{ userId := id, type := .credit, amount := 5000, reason := .deposit,
                             bookingId := none,
                             description := some "Welcome bonus - Test credit for new users",
                             balanceBefore := some 0, balanceAfter := some 5000,
                             paymentGateway := .wallet, status := .completed }] } := by
  have hc := create_eq_some s.log
    { userId := id, type := .credit, amount := 5000, reason := "deposit",
      description := some "Welcome bonus - Test credit for new users",
      balanceBefore := some 0, balanceAfter := some 5000, status := some .completed }
    .deposit (by simp [Reason.ofString]) (by norm_num)
  simp only [signup, hc]
  rfl

theorem deduct_eq_unlogged (s : State) (c : Caller) (a : Amount) (reason : Option String)
    (bookingId : Option BookingId) (description : Option String) (user : User)
    (hu : s.users c.userId = some user) (ha : 0 < a)
    (hr : Reason.ofString (strOr reason "payment") = none) (hle : a ≤ user.wallet.balance) :
    deduct s c (some a) reason bookingId description
      = ({ s with
           users := Function.update s.users c.userId
             (some { wallet := { balance := user.wallet.balance + -a } }) },
         .internalError) := by
  simp only [deduct, invalidAmount_some, not_le.mpr ha, findUser, hu, not_lt.mpr hle,
    incBalance_some _ _ _ user hu, Option.getD_some, decide_False, Bool.false_eq_true,
    if_false, WalletTransaction.create, hr]

/-- C4 fails on the code.  From the empty database user 1 signs up (balance
5000, one completed credit of 5000) and then asks to deduct 60 with the
reason `"bonus"`: the balance is decremented to 4940 before the log write is
rejected, so the log still holds the single credit and the ledger balance
`0 + Σcredits − Σdebits` is 5000. -/
theorem ledger_drift_after_rejected_log :
    (run (signup emptyState 1)
        [Op.deduct exTenant (some 60) (some "bonus") none none]).users 1
      = some { wallet := { balance := 4940 } } ∧
    ledgerBalance 0
      (run (signup emptyState 1)
        [Op.deduct exTenant (some 60) (some "bonus") none none]).log 1 = 5000 ∧
    (step (signup emptyState 1)
        (Op.deduct exTenant (some 60) (some "bonus") none none)).2 = .internalError := by
  have h := deduct_eq_unlogged (signup emptyState 1) exTenant 60 (some "bonus") none none
    { wallet := { balance := 5000 } } (by simp [signup_eq, exTenant]) (by norm_num)
    (by simp [strOr, Reason.ofString]) (by norm_num)
  simp only [run, List.foldl, step, h]
  refine ⟨?_, ?_, trivial⟩
  · simp [exTenant]
    norm_num
  · simp [signup_eq, emptyState, ledgerBalance, sumOf]

theorem roleCheck_pass (c : Caller) (r : Role) (h : c.role = some r) :
    roleCheck [r] c = none := by
  simp [roleCheck, h]

theorem pay_eq_ok (s : State) (c : Caller) (bid : BookingId) (booking : Booking) (user : User)
    (hrole : c.role = some .tenant) (hbk : s.bookings bid = some booking)
    (hten : booking.tenant = c.userId) (hst : booking.bookingStatus = .awaiting_payment)
    (hpos : 0 < totalPrice booking) (hu : s.users c.userId = some user)
    (hle : totalPrice booking ≤ user.wallet.balance) :
    pay s c bid (some "wallet")
      = ({ users := Function.update s.users c.userId
             (some { wallet := { balance := user.wallet.balance + -totalPrice booking } })
           log := s.log ++ [paymentRecord c bid booking]
           bookings := Function.update s.bookings bid
             (some (paidPatch (totalPrice booking) booking)) },
         .paid (some (paidPatch (totalPrice booking) booking))) := by
  have hc := create_eq_some s.log
    { userId := c.userId, type := .debit, amount := totalPrice booking, reason := "payment",
      bookingId := some bid,
      description := some ("Payment for " ++ booking.bookingType.toString ++ " booking"),
      paymentGateway := some .wallet, status := some .completed }
    .payment (by simp [Reason.ofString]) (le_of_lt hpos)
  have h0 : ¬ (totalPrice booking = 0 ∨ totalPrice booking ≤ 0) := by
    rintro (h | h)
    · exact absurd h (ne_of_gt hpos)
    · exact absurd h (not_le.mpr hpos)
  have h1 : ¬ booking.tenant ≠ c.userId := not_not.mpr hten
  simp only [pay, roleCheck_pass c .tenant hrole, hbk, h1, hst, ne_eq, not_true_eq_false,
    if_false, h0, if_true, findUser, hu, not_lt.mpr hle, incBalance_some _ _ _ user hu, hc,
    updateBooking]
  rfl

theorem pay_eq_insufficient (s : State) (c : Caller) (bid : BookingId) (booking : Booking)
    (user : User) (hrole : c.role = some .tenant) (hbk : s.bookings bid = some booking)
    (hten : booking.tenant = c.userId) (hst : booking.bookingStatus = .awaiting_payment)
    (hpos : 0 < totalPrice booking) (hu : s.users c.userId = some user)
    (hlt : user.wallet.balance < totalPrice booking) :
    pay s c bid (some "wallet")
      = (s, .insufficient (totalPrice booking) user.wallet.balance none) := by
  have h0 : ¬ (totalPrice booking = 0 ∨ totalPrice booking ≤ 0) := by
    rintro (h | h)
    · exact absurd h (ne_of_gt hpos)
    · exact absurd h (not_le.mpr hpos)
  have h1 : ¬ booking.tenant ≠ c.userId := not_not.mpr hten
  simp only [pay, roleCheck_pass c .tenant hrole, hbk, h1, hst, ne_eq, not_true_eq_false,
    if_false, h0, if_true, findUser, hu, hlt]

theorem exBooking_total (st : BookingStatus) (ps : PaymentStatus) (paid : Amount) :
    totalPrice (exBooking st ps paid) = 60 := by
  simp [totalPrice, numOr, exBooking]

/-- C5 fails on the code.  Tenant 1 holds 100 and pays booking 7 (total 60)
from the wallet: the balance goes from 100 to 40, and the one record that is
appended is a debit of 60 that carries neither `balanceBefore` nor
`balanceAfter`. -/
theorem pay_record_lacks_balances :
    (exState 100 (exBooking .awaiting_payment .pending 0)).users 1
      = some { wallet := { balance := 100 } } ∧
    (pay (exState 100 (exBooking .awaiting_payment .pending 0))
        exTenant 7 (some "wallet")).1.users 1 = some { wallet := { balance := 40 } } ∧
    (pay (exState 100 (exBooking .awaiting_payment .pending 0))
        exTenant 7 (some "wallet")).1.log
      = [{ userId := 1, type := .debit, amount := 60, reason := .payment,
           bookingId := some 7, description := some "Payment for rent booking",
           balanceBefore := none, balanceAfter := none,
           paymentGateway := .wallet, status := .completed }] := by
  have h := pay_eq_ok (exState 100 (exBooking .awaiting_payment .pending 0)) exTenant 7
    (exBooking .awaiting_payment .pending 0) { wallet := { balance := 100 } } rfl
    (by simp [exState]) rfl rfl (by rw [exBooking_total]; norm_num)
    (by simp [exState, exUsers, exTenant]) (by rw [exBooking_total]; norm_num)
  rw [h]
  refine ⟨by simp [exState, exUsers], ?_, ?_⟩
  · simp [exTenant, exBooking_total]
    norm_num
  · simp [exState, paymentRecord, exTenant, exBooking_total]
    simp [exBooking, BookingType.toString]

theorem addCredit_success (s : State) (c : Caller) (amount : Option Amount)
    (h : (addCredit s c amount).2.isSuccess = true) :
    ∃ r, (addCredit s c amount).1.log = s.log ++ [r] ∧ r.userId = c.userId ∧
      r.type = .credit ∧ amount = some r.amount := by
  cases amount with
  | none => simp [addCredit, invalidAmount, Response.isSuccess, Response.status] at h
  | some a =>
    generalize hres : addCredit s c (some a) = res at h ⊢
    simp only [addCredit, Option.getD_some] at hres
    repeat' split at hres
    all_goals subst hres
    all_goals try (simp [Response.isSuccess, Response.status] at h)
    rename_i hc
    obtain ⟨r, _, _, hlog⟩ := (create_some_iff _ _ _).mp hc
    exact ⟨_, hlog, rfl, rfl, rfl⟩

theorem refund_success (s : State) (c : Caller) (amount : Option Amount)
    (b : Option BookingId) (reason : Option String)
    (h : (refund s c amount b reason).2.isSuccess = true) :
    ∃ r, (refund s c amount b reason).1.log = s.log ++ [r] ∧ r.userId = c.userId ∧
      r.type = .credit ∧ amount = some r.amount := by
  cases amount with
  | none => simp [refund, invalidAmount, Response.isSuccess, Response.status] at h
  | some a =>
    generalize hres : refund s c (some a) b reason = res at h ⊢
    simp only [refund, Option.getD_some] at hres
    repeat' split at hres
    all_goals subst hres
    all_goals try (simp [Response.isSuccess, Response.status] at h)
    rename_i hc
    obtain ⟨r, _, _, hlog⟩ := (create_some_iff _ _ _).mp hc
    exact ⟨_, hlog, rfl, rfl, rfl⟩

theorem deduct_success (s : State) (c : Caller) (amount : Option Amount)
    (reason : Option String) (b : Option BookingId) (d : Option String)
    (h : (deduct s c amount reason b d).2.isSuccess = true) :
    ∃ r, (deduct s c amount reason b d).1.log = s.log ++ [r] ∧ r.userId = c.userId ∧
      r.type = .debit ∧ amount = some r.amount := by
  cases amount with
  | none => simp [deduct, invalidAmount, Response.isSuccess, Response.status] at h
  | some a =>
    generalize hres : deduct s c (some a) reason b d = res at h ⊢
    simp only [deduct, Option.getD_some] at hres
    repeat' split at hres
    all_goals subst hres
    all_goals try (simp [Response.isSuccess, Response.status] at h)
    rename_i hc
    obtain ⟨r, _, _, hlog⟩ := (create_some_iff _ _ _).mp hc
    exact ⟨_, hlog, rfl, rfl, rfl⟩

/-- C7.  Every successful add-credit, deduct and refund request appends
exactly one record to the transaction log; its `userId` is the caller, its
kind is credit for add-credit and refund and debit for deduct, and its amount
is the requested amount; the log grows by exactly one. -/
theorem wallet_success_appends_one (s : State) (c : Caller) (amount : Option Amount)
    (reason : Option String) (b : Option BookingId) (d : Option String) :
    ((addCredit s c amount).2.isSuccess = true →
      ∃ r, (addCredit s c amount).1.log = s.log ++ [r] ∧ r.userId = c.userId ∧
        r.type = .credit ∧ amount = some r.amount ∧
        (addCredit s c amount).1.log.length = s.log.length + 1) ∧
    ((deduct s c amount reason b d).2.isSuccess = true →
      ∃ r, (deduct s c amount reason b d).1.log = s.log ++ [r] ∧ r.userId = c.userId ∧
        r.type = .debit ∧ amount = some r.amount ∧
        (deduct s c amount reason b d).1.log.length = s.log.length + 1) ∧
    ((refund s c amount b reason).2.isSuccess = true →
      ∃ r, (refund s c amount b reason).1.log = s.log ++ [r] ∧ r.userId = c.userId ∧
        r.type = .credit ∧ amount = some r.amount ∧
        (refund s c amount b reason).1.log.length = s.log.length + 1) := by
  refine ⟨fun h => ?_, fun h => ?_, fun h => ?_⟩
  · obtain ⟨r, h1, h2, h3, h4⟩ := addCredit_success s c amount h
    exact ⟨r, h1, h2, h3, h4, by simp [h1]⟩
  · obtain ⟨r, h1, h2, h3, h4⟩ := deduct_success s c amount reason b d h
    exact ⟨r, h1, h2, h3, h4, by simp [h1]⟩
  · obtain ⟨r, h1, h2, h3, h4⟩ := refund_success s c amount b reason h
    exact ⟨r, h1, h2, h3, h4, by simp [h1]⟩

theorem addCredit_eq_ok (s : State) (c : Caller) (a : Amount) (user : User)
    (hu : s.users c.userId = some user) (ha : 0 < a) (hcap : a ≤ 50000) :
    addCredit s c (some a)
      = ({ s with
           users := Function.update s.users c.userId
             (some { wallet := { balance := user.wallet.balance + a } })
           log := s.log ++ [{ userId := c.userId, type := .credit, amount := a,
                              reason := .deposit, bookingId := none,
                              description := some "Test credit added",
                              balanceBefore := some (user.wallet.balance + a - a),
                              balanceAfter := some (user.wallet.balance + a),
                              paymentGateway := .wallet, status := .completed }] },
         .walletOk (user.wallet.balance + a)) := by
  have hc := create_eq_some s.log
    { userId := c.userId, type := .credit, amount := a, reason := "deposit",
      paymentGateway := some .wallet, description := some "Test credit added",
      balanceBefore := some (user.wallet.balance + a - a),
      balanceAfter := some (user.wallet.balance + a), status := some .completed }
    .deposit (by simp [Reason.ofString]) (le_of_lt ha)
  simp only [addCredit, invalidAmount_some, not_le.mpr ha, gt_iff_lt, not_lt.mpr hcap,
    incBalance_some _ _ _ user hu, Option.getD_some, decide_False, Bool.false_eq_true,
    if_false, hc]
  rfl

theorem refund_eq_ok (s : State) (c : Caller) (a : Amount) (b : Option BookingId)
    (reason : Option String) (user : User)
    (hu : s.users c.userId = some user) (ha : 0 < a) :
    refund s c (some a) b reason
      = ({ s with
           users := Function.update s.users c.userId
             (some { wallet := { balance := user.wallet.balance + a } })
           log := s.log ++ [{ userId := c.userId, type := .credit, amount := a,
                              reason := .refund, bookingId := b,
                              description := some (strOr reason "Booking refund"),
                              balanceBefore := some (user.wallet.balance + a - a),
                              balanceAfter := some (user.wallet.balance + a),
                              paymentGateway := .wallet, status := .completed }] },
         .walletOk (user.wallet.balance + a)) := by
  have hc := create_eq_some s.log
    { userId := c.userId, type := .credit, amount := a, reason := "refund",
      bookingId := b, description := some (strOr reason "Booking refund"),
      balanceBefore := some (user.wallet.balance + a - a),
      balanceAfter := some (user.wallet.balance + a), status := some .completed }
    .refund (by simp [Reason.ofString]) (le_of_lt ha)
  simp only [refund, invalidAmount_some, not_le.mpr ha,
    incBalance_some _ _ _ user hu, Option.getD_some, decide_False, Bool.false_eq_true,
    if_false, hc]
  rfl

theorem invalidAmount_of (amount : Option Amount)
    (h : amount = none ∨ ∃ a, amount = some a ∧ a ≤ 0) : invalidAmount amount = true := by
  rcases h with h | ⟨a, h, ha⟩
  · subst h; rfl
  · subst h; simp [invalidAmount_some, ha]

/-- The sibling paths of C5: the record written by a successful add-credit,
deduct or refund carries the balance before and the balance after the
request. -/
theorem wallet_records_carry_balances (s : State) (c : Caller) (a : Amount)
    (reason : Option String) (b : Option BookingId) (d : Option String) (user : User)
    (hu : s.users c.userId = some user) (ha : 0 < a) :
    (a ≤ 50000 → ∃ r, (addCredit s c (some a)).1.log = s.log ++ [r] ∧
      r.balanceBefore = some user.wallet.balance ∧
      r.balanceAfter = some (user.wallet.balance + a)) ∧
    (∃ r, (refund s c (some a) b reason).1.log = s.log ++ [r] ∧
      r.balanceBefore = some user.wallet.balance ∧
      r.balanceAfter = some (user.wallet.balance + a)) ∧
    (a ≤ user.wallet.balance → ∀ k, Reason.ofString (strOr reason "payment") = some k →
      ∃ r, (deduct s c (some a) reason b d).1.log = s.log ++ [r] ∧
        r.balanceBefore = some user.wallet.balance ∧
        r.balanceAfter = some (user.wallet.balance - a)) := by
  refine ⟨fun hcap => ?_, ?_, fun hle k hk => ?_⟩
  · rw [addCredit_eq_ok s c a user hu ha hcap]
    exact ⟨_, rfl, by simp, rfl⟩
  · rw [refund_eq_ok s c a b reason user hu ha]
    exact ⟨_, rfl, by simp, rfl⟩
  · rw [deduct_eq_ok s c a reason b d user k hu ha hk hle]
    exact ⟨_, rfl, rfl, by simp [sub_eq_add_neg]⟩

/-- C6 (amended).  For every existing user and every amount > 0, a credit
through `POST /refund` increases the balance by exactly the amount, with no
upper bound, and a credit through `POST /add-credit` does so when the amount
is at most 50000; for every amount that is missing or <= 0, add-credit,
refund and deduct fail with `Invalid amount` and leave the state (balances
and log) unchanged. -/
theorem credit_exact_and_invalid_amount (s : State) (c : Caller) (user : User)
    (hu : s.users c.userId = some user) :
    (∀ a b reason, 0 < a →
      (refund s c (some a) b reason).2 = .walletOk (user.wallet.balance + a) ∧
      (refund s c (some a) b reason).1.users c.userId
        = some { wallet := { balance := user.wallet.balance + a } }) ∧
    (∀ a, 0 < a → a ≤ 50000 →
      (addCredit s c (some a)).2 = .walletOk (user.wallet.balance + a) ∧
      (addCredit s c (some a)).1.users c.userId
        = some { wallet := { balance := user.wallet.balance + a } }) ∧
    (∀ amount reason b d, (amount = none ∨ ∃ a, amount = some a ∧ a ≤ 0) →
      addCredit s c amount = (s, .invalidAmount) ∧
      refund s c amount b reason = (s, .invalidAmount) ∧
      deduct s c amount reason b d = (s, .invalidAmount)) := by
  refine ⟨fun a b reason ha => ?_, fun a ha hcap => ?_, fun amount reason b d h => ?_⟩
  · rw [refund_eq_ok s c a b reason user hu ha]
    simp
  · rw [addCredit_eq_ok s c a user hu ha hcap]
    simp
  · have hi := invalidAmount_of amount h
    simp [addCredit, refund, deduct, hi]

/-- Witness of C6: user 1 holds 100; a refund of 70000 and a top-up of 500
are credited in full, and an amount of 0 is refused by all three routes. -/
theorem credit_exact_and_invalid_amount_witness :
    (exState 100 (exBooking .awaiting_payment .pending 0)).users exTenant.userId
      = some { wallet := { balance := 100 } } ∧
    (refund (exState 100 (exBooking .awaiting_payment .pending 0)) exTenant
      (some 70000) none none).2 = .walletOk (100 + 70000) ∧
    (addCredit (exState 100 (exBooking .awaiting_payment .pending 0)) exTenant
      (some 500)).2 = .walletOk (100 + 500) ∧
    deduct (exState 100 (exBooking .awaiting_payment .pending 0)) exTenant (some 0)
      none none none = (exState 100 (exBooking .awaiting_payment .pending 0), .invalidAmount) :=
  ⟨by simp [exState, exUsers, exTenant],
   ((credit_exact_and_invalid_amount (exState 100 (exBooking .awaiting_payment .pending 0))
      exTenant { wallet := { balance := 100 } } (by simp [exState, exUsers, exTenant])).1
      70000 none none (by norm_num)).1,
   ((credit_exact_and_invalid_amount (exState 100 (exBooking .awaiting_payment .pending 0))
      exTenant { wallet := { balance := 100 } } (by simp [exState, exUsers, exTenant])).2.1
      500 (by norm_num) (by norm_num)).1,
   ((credit_exact_and_invalid_amount (exState 100 (exBooking .awaiting_payment .pending 0))
      exTenant { wallet := { balance := 100 } } (by simp [exState, exUsers, exTenant])).2.2
      (some 0) none none none (Or.inr ⟨0, rfl, le_refl _⟩)).2.2⟩

/-- C6 as stated fails: user 1 holds 100 and asks to add a credit of 50001;
the request is refused with the testing-limit error (status 400) and the
state is unchanged. -/
theorem addCredit_refuses_above_limit :
    (exState 100 (exBooking .awaiting_payment .pending 0)).users exTenant.userId
      = some { wallet := { balance := 100 } } ∧
    (0 : Amount) < 50001 ∧
    addCredit (exState 100 (exBooking .awaiting_payment .pending 0)) exTenant (some 50001)
      = (exState 100 (exBooking .awaiting_payment .pending 0), .maxTopup) := by
  refine ⟨by simp [exState, exUsers, exTenant], by norm_num, ?_⟩
  have h1 : ¬ (50001 : Amount) ≤ 0 := by norm_num
  have h2 : (50001 : Amount) > 50000 := by norm_num
  simp only [addCredit, invalidAmount_some, h1, Option.getD_some, decide_False,
    Bool.false_eq_true, if_false, h2, if_true]

/-- Witness of C7: on a balance of 100 a top-up of 60, a debit of 60 and a
refund of 60 all succeed. -/
theorem wallet_success_appends_one_witness :
    ((addCredit (exState 100 (exBooking .awaiting_payment .pending 0)) exTenant
        (some 60)).2.isSuccess = true ∧
      (deduct (exState 100 (exBooking .awaiting_payment .pending 0)) exTenant
        (some 60) none none none).2.isSuccess = true ∧
      (refund (exState 100 (exBooking .awaiting_payment .pending 0)) exTenant
        (some 60) none none).2.isSuccess = true) ∧
    (∃ r, (addCredit (exState 100 (exBooking .awaiting_payment .pending 0)) exTenant
        (some 60)).1.log = (exState 100 (exBooking .awaiting_payment .pending 0)).log ++ [r] ∧
      r.userId = exTenant.userId ∧ r.type = .credit ∧ some (60 : Amount) = some r.amount ∧
      (addCredit (exState 100 (exBooking .awaiting_payment .pending 0)) exTenant
        (some 60)).1.log.length
        = (exState 100 (exBooking .awaiting_payment .pending 0)).log.length + 1) := by
  have hu : (exState 100 (exBooking .awaiting_payment .pending 0)).users exTenant.userId
      = some { wallet := { balance := 100 } } := by simp [exState, exUsers, exTenant]
  have hA : (addCredit (exState 100 (exBooking .awaiting_payment .pending 0)) exTenant
      (some 60)).2.isSuccess = true := by
    rw [addCredit_eq_ok _ _ 60 _ hu (by norm_num) (by norm_num)]; rfl
  have hD : (deduct (exState 100 (exBooking .awaiting_payment .pending 0)) exTenant
      (some 60) none none none).2.isSuccess = true := by
    rw [deduct_eq_ok _ _ 60 none none none _ .payment hu (by norm_num)
      (by simp [strOr, Reason.ofString]) (by norm_num)]; rfl
  have hR : (refund (exState 100 (exBooking .awaiting_payment .pending 0)) exTenant
      (some 60) none none).2.isSuccess = true := by
    rw [refund_eq_ok _ _ 60 none none _ hu (by norm_num)]; rfl
  exact ⟨⟨hA, hD, hR⟩,
    (wallet_success_appends_one (exState 100 (exBooking .awaiting_payment .pending 0))
      exTenant (some 60) none none none).1 hA⟩

/-! ## The transaction log is append-only -/

theorem create_extends (log log' : List WalletTransaction) (d : TxDoc)
    (h : WalletTransaction.create log d = some log') : log <+: log' := by
  obtain ⟨r, _, _, hlog⟩ := (create_some_iff _ _ _).mp h
  rw [hlog]
  exact List.prefix_append _ _

theorem addCredit_log (s : State) (c : Caller) (amount : Option Amount) :
    s.log <+: (addCredit s c amount).1.log := by
  simp only [addCredit]
  repeat' split
  all_goals first
    | exact List.prefix_refl _
    | (rename_i hc; exact create_extends _ _ _ hc)

theorem deduct_log (s : State) (c : Caller) (amount : Option Amount) (r : Option String)
    (b : Option BookingId) (d : Option String) :
    s.log <+: (deduct s c amount r b d).1.log := by
  simp only [deduct]
  repeat' split
  all_goals first
    | exact List.prefix_refl _
    | (rename_i hc; exact create_extends _ _ _ hc)

theorem refund_log (s : State) (c : Caller) (amount : Option Amount)
    (b : Option BookingId) (r : Option String) :
    s.log <+: (refund s c amount b r).1.log := by
  simp only [refund]
  repeat' split
  all_goals first
    | exact List.prefix_refl _
    | (rename_i hc; exact create_extends _ _ _ hc)

theorem pay_log (s : State) (c : Caller) (bid : BookingId) (m : Option String) :
    s.log <+: (pay s c bid m).1.log := by
  simp only [pay]
  repeat' split
  all_goals first
    | exact List.prefix_refl _
    | (rename_i hc; exact create_extends _ _ _ hc)

theorem cancel_log (s : State) (c : Caller) (bid : BookingId) (r : Option String) :
    s.log <+: (cancel s c bid r).1.log := by
  simp only [cancel]
  repeat' split
  all_goals first
    | exact List.prefix_refl _
    | (rename_i hc; exact create_extends _ _ _ hc)

theorem approve_log (s : State) (c : Caller) (bid : BookingId) (m : Option String) :
    s.log <+: (approve s c bid m).1.log := by
  simp only [approve]
  repeat' split
  all_goals exact List.prefix_refl _

theorem reject_log (s : State) (c : Caller) (bid : BookingId) (m : Option String) :
    s.log <+: (reject s c bid m).1.log := by
  simp only [reject]
  repeat' split
  all_goals first
    | exact List.prefix_refl _
    | (rename_i hc; exact create_extends _ _ _ hc)

theorem step_log (s : State) (op : Op) : s.log <+: (step s op).1.log := by
  cases op with
  | addCredit c a => exact addCredit_log s c a
  | deduct c a r b d => exact deduct_log s c a r b d
  | refund c a b r => exact refund_log s c a b r
  | pay c b m => exact pay_log s c b m
  | cancel c b r => exact cancel_log s c b r
  | approve c b m => exact approve_log s c b m
  | reject c b m => exact reject_log s c b m

theorem run_log (ops : List Op) : ∀ s : State, s.log <+: (run s ops).log := by
  induction ops with
  | nil => intro s; exact List.prefix_refl _
  | cons op ops ih => intro s; exact (step_log s op).trans (ih (step s op).1)

/-- C8.  The transaction log is append-only: for every request to a wallet or
booking route the log before the request is an initial segment of the log
after it, and so it is for every sequence of requests; hence the record at
any position of the old log is found unchanged at the same position of the
new one. -/
theorem log_append_only (s : State) :
    (∀ op, s.log <+: (step s op).1.log) ∧
    (∀ ops, s.log <+: (run s ops).log) ∧
    (∀ ops i r, s.log.get? i = some r → (run s ops).log.get? i = some r) := by
  refine ⟨step_log s, fun ops => run_log ops s, fun ops i r h => ?_⟩
  obtain ⟨t, ht⟩ := run_log ops s
  rw [← ht]
  rw [List.get?_eq_getElem?] at h ⊢
  rw [List.getElem?_append_left (List.getElem?_eq_some.mp h).1]
  exact h

/-! ## Claims on wallet payment -/

/-- C9.  Wallet pay, success case.  For a booking in `awaiting_payment` whose
total is > 0, paid from the wallet by its tenant (a caller with the tenant
role whose id is the booking's tenant) holding a balance >= total: the
tenant's balance decreases by exactly the total and no other balance changes;
exactly one record is appended, a debit with reason payment, amount total and
that booking's id; afterwards the booking has `bookingStatus =
payment_completed`, `payment.status = completed`, `payment.paidAmount = total`
and `landlordApproval.status = pending`. -/
theorem pay_wallet_success (s : State) (c : Caller) (bid : BookingId) (booking : Booking)
    (user : User) (hrole : c.role = some .tenant) (hbk : s.bookings bid = some booking)
    (hten : booking.tenant = c.userId) (hst : booking.bookingStatus = .awaiting_payment)
    (hpos : 0 < totalPrice booking) (hu : s.users c.userId = some user)
    (hle : totalPrice booking ≤ user.wallet.balance) :
    (pay s c bid (some "wallet")).2.isSuccess = true ∧
    (pay s c bid (some "wallet")).1.users c.userId
      = some { wallet := { balance := user.wallet.balance - totalPrice booking } } ∧
    (∀ u, u ≠ c.userId → (pay s c bid (some "wallet")).1.users u = s.users u) ∧
    (∃ r, (pay s c bid (some "wallet")).1.log = s.log ++ [r] ∧
      r.userId = c.userId ∧ r.type = .debit ∧ r.reason = .payment ∧
      r.amount = totalPrice booking ∧ r.bookingId = some bid ∧ r.status = .completed) ∧
    (∃ b, (pay s c bid (some "wallet")).1.bookings bid = some b ∧
      b.bookingStatus = .payment_completed ∧ b.payment.status = .completed ∧
      b.payment.paidAmount = totalPrice booking ∧ b.landlordApproval.status = .pending) := by
  rw [pay_eq_ok s c bid booking user hrole hbk hten hst hpos hu hle]
  refine ⟨rfl, ?_, ?_, ⟨paymentRecord c bid booking, rfl, rfl, rfl, rfl, rfl, rfl, rfl⟩,
    ⟨paidPatch (totalPrice booking) booking, ?_, rfl, rfl, rfl, rfl⟩⟩
  · simp [sub_eq_add_neg]
  · intro u hne
    simp [Function.update, hne]
  · simp

/-- Witness of C9: tenant 1 holds 100 and pays booking 7, whose total is 60. -/
theorem pay_wallet_success_witness :
    (pay (exState 100 (exBooking .awaiting_payment .pending 0)) exTenant 7
        (some "wallet")).2.isSuccess = true ∧
    (pay (exState 100 (exBooking .awaiting_payment .pending 0)) exTenant 7
        (some "wallet")).1.users exTenant.userId
      = some { wallet := { balance :=
          (100 : Amount) - totalPrice (exBooking .awaiting_payment .pending 0) } } :=
  have h := pay_wallet_success (exState 100 (exBooking .awaiting_payment .pending 0)) exTenant 7
    (exBooking .awaiting_payment .pending 0) { wallet := { balance := 100 } } rfl
    (by simp [exState]) rfl rfl (by rw [exBooking_total]; norm_num)
    (by simp [exState, exUsers, exTenant]) (by rw [exBooking_total]; norm_num)
  ⟨h.1, h.2.1⟩

/-- C10.  Wallet pay, insufficient funds.  For a booking in `awaiting_payment`
whose total is > 0 and whose tenant holds a balance < total, pay from the
wallet answers with the insufficient-funds error carrying `required = total`
and `available = balance`, and the whole state is unchanged: the booking,
every balance and the transaction log. -/
theorem pay_wallet_insufficient (s : State) (c : Caller) (bid : BookingId) (booking : Booking)
    (user : User) (hrole : c.role = some .tenant) (hbk : s.bookings bid = some booking)
    (hten : booking.tenant = c.userId) (hst : booking.bookingStatus = .awaiting_payment)
    (hpos : 0 < totalPrice booking) (hu : s.users c.userId = some user)
    (hlt : user.wallet.balance < totalPrice booking) :
    pay s c bid (some "wallet")
      = (s, .insufficient (totalPrice booking) user.wallet.balance none) ∧
    (Response.insufficient (totalPrice booking) user.wallet.balance none).status = 400 :=
  ⟨pay_eq_insufficient s c bid booking user hrole hbk hten hst hpos hu hlt, rfl⟩

/-- Witness of C10: tenant 1 holds 40 and tries to pay booking 7, whose total
is 60. -/
theorem pay_wallet_insufficient_witness :
    pay (exState 40 (exBooking .awaiting_payment .pending 0)) exTenant 7 (some "wallet")
      = (exState 40 (exBooking .awaiting_payment .pending 0),
         .insufficient (totalPrice (exBooking .awaiting_payment .pending 0)) 40 none) :=
  (pay_wallet_insufficient (exState 40 (exBooking .awaiting_payment .pending 0)) exTenant 7
    (exBooking .awaiting_payment .pending 0) { wallet := { balance := 40 } } rfl
    (by simp [exState]) rfl rfl (by rw [exBooking_total]; norm_num)
    (by simp [exState, exUsers, exTenant]) (by rw [exBooking_total]; norm_num)).1

/-! ## Ledger consistency away from rejected log writes -/

theorem sumOf_append (t : TxType) (log : List WalletTransaction) (r : WalletTransaction)
    (u : UserId) :
    sumOf t (log ++ [r]) u
      = sumOf t log u
        + (if r.userId = u ∧ r.status = .completed ∧ r.type = t then r.amount else 0) := by
  unfold sumOf
  by_cases h : r.userId = u ∧ r.status = .completed ∧ r.type = t
  · simp [List.filter_append, List.filter_cons, h]
  · simp [List.filter_append, List.filter_cons, h]

theorem ledgerBalance_append (i : Amount) (log : List WalletTransaction)
    (r : WalletTransaction) (u : UserId) (d : Amount) (hst : r.status = .completed)
    (hd : (r.type = .credit ∧ r.amount = d) ∨ (r.type = .debit ∧ r.amount = -d)) :
    ledgerBalance i (log ++ [r]) u
      = ledgerBalance i log u + (if r.userId = u then d else 0) := by
  unfold ledgerBalance
  rw [sumOf_append, sumOf_append]
  rcases hd with ⟨ht, ha⟩ | ⟨ht, ha⟩
  · by_cases hu : r.userId = u <;> simp [hu, hst, ht, ha]
    ring
  · by_cases hu : r.userId = u <;> simp [hu, hst, ht, ha]
    ring

theorem consistent_inc_log (init : UserId → Amount) (s : State) (id : UserId) (d : Amount)
    (r : WalletTransaction) (bookings : BookingId → Option Booking)
    (h : Consistent init s) (hid : r.userId = id) (hst : r.status = .completed)
    (hd : (r.type = .credit ∧ r.amount = d) ∨ (r.type = .debit ∧ r.amount = -d)) :
    Consistent init
      { users := (incBalance s.users id d).1, log := s.log ++ [r], bookings := bookings } := by
  intro u usr hu
  simp only at hu ⊢
  rw [ledgerBalance_append _ _ _ _ d hst hd, hid]
  cases hv : s.users id with
  | none =>
    rw [incBalance_none _ _ _ hv] at hu
    have hu' : s.users u = some usr := hu
    have hne : id ≠ u := fun e => by rw [e] at hv; rw [hv] at hu'; cases hu'
    simp [hne, h u usr hu']
  | some v =>
    rw [incBalance_some _ _ _ v hv] at hu
    by_cases hne : u = id
    · subst hne
      simp at hu
      subst hu
      simp [h u v hv]
    · simp [Function.update, hne] at hu
      simp [Ne.symm hne, h u usr hu]

theorem consistent_of_writes (init : UserId → Amount) (s : State) (id : UserId) (d : Amount)
    (users' : UserId → Option User) (log' : List WalletTransaction)
    (bookings : BookingId → Option Booking) (doc : TxDoc) (h : Consistent init s)
    (husers : users' = (incBalance s.users id d).1)
    (hc : WalletTransaction.create s.log doc = some log')
    (hid : doc.userId = id) (hst : doc.status.getD .completed = .completed)
    (hd : (doc.type = .credit ∧ doc.amount = d) ∨ (doc.type = .debit ∧ doc.amount = -d)) :
    Consistent init { users := users', log := log', bookings := bookings } := by
  obtain ⟨r, _, _, hlog⟩ := (create_some_iff _ _ _).mp hc
  rw [husers, hlog]
  exact consistent_inc_log init s id d _ bookings h hid hst hd

theorem addCredit_consistent (init : UserId → Amount) (s : State) (c : Caller)
    (amount : Option Amount) (h : Consistent init s)
    (hr : (addCredit s c amount).2 ≠ .internalError) :
    Consistent init (addCredit s c amount).1 := by
  generalize hres : addCredit s c amount = res at hr ⊢
  simp only [addCredit] at hres
  repeat' split at hres
  all_goals subst hres
  all_goals first | exact h | exact absurd rfl hr | skip
  rename_i hinc _ _ hc
  exact consistent_of_writes init s c.userId (amount.getD 0) _ _ _ _ h (by rw [hinc]) hc rfl rfl
    (Or.inl ⟨rfl, rfl⟩)

theorem refund_consistent (init : UserId → Amount) (s : State) (c : Caller)
    (amount : Option Amount) (b : Option BookingId) (reason : Option String)
    (h : Consistent init s) (hr : (refund s c amount b reason).2 ≠ .internalError) :
    Consistent init (refund s c amount b reason).1 := by
  generalize hres : refund s c amount b reason = res at hr ⊢
  simp only [refund] at hres
  repeat' split at hres
  all_goals subst hres
  all_goals first | exact h | exact absurd rfl hr | skip
  rename_i hinc _ _ hc
  exact consistent_of_writes init s c.userId (amount.getD 0) _ _ _ _ h (by rw [hinc]) hc rfl rfl
    (Or.inl ⟨rfl, rfl⟩)

theorem deduct_consistent (init : UserId → Amount) (s : State) (c : Caller)
    (amount : Option Amount) (reason : Option String) (b : Option BookingId)
    (d : Option String) (h : Consistent init s)
    (hr : (deduct s c amount reason b d).2 ≠ .internalError) :
    Consistent init (deduct s c amount reason b d).1 := by
  generalize hres : deduct s c amount reason b d = res at hr ⊢
  simp only [deduct] at hres
  repeat' split at hres
  all_goals subst hres
  all_goals first | exact h | exact absurd rfl hr | skip
  rename_i hinc _ _ hc
  exact consistent_of_writes init s c.userId (-(amount.getD 0)) _ _ _ _ h (by rw [hinc]) hc
    rfl rfl (Or.inr ⟨rfl, (neg_neg _).symm⟩)

theorem pay_consistent (init : UserId → Amount) (s : State) (c : Caller) (bid : BookingId)
    (m : Option String) (h : Consistent init s)
    (hr : (pay s c bid m).2 ≠ .internalError) :
    Consistent init (pay s c bid m).1 := by
  generalize hres : pay s c bid m = res at hr ⊢
  simp only [pay] at hres
  repeat' split at hres
  all_goals subst hres
  all_goals first | exact h | exact absurd rfl hr | skip
  rename_i hc
  exact consistent_of_writes init s c.userId _ _ _ _ _ h rfl hc
    rfl rfl (Or.inr ⟨rfl, (neg_neg _).symm⟩)

theorem cancel_consistent (init : UserId → Amount) (s : State) (c : Caller) (bid : BookingId)
    (reason : Option String) (h : Consistent init s)
    (hr : (cancel s c bid reason).2 ≠ .internalError) :
    Consistent init (cancel s c bid reason).1 := by
  generalize hres : cancel s c bid reason = res at hr ⊢
  simp only [cancel] at hres
  repeat' split at hres
  all_goals subst hres
  all_goals first | exact h | exact absurd rfl hr | skip
  rename_i hc
  exact consistent_of_writes init s c.userId _ _ _ _ _ h rfl hc rfl rfl (Or.inl ⟨rfl, rfl⟩)

theorem approve_consistent (init : UserId → Amount) (s : State) (c : Caller) (bid : BookingId)
    (m : Option String) (h : Consistent init s) :
    Consistent init (approve s c bid m).1 := by
  simp only [approve]
  repeat' split
  all_goals exact fun u usr hu => h u usr hu

theorem reject_consistent (init : UserId → Amount) (s : State) (c : Caller) (bid : BookingId)
    (m : Option String) (h : Consistent init s)
    (hr : (reject s c bid m).2 ≠ .internalError) :
    Consistent init (reject s c bid m).1 := by
  generalize hres : reject s c bid m = res at hr ⊢
  simp only [reject] at hres
  repeat' split at hres
  all_goals subst hres
  all_goals first | exact h | exact absurd rfl hr | skip
  rename_i hc
  exact consistent_of_writes init s _ _ _ _ _ _ h rfl hc rfl rfl (Or.inl ⟨rfl, rfl⟩)

/-- Ledger consistency is kept by every request that is not answered with
status 500: whenever a handler finishes without a caught exception, either
nothing was written or the `$inc` and its record were both written. -/
theorem step_consistent (init : UserId → Amount) (s : State) (op : Op)
    (h : Consistent init s) (hr : (step s op).2 ≠ .internalError) :
    Consistent init (step s op).1 := by
  cases op with
  | addCredit c a => exact addCredit_consistent init s c a h hr
  | deduct c a r b d => exact deduct_consistent init s c a r b d h hr
  | refund c a b r => exact refund_consistent init s c a b r h hr
  | pay c b m => exact pay_consistent init s c b m h hr
  | cancel c b r => exact cancel_consistent init s c b r h hr
  | approve c b m => exact approve_consistent init s c b m h
  | reject c b m => exact reject_consistent init s c b m h hr


theorem run_consistent (init : UserId → Amount) (ops : List Op) :
    ∀ s : State, Consistent init s → NoFault s ops → Consistent init (run s ops) := by
  induction ops with
  | nil => intro s h _; exact h
  | cons op ops ih =>
    intro s h hn
    exact ih (step s op).1 (step_consistent init s op h hn.1) hn.2

theorem signup_consistent (init : UserId → Amount) (s : State) (id : UserId)
    (h : Consistent init s) (hinit : init id = 0) (hfresh : ∀ r ∈ s.log, r.userId ≠ id) :
    Consistent init (signup s id) := by
  rw [signup_eq]
  intro u usr hu
  simp only at hu ⊢
  rw [ledgerBalance_append _ _ _ _ 5000 rfl (Or.inl ⟨rfl, rfl⟩)]
  by_cases hne : u = id
  · subst hne
    simp at hu
    subst hu
    have h0 : ∀ t, sumOf t s.log u = 0 := by
      intro t
      unfold sumOf
      rw [List.filter_eq_nil_iff.mpr]
      · simp
      · intro r hr
        simp [hfresh r hr]
    simp [ledgerBalance, h0, hinit]
  · simp [Function.update, hne] at hu
    simp [Ne.symm hne, h u usr hu]

/-! ## Evaluation of the booking routes -/

theorem roleCheck_some_status (allowed : List Role) (c : Caller) (r : Response)
    (h : roleCheck allowed c = some r) : r = .noRole ∨ r = .forbiddenRole := by
  unfold roleCheck at h
  split at h
  · exact Or.inl (Option.some.inj h).symm
  · split_ifs at h
    exact Or.inr (Option.some.inj h).symm

theorem roleCheck_some_fails (allowed : List Role) (c : Caller) (r : Response)
    (h : roleCheck allowed c = some r) : r.isSuccess = false := by
  rcases roleCheck_some_status allowed c r h with h | h <;> subst h <;> rfl

theorem updateBooking_some (bookings : BookingId → Option Booking) (id : BookingId)
    (patch : Booking → Booking) (b : Booking) (h : bookings id = some b) :
    updateBooking bookings id patch
      = (Function.update bookings id (some (patch b)), some (patch b)) := by
  simp [updateBooking, h]

theorem pay_eq_card (s : State) (c : Caller) (bid : BookingId) (booking : Booking)
    (m : Option String) (hrole : c.role = some .tenant) (hbk : s.bookings bid = some booking)
    (hten : booking.tenant = c.userId) (hst : booking.bookingStatus = .awaiting_payment)
    (hpos : 0 < totalPrice booking) (hm : m ≠ some "wallet") :
    pay s c bid m = (s, .cardReady (totalPrice booking) bid "card") := by
  have h0 : ¬ (totalPrice booking = 0 ∨ totalPrice booking ≤ 0) := by
    rintro (h | h)
    · exact absurd h (ne_of_gt hpos)
    · exact absurd h (not_le.mpr hpos)
  have h1 : ¬ booking.tenant ≠ c.userId := not_not.mpr hten
  simp only [pay, roleCheck_pass c .tenant hrole, hbk, h1, hst, ne_eq, not_true_eq_false,
    if_false, h0, hm]

theorem pay_blocked (s : State) (c : Caller) (bid : BookingId) (m : Option String)
    (b : Booking) (hbk : s.bookings bid = some b)
    (h : b.bookingStatus ≠ .awaiting_payment ∨ ¬ 0 < totalPrice b) :
    (pay s c bid m).1 = s ∧ (pay s c bid m).2.isSuccess = false := by
  simp only [pay, hbk]
  split
  · rename_i r hr
    exact ⟨rfl, roleCheck_some_fails _ _ _ hr⟩
  · split_ifs with h1 h2 h3 h4
    · exact ⟨rfl, rfl⟩
    · exact ⟨rfl, rfl⟩
    · exact ⟨rfl, rfl⟩
    · exfalso
      rcases h with h | h
      · exact h (not_not.mp h2)
      · apply h
        rcases lt_trichotomy (totalPrice b) 0 with h' | h' | h'
        · exact absurd (Or.inr (le_of_lt h')) h3
        · exact absurd (Or.inl h') h3
        · exact h'
    · exfalso
      rcases h with h | h
      · exact h (not_not.mp h2)
      · apply h
        rcases lt_trichotomy (totalPrice b) 0 with h' | h' | h'
        · exact absurd (Or.inr (le_of_lt h')) h3
        · exact absurd (Or.inl h') h3
        · exact h'

theorem pay_paid_status (s : State) (c : Caller) (bid : BookingId) (m : Option String)
    (b' : Option Booking) (h : (pay s c bid m).2 = .paid b') :
    ∃ b, (pay s c bid m).1.bookings bid = some b ∧ b.bookingStatus = .payment_completed := by
  generalize hres : pay s c bid m = res at h ⊢
  simp only [pay] at hres
  repeat' split at hres
  all_goals subst hres
  all_goals try (simp at h)
  all_goals try (rename_i hr; rcases roleCheck_some_status _ _ _ hr with e | e <;> simp [e] at h)
  rename_i booking hbk _ _ _ _ _ _ _ _ _ _ _
  exact ⟨paidPatch (totalPrice booking) booking, by simp [updateBooking_some _ _ _ _ hbk], rfl⟩

/-! ## Claims on the preconditions of pay -/

/-- C11.  Pay preconditions.  For every booking whose `bookingStatus` is not
`awaiting_payment`, or whose computed total is not > 0, pay fails (no status
200) for every caller and every payment method and leaves the whole state
unchanged: the booking, every balance and the transaction log.  In particular,
once a wallet payment of a booking has succeeded, every further pay of that
booking fails and changes nothing. -/
theorem pay_preconditions (s : State) (bid : BookingId) :
    (∀ c m b, s.bookings bid = some b →
      (b.bookingStatus ≠ .awaiting_payment ∨ ¬ 0 < totalPrice b) →
      (pay s c bid m).1 = s ∧ (pay s c bid m).2.isSuccess = false) ∧
    (∀ c m b', (pay s c bid m).2 = .paid b' →
      ∀ c' m', (pay (pay s c bid m).1 c' bid m').1 = (pay s c bid m).1 ∧
        (pay (pay s c bid m).1 c' bid m').2.isSuccess = false) := by
  refine ⟨fun c m b hbk h => pay_blocked s c bid m b hbk h, fun c m b' hp c' m' => ?_⟩
  obtain ⟨b, hb, hst⟩ := pay_paid_status s c bid m b' hp
  exact pay_blocked _ c' bid m' b hb (Or.inl (by rw [hst]; decide))

/-- Witness of C11: booking 7 is already paid (`payment_completed`), and
tenant 1 asks to pay it again from the wallet; and on the unpaid booking a
first wallet payment succeeds and a second one is refused. -/
theorem pay_preconditions_witness :
    ((pay (exState 100 (exBooking .payment_completed .completed 60)) exTenant 7
        (some "wallet")).1 = exState 100 (exBooking .payment_completed .completed 60) ∧
      (pay (exState 100 (exBooking .payment_completed .completed 60)) exTenant 7
        (some "wallet")).2.isSuccess = false) ∧
    ((pay (pay (exState 100 (exBooking .awaiting_payment .pending 0)) exTenant 7
          (some "wallet")).1 exTenant 7 (some "wallet")).1
        = (pay (exState 100 (exBooking .awaiting_payment .pending 0)) exTenant 7
          (some "wallet")).1 ∧
      (pay (pay (exState 100 (exBooking .awaiting_payment .pending 0)) exTenant 7
          (some "wallet")).1 exTenant 7 (some "wallet")).2.isSuccess = false) :=
  ⟨(pay_preconditions (exState 100 (exBooking .payment_completed .completed 60)) 7).1
      exTenant (some "wallet") (exBooking .payment_completed .completed 60)
      (by simp [exState]) (Or.inl (by simp [exBooking])),
   (pay_preconditions (exState 100 (exBooking .awaiting_payment .pending 0)) 7).2
      exTenant (some "wallet") (some (paidPatch 60 (exBooking .awaiting_payment .pending 0)))
      (by
        have h := pay_eq_ok (exState 100 (exBooking .awaiting_payment .pending 0)) exTenant 7
          (exBooking .awaiting_payment .pending 0) { wallet := { balance := 100 } } rfl
          (by simp [exState]) rfl rfl (by rw [exBooking_total]; norm_num)
          (by simp [exState, exUsers, exTenant]) (by rw [exBooking_total]; norm_num)
        rw [h, exBooking_total])
      exTenant (some "wallet")⟩

/-- C12 (amended).  External pay.  For every booking in `awaiting_payment` with
total > 0, pay invoked by its tenant with any method other than `wallet`
succeeds, leaves the whole state unchanged (the booking, every balance, the
transaction log) and answers with `amount` = the computed total, the booking's
id and `paymentMethod = 'card'`. -/
theorem pay_external_handoff (s : State) (c : Caller) (bid : BookingId) (booking : Booking)
    (m : Option String) (hrole : c.role = some .tenant) (hbk : s.bookings bid = some booking)
    (hten : booking.tenant = c.userId) (hst : booking.bookingStatus = .awaiting_payment)
    (hpos : 0 < totalPrice booking) (hm : m ≠ some "wallet") :
    pay s c bid m = (s, .cardReady (totalPrice booking) bid "card") ∧
    (Response.cardReady (totalPrice booking) bid "card").isSuccess = true :=
  ⟨pay_eq_card s c bid booking m hrole hbk hten hst hpos hm, rfl⟩

/-- Witness of C12: tenant 1 asks to pay booking 7 (total 60) by card. -/
theorem pay_external_handoff_witness :
    pay (exState 100 (exBooking .awaiting_payment .pending 0)) exTenant 7 (some "card")
      = (exState 100 (exBooking .awaiting_payment .pending 0),
         .cardReady (totalPrice (exBooking .awaiting_payment .pending 0)) 7 "card") :=
  (pay_external_handoff (exState 100 (exBooking .awaiting_payment .pending 0)) exTenant 7
    (exBooking .awaiting_payment .pending 0) (some "card") rfl (by simp [exState]) rfl rfl
    (by rw [exBooking_total]; norm_num) (by simp)).1

/-- C12 as stated fails: tenant 1 chooses `upi` for booking 7; the answer
names the payment method `card`, not the one that was chosen. -/
theorem pay_external_reports_card :
    pay (exState 100 (exBooking .awaiting_payment .pending 0)) exTenant 7 (some "upi")
      = (exState 100 (exBooking .awaiting_payment .pending 0), .cardReady 60 7 "card") ∧
    ("card" : String) ≠ "upi" := by
  refine ⟨?_, by decide⟩
  rw [pay_eq_card (exState 100 (exBooking .awaiting_payment .pending 0)) exTenant 7
    (exBooking .awaiting_payment .pending 0) (some "upi") rfl (by simp [exState]) rfl rfl
    (by rw [exBooking_total]; norm_num) (by simp), exBooking_total]

/-! ## Evaluation of approve, reject and cancel -/

theorem approve_eq_ok (s : State) (c : Caller) (bid : BookingId) (b : Booking)
    (m : Option String) (hrole : c.role = some .landlord) (hbk : s.bookings bid = some b)
    (hl : b.landlord = some c.userId) :
    approve s c bid m
      = ({ s with bookings := Function.update s.bookings bid (some (approvePatch m b)) },
         .approved (some (approvePatch m b))) := by
  simp only [approve, roleCheck_pass c .landlord hrole, hbk, hl, ne_eq, not_true_eq_false,
    if_false, updateBooking_some _ _ _ _ hbk]

theorem reject_eq_refund (s : State) (c : Caller) (bid : BookingId) (b : Booking)
    (m : Option String) (hrole : c.role = some .landlord) (hbk : s.bookings bid = some b)
    (hl : b.landlord = some c.userId) (hps : b.payment.status = .completed)
    (hnn : 0 ≤ b.payment.paidAmount) :
    reject s c bid m
      = ({ users := (incBalance s.users b.tenant b.payment.paidAmount).1
           log := s.log ++ [rejectRecord bid b]
           bookings := Function.update s.bookings bid (some (rejectPatch m b)) },
         .rejected (some (rejectPatch m b))) := by
  have hc := create_eq_some s.log
    { userId := b.tenant, type := .credit, amount := b.payment.paidAmount,
      reason := "refund", bookingId := some bid,
      description := some "Refund for rejected booking" }
    .refund (by simp [Reason.ofString]) hnn
  simp only [reject, roleCheck_pass c .landlord hrole, hbk, hl, ne_eq, not_true_eq_false,
    if_false, if_true, hc, updateBooking_some _ _ _ _ hbk]
  have hps' : (b.payment.status = .completed) = True := by simp [hps]
  simp only [hps', if_true]
  rfl

theorem reject_eq_plain (s : State) (c : Caller) (bid : BookingId) (b : Booking)
    (m : Option String) (hrole : c.role = some .landlord) (hbk : s.bookings bid = some b)
    (hl : b.landlord = some c.userId) (hps : b.payment.status ≠ .completed) :
    reject s c bid m
      = ({ s with bookings := Function.update s.bookings bid (some (rejectPatch m b)) },
         .rejected (some (rejectPatch m b))) := by
  simp only [reject, roleCheck_pass c .landlord hrole, hbk, hl, ne_eq, not_true_eq_false,
    if_false, hps, updateBooking_some _ _ _ _ hbk]

theorem mem_terminal_iff (st : BookingStatus) :
    st ∈ [BookingStatus.completed, BookingStatus.cancelled, BookingStatus.rejected]
      ↔ st.isTerminal = true := by
  cases st <;> simp [BookingStatus.isTerminal]

theorem cancelRefund_pos (b : Booking) (h : 0 < cancelRefund b) :
    b.payment.status = .completed ∧ b.cancellationPolicy ≠ .no_cancellation := by
  unfold cancelRefund at h
  split_ifs at h with h1 <;> first | exact h1 | exact absurd h (lt_irrefl _)

theorem cancel_eq_refund (s : State) (c : Caller) (bid : BookingId) (b : Booking)
    (reason : Option String) (hbk : s.bookings bid = some b) (hten : b.tenant = c.userId)
    (hst : b.bookingStatus.isTerminal = false) (hpos : 0 < cancelRefund b) :
    cancel s c bid reason
      = ({ users := (incBalance s.users c.userId (cancelRefund b)).1
           log := s.log ++ [cancelRecord c bid b]
           bookings := Function.update s.bookings bid
             (some (cancelPatch reason (cancelRefund b) b)) },
         .cancelled (cancelRefund b) (some (cancelPatch reason (cancelRefund b) b))) := by
  have hc := create_eq_some s.log
    { userId := c.userId, type := .credit, amount := cancelRefund b,
      reason := "refund", bookingId := some bid,
      description := some "Refund for cancelled booking" }
    .refund (by simp [Reason.ofString]) (le_of_lt hpos)
  have h1 : ¬ b.tenant ≠ c.userId := not_not.mpr hten
  have h2 : ¬ b.bookingStatus ∈
      [BookingStatus.completed, BookingStatus.cancelled, BookingStatus.rejected] := by
    rw [mem_terminal_iff, hst]; simp
  have h3 : b.payment.status = .completed ∧ b.cancellationPolicy ≠ .no_cancellation
      ∧ cancelRefund b > 0 := ⟨(cancelRefund_pos b hpos).1, (cancelRefund_pos b hpos).2, hpos⟩
  simp only [cancel, hbk, updateBooking_some _ _ _ _ hbk]
  rw [if_neg h1, if_neg h2, if_pos h3]
  simp only [hc]
  rfl

theorem cancel_eq_plain (s : State) (c : Caller) (bid : BookingId) (b : Booking)
    (reason : Option String) (hbk : s.bookings bid = some b) (hten : b.tenant = c.userId)
    (hst : b.bookingStatus.isTerminal = false) (hnp : ¬ 0 < cancelRefund b) :
    cancel s c bid reason
      = ({ users := s.users
           log := s.log
           bookings := Function.update s.bookings bid
             (some (cancelPatch reason (cancelRefund b) b)) },
         .cancelled (cancelRefund b) (some (cancelPatch reason (cancelRefund b) b))) := by
  have h1 : ¬ b.tenant ≠ c.userId := not_not.mpr hten
  have h2 : ¬ b.bookingStatus ∈
      [BookingStatus.completed, BookingStatus.cancelled, BookingStatus.rejected] := by
    rw [mem_terminal_iff, hst]; simp
  have h3 : ¬ (b.payment.status = .completed ∧ b.cancellationPolicy ≠ .no_cancellation
      ∧ cancelRefund b > 0) := fun h => hnp h.2.2
  simp only [cancel, hbk, updateBooking_some _ _ _ _ hbk]
  rw [if_neg h1, if_neg h2, if_neg h3]

theorem cancel_blocked (s : State) (c : Caller) (bid : BookingId) (b : Booking)
    (reason : Option String) (hbk : s.bookings bid = some b)
    (hst : b.bookingStatus.isTerminal = true) :
    (cancel s c bid reason).1 = s ∧ (cancel s c bid reason).2.isSuccess = false ∧
    ((cancel s c bid reason).2 = .notAuthorized ∨ (cancel s c bid reason).2 = .cannotCancel) := by
  have h2 : b.bookingStatus ∈
      [BookingStatus.completed, BookingStatus.cancelled, BookingStatus.rejected] :=
    (mem_terminal_iff _).mpr hst
  by_cases h1 : b.tenant ≠ c.userId
  · have e : cancel s c bid reason = (s, .notAuthorized) := by
      simp only [cancel, hbk]
      rw [if_pos h1]
    rw [e]
    exact ⟨rfl, rfl, Or.inl rfl⟩
  · have e : cancel s c bid reason = (s, .cannotCancel) := by
      simp only [cancel, hbk]
      rw [if_neg h1, if_pos h2]
    rw [e]
    exact ⟨rfl, rfl, Or.inr rfl⟩

/-! ## Claims on approve and reject -/

theorem exRejected_booking :
    exRejectedState.bookings 7
      = some (rejectPatch none (paidPatch 60 (exBooking .awaiting_payment .pending 0))) := by
  have h1 := pay_eq_ok (exState 100 (exBooking .awaiting_payment .pending 0)) exTenant 7
    (exBooking .awaiting_payment .pending 0) { wallet := { balance := 100 } } rfl
    (by simp [exState]) rfl rfl (by rw [exBooking_total]; norm_num)
    (by simp [exState, exUsers, exTenant]) (by rw [exBooking_total]; norm_num)
  rw [exBooking_total] at h1
  simp only [exRejectedState, run, List.foldl, step, h1]
  rw [reject_eq_refund _ exLandlord 7 (paidPatch 60 (exBooking .awaiting_payment .pending 0))
    none rfl (by simp) rfl rfl (by simp [paidPatch])]
  simp

/-- C13 fails on the code.  Tenant 1 pays booking 7 and landlord 2 rejects it
(`landlordApproval.status = rejected`, `bookingStatus = rejected`, payment
refunded).  The landlord's approve of that booking is then answered with
status 200 and turns it into `approved` / `confirmed`, its payment still
`refunded`. -/
theorem approve_after_reject_succeeds :
    (∃ b, exRejectedState.bookings 7 = some b ∧ b.landlordApproval.status = .rejected ∧
      b.bookingStatus = .rejected ∧ b.payment.status = .refunded) ∧
    (approve exRejectedState exLandlord 7 none).2.isSuccess = true ∧
    (∃ b, (approve exRejectedState exLandlord 7 none).1.bookings 7 = some b ∧
      b.landlordApproval.status = .approved ∧ b.bookingStatus = .confirmed ∧
      b.payment.status = .refunded) := by
  refine ⟨⟨_, exRejected_booking, rfl, rfl, rfl⟩, ?_⟩
  rw [approve_eq_ok exRejectedState exLandlord 7 _ none rfl exRejected_booking rfl]
  exact ⟨rfl,
    approvePatch none (rejectPatch none (paidPatch 60 (exBooking .awaiting_payment .pending 0))),
    by simp, rfl, rfl, rfl⟩

/-- What approve does on the code: called by the booking's landlord it
succeeds whatever `landlordApproval.status` and `bookingStatus` are, and sets
`landlordApproval.status = approved` and `bookingStatus = confirmed`. -/
theorem approve_always_confirms (s : State) (c : Caller) (bid : BookingId) (b : Booking)
    (m : Option String) (hrole : c.role = some .landlord) (hbk : s.bookings bid = some b)
    (hl : b.landlord = some c.userId) :
    (approve s c bid m).2.isSuccess = true ∧
    ∃ b', (approve s c bid m).1.bookings bid = some b' ∧
      b'.landlordApproval.status = .approved ∧ b'.bookingStatus = .confirmed := by
  rw [approve_eq_ok s c bid b m hrole hbk hl]
  exact ⟨rfl, approvePatch m b, by simp, rfl, rfl⟩

/-- C14.  Reject with completed payment.  For every booking with
`payment.status = completed` (and a paid amount of at least zero, as the log
schema requires of a record's amount), reject called by the booking's landlord
succeeds, credits the tenant's wallet by exactly `payment.paidAmount` whatever
the cancellation policy is, changes no other balance, appends one credit
record with reason refund for that booking, and sets
`landlordApproval.status = rejected`, `bookingStatus = rejected` and
`payment.status = refunded`. -/
theorem reject_refunds_in_full (s : State) (c : Caller) (bid : BookingId) (b : Booking)
    (m : Option String) (user : User) (hrole : c.role = some .landlord)
    (hbk : s.bookings bid = some b) (hl : b.landlord = some c.userId)
    (hps : b.payment.status = .completed) (hnn : 0 ≤ b.payment.paidAmount)
    (hu : s.users b.tenant = some user) :
    (reject s c bid m).2.isSuccess = true ∧
    (reject s c bid m).1.users b.tenant
      = some { wallet := { balance := user.wallet.balance + b.payment.paidAmount } } ∧
    (∀ u, u ≠ b.tenant → (reject s c bid m).1.users u = s.users u) ∧
    (∃ r, (reject s c bid m).1.log = s.log ++ [r] ∧ r.userId = b.tenant ∧
      r.type = .credit ∧ r.reason = .refund ∧ r.amount = b.payment.paidAmount ∧
      r.bookingId = some bid ∧ r.status = .completed) ∧
    (∃ b', (reject s c bid m).1.bookings bid = some b' ∧
      b'.landlordApproval.status = .rejected ∧ b'.bookingStatus = .rejected ∧
      b'.payment.status = .refunded) := by
  rw [reject_eq_refund s c bid b m hrole hbk hl hps hnn]
  refine ⟨rfl, ?_, ?_, ⟨rejectRecord bid b, rfl, rfl, rfl, rfl, rfl, rfl, rfl⟩,
    ⟨rejectPatch m b, ?_, rfl, rfl, rfl⟩⟩
  · simp [incBalance_some _ _ _ user hu]
  · intro u hne
    simp [incBalance_some _ _ _ user hu, Function.update, hne]
  · simp

/-- Witness of C14: booking 7 was paid with 60 under the policy
`no_cancellation`; tenant 1 holds 40 and landlord 2 rejects. -/
theorem reject_refunds_in_full_witness :
    (reject (exState 40 (exPaidBooking .no_cancellation 60)) exLandlord 7 none).2.isSuccess
      = true ∧
    (reject (exState 40 (exPaidBooking .no_cancellation 60)) exLandlord 7 none).1.users
        (exPaidBooking .no_cancellation 60).tenant
      = some { wallet := { balance := (40 : Amount) + 60 } } :=
  have h := reject_refunds_in_full (exState 40 (exPaidBooking .no_cancellation 60)) exLandlord 7
    (exPaidBooking .no_cancellation 60) none { wallet := { balance := 40 } } rfl
    (by simp [exState]) rfl rfl (by simp [exPaidBooking])
    (by simp [exState, exUsers, exPaidBooking])
  ⟨h.1, h.2.1⟩

/-- C15.  Reject before payment.  For every booking whose `payment.status` is
not `completed`, reject by its landlord succeeds, changes no wallet balance,
appends no transaction record and sets `bookingStatus = rejected`. -/
theorem reject_unpaid (s : State) (c : Caller) (bid : BookingId) (b : Booking)
    (m : Option String) (hrole : c.role = some .landlord) (hbk : s.bookings bid = some b)
    (hl : b.landlord = some c.userId) (hps : b.payment.status ≠ .completed) :
    (reject s c bid m).2.isSuccess = true ∧
    (reject s c bid m).1.users = s.users ∧
    (reject s c bid m).1.log = s.log ∧
    (∃ b', (reject s c bid m).1.bookings bid = some b' ∧ b'.bookingStatus = .rejected) := by
  rw [reject_eq_plain s c bid b m hrole hbk hl hps]
  exact ⟨rfl, rfl, rfl, rejectPatch m b, by simp, rfl⟩

/-- Witness of C15: the scenario of the specification, booking 7 in
`awaiting_payment`, never paid, rejected by landlord 2. -/
theorem reject_unpaid_witness :
    (reject (exState 100 (exBooking .awaiting_payment .pending 0)) exLandlord 7 none).2.isSuccess
      = true ∧
    (reject (exState 100 (exBooking .awaiting_payment .pending 0)) exLandlord 7 none).1.users
      = (exState 100 (exBooking .awaiting_payment .pending 0)).users ∧
    (reject (exState 100 (exBooking .awaiting_payment .pending 0)) exLandlord 7 none).1.log
      = (exState 100 (exBooking .awaiting_payment .pending 0)).log ∧
    (∃ b', (reject (exState 100 (exBooking .awaiting_payment .pending 0)) exLandlord 7
        none).1.bookings 7 = some b' ∧ b'.bookingStatus = .rejected) :=
  reject_unpaid (exState 100 (exBooking .awaiting_payment .pending 0)) exLandlord 7
    (exBooking .awaiting_payment .pending 0) none rfl (by simp [exState]) rfl
    (by simp [exBooking])

/-! ## Claims on cancel -/

theorem mathRound_eq (x : Amount) (n : ℤ) (h1 : (n : ℚ) ≤ x + 1 / 2)
    (h2 : x + 1 / 2 < (n : ℚ) + 1) : mathRound x = (n : ℚ) := by
  unfold mathRound
  rw [Int.floor_eq_iff.mpr ⟨h1, h2⟩]

theorem mathRound_bounds (x : Amount) :
    ∃ n : ℤ, mathRound x = (n : ℚ) ∧ (n : ℚ) - 1 / 2 ≤ x ∧ x < (n : ℚ) + 1 / 2 := by
  refine ⟨⌊x + 1 / 2⌋, rfl, ?_, ?_⟩
  · have := Int.floor_le (x + 1 / 2)
    linarith
  · have := Int.lt_floor_add_one (x + 1 / 2)
    linarith

theorem specRoundHalfUp_one (x : Amount) : specRoundHalfUp 1 x = mathRound x := by
  simp [specRoundHalfUp, mathRound]

theorem cancelRefund_paid (b : Booking) (hps : b.payment.status = .completed)
    (hpol : b.cancellationPolicy = .paid) :
    cancelRefund b = mathRound (b.payment.paidAmount * (1 / 2)) := by
  simp [cancelRefund, hps, hpol]

/-- C16 (amended).  Cancellation refund computation.  When `payment.status` is
not `completed` the refund computed by cancel is 0 for every policy.  When it
is `completed`, the refund is 0 under `no_cancellation`, exactly `paidAmount`
under `free`, and under `paid` it is `paidAmount * 0.5` rounded half-up to a
whole number of currency units: the integer `n` with
`n - 1/2 <= paidAmount * 0.5 < n + 1/2`. -/
theorem cancelRefund_by_policy (b : Booking) :
    (b.payment.status ≠ .completed → cancelRefund b = 0) ∧
    (b.payment.status = .completed →
      (b.cancellationPolicy = .no_cancellation → cancelRefund b = 0) ∧
      (b.cancellationPolicy = .free → cancelRefund b = b.payment.paidAmount) ∧
      (b.cancellationPolicy = .paid →
        cancelRefund b = specRoundHalfUp 1 (b.payment.paidAmount * (1 / 2)) ∧
        ∃ n : ℤ, cancelRefund b = (n : ℚ) ∧
          (n : ℚ) - 1 / 2 ≤ b.payment.paidAmount * (1 / 2) ∧
          b.payment.paidAmount * (1 / 2) < (n : ℚ) + 1 / 2)) := by
  refine ⟨fun h => by simp [cancelRefund, h], fun hps => ⟨fun h => ?_, fun h => ?_, fun h => ?_⟩⟩
  · simp [cancelRefund, h]
  · simp [cancelRefund, hps, h]
  · rw [cancelRefund_paid b hps h, specRoundHalfUp_one]
    exact ⟨rfl, mathRound_bounds _⟩

theorem exPaid_refund_1000 : cancelRefund (exPaidBooking .paid 1000) = 500 := by
  rw [cancelRefund_paid _ rfl rfl]
  have := mathRound_eq ((1000 : Amount) * (1 / 2)) 500 (by norm_num) (by norm_num)
  simpa [exPaidBooking] using this

/-- Witness of C16: a paid amount of 1000 under the policy `paid`. -/
theorem cancelRefund_by_policy_witness :
    (exPaidBooking .paid 1000).payment.status = .completed ∧
    (exPaidBooking .paid 1000).cancellationPolicy = .paid ∧
    cancelRefund (exPaidBooking .paid 1000)
      = specRoundHalfUp 1 ((exPaidBooking .paid 1000).payment.paidAmount * (1 / 2)) :=
  ⟨rfl, rfl, (((cancelRefund_by_policy (exPaidBooking .paid 1000)).2 rfl).2.2 rfl).1⟩

/-- C16 as stated fails: with `paidAmount = 1001` under the policy `paid`,
cancel computes a refund of 501, whereas half of 1001 rounded half-up to the
minor unit of the currency is 500.50. -/
theorem cancelRefund_rounds_to_whole_units :
    (exPaidBooking .paid 1001).payment.status = .completed ∧
    (exPaidBooking .paid 1001).cancellationPolicy = .paid ∧
    (0 : Amount) ≤ (exPaidBooking .paid 1001).payment.paidAmount ∧
    cancelRefund (exPaidBooking .paid 1001) = 501 ∧
    specRoundHalfUp minorUnit ((exPaidBooking .paid 1001).payment.paidAmount * (1 / 2))
      = 1001 / 2 ∧
    cancelRefund (exPaidBooking .paid 1001)
      ≠ specRoundHalfUp minorUnit ((exPaidBooking .paid 1001).payment.paidAmount * (1 / 2)) := by
  have h1 : cancelRefund (exPaidBooking .paid 1001) = 501 := by
    rw [cancelRefund_paid _ rfl rfl]
    have := mathRound_eq ((1001 : Amount) * (1 / 2)) 501 (by norm_num) (by norm_num)
    simpa [exPaidBooking] using this
  have h2 : specRoundHalfUp minorUnit ((exPaidBooking .paid 1001).payment.paidAmount * (1 / 2))
      = 1001 / 2 := by
    have hf : ⌊((1001 : Amount) * (1 / 2)) / (1 / 100) + 1 / 2⌋ = 50050 :=
      Int.floor_eq_iff.mpr ⟨by norm_num, by norm_num⟩
    simp only [specRoundHalfUp, minorUnit, exPaidBooking, hf]
    norm_num
  refine ⟨rfl, rfl, by simp [exPaidBooking], h1, h2, ?_⟩
  rw [h1, h2]
  norm_num

theorem isTerminal_of (st : BookingStatus)
    (h : st = .completed ∨ st = .cancelled ∨ st = .rejected) : st.isTerminal = true := by
  rcases h with h | h | h <;> subst h <;> rfl

theorem not_isTerminal_of (st : BookingStatus)
    (h : st ≠ .completed ∧ st ≠ .cancelled ∧ st ≠ .rejected) : st.isTerminal = false := by
  cases st <;> simp [BookingStatus.isTerminal] at h ⊢

/-- C17.  Cancel effect.  For every cancellable booking (its status is none
of completed, cancelled, rejected), cancel by its tenant succeeds and sets
`bookingStatus = cancelled`, `cancellation.cancelled = true`,
`cancellation.cancelledBy = tenant` and `cancellation.refundAmount` = the
computed refund.  When the refund is > 0 the tenant's balance increases by
exactly the refund, no other balance changes and one credit record with
reason refund is appended for that booking; when the refund is 0 no balance
changes and no record is appended. -/
theorem cancel_effect (s : State) (c : Caller) (bid : BookingId) (b : Booking)
    (reason : Option String) (user : User) (hbk : s.bookings bid = some b)
    (hten : b.tenant = c.userId)
    (hst : b.bookingStatus ≠ .completed ∧ b.bookingStatus ≠ .cancelled ∧
      b.bookingStatus ≠ .rejected)
    (hu : s.users c.userId = some user) :
    (cancel s c bid reason).2 = .cancelled (cancelRefund b)
        (some (cancelPatch reason (cancelRefund b) b)) ∧
    (cancel s c bid reason).2.isSuccess = true ∧
    (∃ b', (cancel s c bid reason).1.bookings bid = some b' ∧
      b'.bookingStatus = .cancelled ∧ b'.cancellation.cancelled = true ∧
      b'.cancellation.cancelledBy = some "tenant" ∧
      b'.cancellation.refundAmount = some (cancelRefund b)) ∧
    (0 < cancelRefund b →
      (cancel s c bid reason).1.users c.userId
        = some { wallet := { balance := user.wallet.balance + cancelRefund b } } ∧
      (∀ u, u ≠ c.userId → (cancel s c bid reason).1.users u = s.users u) ∧
      ∃ r, (cancel s c bid reason).1.log = s.log ++ [r] ∧ r.userId = c.userId ∧
        r.type = .credit ∧ r.reason = .refund ∧ r.amount = cancelRefund b ∧
        r.bookingId = some bid ∧ r.status = .completed) ∧
    (cancelRefund b = 0 →
      (cancel s c bid reason).1.users = s.users ∧ (cancel s c bid reason).1.log = s.log) := by
  have hnt := not_isTerminal_of _ hst
  by_cases hpos : 0 < cancelRefund b
  · rw [cancel_eq_refund s c bid b reason hbk hten hnt hpos]
    refine ⟨rfl, rfl, ⟨cancelPatch reason (cancelRefund b) b, by simp, rfl, rfl, rfl, rfl⟩,
      fun _ => ⟨?_, ?_, cancelRecord c bid b, rfl, rfl, rfl, rfl, rfl, rfl, rfl⟩,
      fun h0 => absurd h0 (ne_of_gt hpos)⟩
    · simp [incBalance_some _ _ _ user hu]
    · intro u hne
      simp [incBalance_some _ _ _ user hu, Function.update, hne]
  · rw [cancel_eq_plain s c bid b reason hbk hten hnt hpos]
    exact ⟨rfl, rfl, ⟨cancelPatch reason (cancelRefund b) b, by simp, rfl, rfl, rfl, rfl⟩,
      fun h => absurd h hpos, fun _ => ⟨rfl, rfl⟩⟩

/-- Witness of C17: the scenario of the specification.  Booking 7 was paid
with 1000 under the policy `paid`; tenant 1, holding 40, cancels: the refund
is 500 and the balance becomes 540. -/
theorem cancel_effect_witness :
    cancelRefund (exPaidBooking .paid 1000) = 500 ∧
    (cancel (exState 40 (exPaidBooking .paid 1000)) exTenant 7 none).2.isSuccess = true ∧
    (cancel (exState 40 (exPaidBooking .paid 1000)) exTenant 7 none).1.users exTenant.userId
      = some { wallet := { balance := (40 : Amount) + cancelRefund (exPaidBooking .paid 1000) } } ∧
    (∃ b', (cancel (exState 40 (exPaidBooking .paid 1000)) exTenant 7 none).1.bookings 7
        = some b' ∧ b'.bookingStatus = .cancelled ∧ b'.cancellation.cancelled = true ∧
      b'.cancellation.cancelledBy = some "tenant" ∧
      b'.cancellation.refundAmount = some (cancelRefund (exPaidBooking .paid 1000))) :=
  have h := cancel_effect (exState 40 (exPaidBooking .paid 1000)) exTenant 7
    (exPaidBooking .paid 1000) none { wallet := { balance := 40 } } (by simp [exState]) rfl
    (by simp [exPaidBooking]) (by simp [exState, exUsers, exTenant])
  ⟨exPaid_refund_1000, h.2.1, (h.2.2.2.1 (by rw [exPaid_refund_1000]; norm_num)).1, h.2.2.1⟩

theorem cancel_success_status (s : State) (c : Caller) (bid : BookingId)
    (reason : Option String) (h : (cancel s c bid reason).2.isSuccess = true) :
    ∃ b, (cancel s c bid reason).1.bookings bid = some b ∧ b.bookingStatus = .cancelled := by
  cases hbk : s.bookings bid with
  | none => simp [cancel, hbk, Response.isSuccess, Response.status] at h
  | some b =>
    by_cases h1 : b.tenant ≠ c.userId
    · simp [cancel, hbk, h1, Response.isSuccess, Response.status] at h
    · by_cases h2 : b.bookingStatus.isTerminal = true
      · have := (cancel_blocked s c bid b reason hbk h2).2.1
        rw [this] at h
        cases h
      · have h2' : b.bookingStatus.isTerminal = false := by simpa using h2
        by_cases hpos : 0 < cancelRefund b
        · rw [cancel_eq_refund s c bid b reason hbk (not_not.mp h1) h2' hpos]
          exact ⟨cancelPatch reason (cancelRefund b) b, by simp, rfl⟩
        · rw [cancel_eq_plain s c bid b reason hbk (not_not.mp h1) h2' hpos]
          exact ⟨cancelPatch reason (cancelRefund b) b, by simp, rfl⟩

/-- C18.  Cancel precondition.  For every booking whose `bookingStatus` is
completed, cancelled or rejected, cancel fails (no status 200) for every
caller and leaves the whole state unchanged: the booking, every balance and
the transaction log.  Consequently, after a successful cancel every further
cancel of that booking fails and changes nothing, so two consecutive cancels
refund at most once. -/
theorem cancel_preconditions (s : State) (bid : BookingId) :
    (∀ c reason b, s.bookings bid = some b →
      (b.bookingStatus = .completed ∨ b.bookingStatus = .cancelled ∨
        b.bookingStatus = .rejected) →
      (cancel s c bid reason).1 = s ∧ (cancel s c bid reason).2.isSuccess = false) ∧
    (∀ c reason, (cancel s c bid reason).2.isSuccess = true →
      ∀ c' reason', (cancel (cancel s c bid reason).1 c' bid reason').1
          = (cancel s c bid reason).1 ∧
        (cancel (cancel s c bid reason).1 c' bid reason').2.isSuccess = false) := by
  refine ⟨fun c reason b hbk h => ?_, fun c reason hs c' reason' => ?_⟩
  · have := cancel_blocked s c bid b reason hbk (isTerminal_of _ h)
    exact ⟨this.1, this.2.1⟩
  · obtain ⟨b, hb, hst⟩ := cancel_success_status s c bid reason hs
    have := cancel_blocked _ c' bid b reason' hb (by rw [hst]; rfl)
    exact ⟨this.1, this.2.1⟩

theorem exPaid_cancel_success :
    (cancel (exState 40 (exPaidBooking .paid 1000)) exTenant 7 none).2.isSuccess = true := by
  rw [cancel_eq_refund (exState 40 (exPaidBooking .paid 1000)) exTenant 7
    (exPaidBooking .paid 1000) none (by simp [exState]) rfl rfl
    (by rw [exPaid_refund_1000]; norm_num)]
  rfl

/-- Witness of C18: booking 7 is already cancelled and tenant 1 cancels it
again; and after a first cancel with a refund of 500 a second cancel is
refused. -/
theorem cancel_preconditions_witness :
    ((cancel (exState 100 (exBooking .cancelled .pending 0)) exTenant 7 none).1
        = exState 100 (exBooking .cancelled .pending 0) ∧
      (cancel (exState 100 (exBooking .cancelled .pending 0)) exTenant 7 none).2.isSuccess
        = false) ∧
    ((cancel (cancel (exState 40 (exPaidBooking .paid 1000)) exTenant 7 none).1
          exTenant 7 none).1
        = (cancel (exState 40 (exPaidBooking .paid 1000)) exTenant 7 none).1 ∧
      (cancel (cancel (exState 40 (exPaidBooking .paid 1000)) exTenant 7 none).1
          exTenant 7 none).2.isSuccess = false) :=
  ⟨(cancel_preconditions (exState 100 (exBooking .cancelled .pending 0)) 7).1 exTenant none
      (exBooking .cancelled .pending 0) (by simp [exState]) (Or.inr (Or.inl rfl)),
   (cancel_preconditions (exState 40 (exPaidBooking .paid 1000)) 7).2 exTenant none
      exPaid_cancel_success exTenant none⟩

/-! ## Claims on terminal states and authorization -/

theorem exCancelled_booking :
    exCancelledState.bookings 7
      = some (cancelPatch none (cancelRefund (exBooking .awaiting_payment .pending 0))
          (exBooking .awaiting_payment .pending 0)) := by
  have h0 : ¬ 0 < cancelRefund (exBooking .awaiting_payment .pending 0) := by
    simp [cancelRefund, exBooking]
  simp only [exCancelledState, run, List.foldl, step]
  rw [cancel_eq_plain (exState 100 (exBooking .awaiting_payment .pending 0)) exTenant 7
    (exBooking .awaiting_payment .pending 0) none (by simp [exState]) rfl rfl h0]
  simp

/-- C19 fails on the code.  Tenant 1 cancels booking 7, which is then in the
terminal state `cancelled`.  The landlord's approve of that booking is
answered with status 200 and moves it to `confirmed`; the landlord's reject
is answered with status 200 and moves it to `rejected`. -/
theorem terminal_state_left_by_approve_and_reject :
    (∃ b, exCancelledState.bookings 7 = some b ∧ b.bookingStatus = .cancelled) ∧
    (approve exCancelledState exLandlord 7 none).2.isSuccess = true ∧
    (∃ b, (approve exCancelledState exLandlord 7 none).1.bookings 7 = some b ∧
      b.bookingStatus = .confirmed) ∧
    (reject exCancelledState exLandlord 7 none).2.isSuccess = true ∧
    (∃ b, (reject exCancelledState exLandlord 7 none).1.bookings 7 = some b ∧
      b.bookingStatus = .rejected) := by
  refine ⟨⟨_, exCancelled_booking, rfl⟩, ?_, ?_, ?_, ?_⟩
  · rw [approve_eq_ok exCancelledState exLandlord 7 _ none rfl exCancelled_booking rfl]
    rfl
  · rw [approve_eq_ok exCancelledState exLandlord 7 _ none rfl exCancelled_booking rfl]
    exact ⟨approvePatch none (cancelPatch none
      (cancelRefund (exBooking .awaiting_payment .pending 0))
      (exBooking .awaiting_payment .pending 0)), by simp, rfl⟩
  · rw [reject_eq_plain exCancelledState exLandlord 7 _ none rfl exCancelled_booking rfl
      (by simp [cancelPatch, exBooking])]
    rfl
  · rw [reject_eq_plain exCancelledState exLandlord 7 _ none rfl exCancelled_booking rfl
      (by simp [cancelPatch, exBooking])]
    exact ⟨rejectPatch none (cancelPatch none
      (cancelRefund (exBooking .awaiting_payment .pending 0))
      (exBooking .awaiting_payment .pending 0)), by simp, rfl⟩

/-- The part of C19 the code keeps: on a booking in a terminal state pay and
cancel fail for every caller and change nothing. -/
theorem terminal_blocks_pay_and_cancel (s : State) (c : Caller) (bid : BookingId) (b : Booking)
    (m reason : Option String) (hbk : s.bookings bid = some b)
    (h : b.bookingStatus = .completed ∨ b.bookingStatus = .cancelled ∨
      b.bookingStatus = .rejected) :
    ((pay s c bid m).1 = s ∧ (pay s c bid m).2.isSuccess = false) ∧
    ((cancel s c bid reason).1 = s ∧ (cancel s c bid reason).2.isSuccess = false) := by
  refine ⟨pay_blocked s c bid m b hbk (Or.inl ?_), ?_⟩
  · rcases h with h | h | h <;> rw [h] <;> decide
  · have := cancel_blocked s c bid b reason hbk (isTerminal_of _ h)
    exact ⟨this.1, this.2.1⟩

/-- C20 fails on the code.  Booking 7 is a request saved by `POST /` of
`routes/request.js` for tenant 1: it has no landlord.  User 2, a landlord who
is therefore not the booking's landlord, asks to approve it and to reject it;
both requests are answered with status 500, not 403 (the state is unchanged). -/
theorem approve_without_landlord_is_500 :
    (generalRequest 1).landlord ≠ some exLandlord.userId ∧
    approve (exState 100 (generalRequest 1)) exLandlord 7 none
      = (exState 100 (generalRequest 1), .internalError) ∧
    reject (exState 100 (generalRequest 1)) exLandlord 7 none
      = (exState 100 (generalRequest 1), .internalError) ∧
    Response.internalError.status = 500 := by
  refine ⟨by simp [generalRequest], ?_, ?_, rfl⟩
  · simp [approve, roleCheck, exLandlord, exState, generalRequest]
  · simp [reject, roleCheck, exLandlord, exState, generalRequest]

/-- The part of C20 the code keeps: for a caller whose token carries a role,
pay and cancel by someone who is not the booking's tenant, and approve and
reject by someone who is not the landlord the booking names, are answered
with status 403 and change nothing. -/
theorem wrong_caller_forbidden (s : State) (c : Caller) (bid : BookingId) (b : Booking)
    (r : Role) (m : Option String) (hbk : s.bookings bid = some b) (hr : c.role = some r) :
    (b.tenant ≠ c.userId →
      ((pay s c bid m).1 = s ∧ (pay s c bid m).2.status = 403) ∧
      ((cancel s c bid m).1 = s ∧ (cancel s c bid m).2.status = 403)) ∧
    (∀ l, b.landlord = some l → l ≠ c.userId →
      ((approve s c bid m).1 = s ∧ (approve s c bid m).2.status = 403) ∧
      ((reject s c bid m).1 = s ∧ (reject s c bid m).2.status = 403)) := by
  refine ⟨fun h => ⟨?_, ?_⟩, fun l hl h => ⟨?_, ?_⟩⟩
  · by_cases ht : r = .tenant
    · have e : pay s c bid m = (s, .notAuthorized) := by
        simp only [pay, roleCheck_pass c .tenant (ht ▸ hr), hbk]
        rw [if_pos h]
      rw [e]; exact ⟨rfl, rfl⟩
    · have e : pay s c bid m = (s, .forbiddenRole) := by
        simp [pay, roleCheck, hr, ht]
      rw [e]; exact ⟨rfl, rfl⟩
  · have e : cancel s c bid m = (s, .notAuthorized) := by
      simp only [cancel, hbk]
      rw [if_pos h]
    rw [e]; exact ⟨rfl, rfl⟩
  · by_cases ht : r = .landlord
    · have e : approve s c bid m = (s, .notAuthorized) := by
        simp only [approve, roleCheck_pass c .landlord (ht ▸ hr), hbk, hl]
        rw [if_pos h]
      rw [e]; exact ⟨rfl, rfl⟩
    · have e : approve s c bid m = (s, .forbiddenRole) := by
        simp [approve, roleCheck, hr, ht]
      rw [e]; exact ⟨rfl, rfl⟩
  · by_cases ht : r = .landlord
    · have e : reject s c bid m = (s, .notAuthorized) := by
        simp only [reject, roleCheck_pass c .landlord (ht ▸ hr), hbk, hl]
        rw [if_pos h]
      rw [e]; exact ⟨rfl, rfl⟩
    · have e : reject s c bid m = (s, .forbiddenRole) := by
        simp [reject, roleCheck, hr, ht]
      rw [e]; exact ⟨rfl, rfl⟩

/-! ## Claims on create -/

theorem ofString_own_contact (s : String) (t : BookingType)
    (h : BookingType.ofString s = some t) : t = .own_contact ↔ s = "own_contact" := by
  unfold BookingType.ofString at h
  split_ifs at h with h1 h2 h3 h4 <;> cases h <;> simp_all

theorem createFinish_created (s s' : State) (newId : BookingId) (bt : String)
    (pm : Option String) (d data : BookingData) (total tp : Amount) (booking : Booking)
    (h : createFinish s newId bt pm d total = (s', .created data booking tp)) :
    data = withPayment bt pm d ∧
    tp = total ∧
    ∃ t, BookingType.ofString data.bookingType = some t ∧ booking = data.toBooking t ∧
      s' = { s with bookings := Function.update s.bookings newId (some booking) } := by
  simp only [createFinish] at h
  split at h
  · simp at h
  · rename_i bookings' booking' hc
    simp only [Prod.mk.injEq, CreateResponse.created.injEq] at h
    obtain ⟨hs, hd, hb, ht⟩ := h
    subst hd
    refine ⟨rfl, ht.symm, ?_⟩
    unfold Request.create at hc
    split at hc
    · simp at hc
    · rename_i t ht'
      split at hc
      swap
      · simp at hc
      simp only [Option.some.injEq, Prod.mk.injEq] at hc
      refine ⟨t, ht', ?_, ?_⟩
      · rw [← hb, ← hc.2]
      · rw [← hs, ← hc.1, ← hb, ← hc.2]

theorem createFinish_unchanged (s : State) (newId : BookingId) (bt : String)
    (pm : Option String) (d : BookingData) (total : Amount) :
    (createFinish s newId bt pm d total).1.users = s.users ∧
    (createFinish s newId bt pm d total).1.log = s.log ∧
    ((∀ data booking tp, (createFinish s newId bt pm d total).2 ≠ .created data booking tp) →
      (createFinish s newId bt pm d total).1 = s ∧
      (createFinish s newId bt pm d total).2 = .internalError) := by
  simp only [createFinish]
  split
  · exact ⟨rfl, rfl, fun _ => ⟨rfl, rfl⟩⟩
  · exact ⟨rfl, rfl, fun h => absurd rfl (h _ _ _)⟩

theorem create_created (properties : PropertyId → Option Property) (s s' : State)
    (c : Caller) (newId : BookingId) (body : CreateBody) (data : BookingData)
    (booking : Booking) (tp : Amount)
    (h : create properties s c newId body = (s', .created data booking tp)) :
    ∃ property bt d total, roleCheck [.tenant] c = none ∧
      body.propertyId.bind properties = some property ∧ body.bookingType = some bt ∧
      d.tenant = c.userId ∧ d.landlord = property.owner ∧ d.bookingType = bt ∧
      (d.rentDetails.isSome = true ↔ bt = "rent") ∧
      (d.buyDetails.isSome = true ↔ bt = "buy") ∧
      (d.ownDetails.isSome = true ↔ bt = "own_contact") ∧
      (bt = "own_contact" → d.bookingStatus = some .inquiry) ∧ d.payment = none ∧
      createFinish s newId bt body.paymentMethod d total = (s', .created data booking tp) := by
  simp only [create] at h
  split at h
  · simp at h
  · rename_i hrole
    split at h
    · simp at h
    · rename_i property hprop
      split at h
      · simp at h
      · rename_i bt hbt
        split_ifs at h with h1 h2 h3
        · split at h
          · simp at h
          · exact ⟨property, bt, _, _, hrole, hprop, hbt, rfl, rfl, rfl, by simp [h1],
              by simp [h1], by simp [h1], by simp [h1], rfl, h⟩
        · split at h
          · simp at h
          · exact ⟨property, bt, _, _, hrole, hprop, hbt, rfl, rfl, rfl, by simp [h2],
              by simp [h2], by simp [h2], by simp [h2], rfl, h⟩
        · split at h
          · simp at h
          · exact ⟨property, bt, _, _, hrole, hprop, hbt, rfl, rfl, rfl, by simp [h3],
              by simp [h3], by simp [h3], by simp, rfl, h⟩
        · exact ⟨property, bt, _, _, hrole, hprop, hbt, rfl, rfl, rfl, by simp [h1],
            by simp [h2], by simp [h3], fun e => absurd e h3, rfl, h⟩

theorem withPayment_fields (bt : String) (pm : Option String) (d : BookingData) :
    (withPayment bt pm d).tenant = d.tenant ∧ (withPayment bt pm d).landlord = d.landlord ∧
    (withPayment bt pm d).bookingType = d.bookingType ∧
    (withPayment bt pm d).rentDetails = d.rentDetails ∧
    (withPayment bt pm d).buyDetails = d.buyDetails ∧
    (withPayment bt pm d).ownDetails = d.ownDetails := by
  unfold withPayment
  split_ifs <;> exact ⟨rfl, rfl, rfl, rfl, rfl, rfl⟩

theorem withPayment_of_eq (bt : String) (pm : Option String) (d : BookingData)
    (e : bt = "own_contact") : withPayment bt pm d = d := by
  simp [withPayment, e]

theorem withPayment_of_ne (bt : String) (pm : Option String) (d : BookingData)
    (e : bt ≠ "own_contact") :
    (withPayment bt pm d).payment = some (initialPayment pm) ∧
    (withPayment bt pm d).bookingStatus = some .awaiting_payment := by
  simp [withPayment, e]

theorem create_unchanged (properties : PropertyId → Option Property) (s : State)
    (c : Caller) (newId : BookingId) (body : CreateBody)
    (h : ∀ data booking tp, (create properties s c newId body).2 ≠ .created data booking tp) :
    (create properties s c newId body).1 = s := by
  generalize hres : create properties s c newId body = res at h ⊢
  simp only [create] at hres
  repeat' split at hres
  all_goals subst hres
  all_goals first
    | rfl
    | exact (createFinish_unchanged _ _ _ _ _ _).2.2 h |>.1

/-- C21.  Create, initial state.  Whenever create succeeds, the booking it
saves (under the generated id) has the caller as tenant and the owner of the
property as landlord; for the booking type `own_contact` it is in `inquiry`
with nothing paid, and for every other booking type it is in
`awaiting_payment` with `payment.status = pending` and `paidAmount = 0`.  No
balance and no log record is touched. -/
theorem create_initial_state (properties : PropertyId → Option Property) (s s' : State)
    (c : Caller) (newId : BookingId) (body : CreateBody) (data : BookingData)
    (booking : Booking) (tp : Amount)
    (h : create properties s c newId body = (s', .created data booking tp)) :
    s'.bookings newId = some booking ∧ s'.users = s.users ∧ s'.log = s.log ∧
    booking.tenant = c.userId ∧
    (∃ property, body.propertyId.bind properties = some property ∧
      booking.landlord = some property.owner) ∧
    (body.bookingType = some "own_contact" →
      booking.bookingType = .own_contact ∧ booking.bookingStatus = .inquiry ∧
      booking.payment.paidAmount = 0) ∧
    (body.bookingType ≠ some "own_contact" →
      booking.bookingType ≠ .own_contact ∧ booking.bookingStatus = .awaiting_payment ∧
      booking.payment.status = .pending ∧ booking.payment.paidAmount = 0) := by
  obtain ⟨property, bt, d, total, _, hprop, hbt, hten, hl, hty, _, _, _, hinq, hpay, hf⟩ :=
    create_created properties s s' c newId body data booking tp h
  obtain ⟨hdata, _, t, ht, hb, hs'⟩ := createFinish_created s s' newId bt _ d data total tp
    booking hf
  have hw := withPayment_fields bt body.paymentMethod d
  have hty' : data.bookingType = bt := by rw [hdata, hw.2.2.1, hty]
  rw [hty'] at ht
  have hoc := ofString_own_contact bt t ht
  refine ⟨by rw [hs']; simp, by rw [hs'], by rw [hs'], ?_, ⟨property, hprop, ?_⟩, ?_, ?_⟩
  · rw [hb, hdata]; simp [BookingData.toBooking, hw.1, hten]
  · rw [hb, hdata]; simp [BookingData.toBooking, hw.2.1, hl]
  · intro hb'
    have e : bt = "own_contact" := by rw [hbt] at hb'; exact Option.some.inj hb'
    rw [hb, hdata, withPayment_of_eq bt _ d e]
    exact ⟨hoc.mpr e, by simp [BookingData.toBooking, hinq e],
      by simp [BookingData.toBooking, hpay]⟩
  · intro hb'
    have e : bt ≠ "own_contact" := fun e => hb' (by rw [hbt, e])
    have hp := withPayment_of_ne bt body.paymentMethod d e
    rw [hb, hdata]
    exact ⟨fun h' => e (hoc.mp h'), by simp [BookingData.toBooking, hp.2],
      by simp [BookingData.toBooking, hp.1, initialPayment],
      by simp [BookingData.toBooking, hp.1, initialPayment]⟩

theorem create_eq_rent (properties : PropertyId → Option Property) (s : State) (c : Caller)
    (newId : BookingId) (body : CreateBody) (property : Property) (r : RentDetails)
    (hrole : c.role = some .tenant) (hp : body.propertyId.bind properties = some property)
    (hbt : body.bookingType = some "rent") (hr : body.rentDetails = some r)
    (hper : enumOk ["daily", "monthly", "yearly"] r.period = true) :
    create properties s c newId body
      = ({ s with bookings := Function.update s.bookings newId
                            (some ((rentData c property body r).toBooking .rent)) },
         .created (rentData c property body r) ((rentData c property body r).toBooking .rent)
           (numOr r.totalPrice 0)) := by
  have hw : withPayment "rent" body.paymentMethod
      { title := "rent".toUpper ++ " Request - " ++ property.title,
        description := "Booking request for property: " ++ property.title,
        tenant := c.userId, landlord := property.owner, property := body.propertyId,
        bookingType := "rent", rentDetails := some r } = rentData c property body r := by
    simp [withPayment, rentData]
  have hc : Request.create s.bookings newId (rentData c property body r)
      = some (Function.update s.bookings newId
          (some ((rentData c property body r).toBooking .rent)),
        (rentData c property body r).toBooking .rent) := by
    simp [Request.create, BookingType.ofString, rentData, BookingData.payloadValid, hper]
  simp only [create, roleCheck_pass c .tenant hrole, hp, hbt, hr, if_true, createFinish, hw, hc]

/-- Witness of C21: tenant 1 asks to rent property 5, owned by user 2, for a
total of 60; the booking is saved under the id 8. -/
theorem create_initial_state_witness :
    (create exProperties (exState 100 (exBooking .awaiting_payment .pending 0)) exTenant 8
        (exRentBody 5 (some exRent))).1.bookings 8
      = some ((rentData exTenant { owner := 2, title := "Flat" }
          (exRentBody 5 (some exRent)) exRent).toBooking .rent) ∧
    ((rentData exTenant { owner := 2, title := "Flat" }
        (exRentBody 5 (some exRent)) exRent).toBooking .rent).tenant = exTenant.userId ∧
    ((rentData exTenant { owner := 2, title := "Flat" }
        (exRentBody 5 (some exRent)) exRent).toBooking .rent).bookingStatus
      = .awaiting_payment :=
  have h := create_initial_state exProperties
    (exState 100 (exBooking .awaiting_payment .pending 0)) _ exTenant 8
    (exRentBody 5 (some exRent)) _ _ _
    (create_eq_rent exProperties (exState 100 (exBooking .awaiting_payment .pending 0))
      exTenant 8 (exRentBody 5 (some exRent)) { owner := 2, title := "Flat" } exRent rfl
      (by simp [exRentBody, exProperties]) rfl rfl (by simp [enumOk, exRent]))
  ⟨by rw [create_eq_rent exProperties (exState 100 (exBooking .awaiting_payment .pending 0))
      exTenant 8 (exRentBody 5 (some exRent)) { owner := 2, title := "Flat" } exRent rfl
      (by simp [exRentBody, exProperties]) rfl rfl (by simp [enumOk, exRent])]; exact h.1,
   h.2.2.2.1, (h.2.2.2.2.2.2 (by simp [exRentBody])).2.1⟩

/-- C22.  Create, validation.  Called by a tenant, create answers 404 (property
not found) when the property does not exist, and 400 when the payload of the
booking type is missing (`rentDetails` for rent, `buyDetails` for buy,
`ownDetails` for own_contact).  Whenever create does not succeed, for
whatever reason, the state is unchanged: no booking is created.  Whenever it
succeeds, the document it saved carries the payload of its booking type
(none for a type other than rent, buy and own_contact) and neither of the
other two, and the booking is stored under the new id with the totals of
that payload. -/
theorem create_validation (properties : PropertyId → Option Property) (s : State)
    (c : Caller) (newId : BookingId) (body : CreateBody) :
    (c.role = some .tenant → body.propertyId.bind properties = none →
      create properties s c newId body = (s, .propertyNotFound)) ∧
    (c.role = some .tenant → (body.propertyId.bind properties).isSome = true →
      (body.bookingType = some "rent" → body.rentDetails = none →
        create properties s c newId body = (s, .rentDetailsRequired)) ∧
      (body.bookingType = some "buy" → body.buyDetails = none →
        create properties s c newId body = (s, .buyDetailsRequired)) ∧
      (body.bookingType = some "own_contact" → body.ownDetails = none →
        create properties s c newId body = (s, .contactDetailsRequired))) ∧
    (CreateResponse.propertyNotFound.status = 404 ∧
      CreateResponse.rentDetailsRequired.status = 400 ∧
      CreateResponse.buyDetailsRequired.status = 400 ∧
      CreateResponse.contactDetailsRequired.status = 400) ∧
    ((∀ data booking tp, (create properties s c newId body).2 ≠ .created data booking tp) →
      (create properties s c newId body).1 = s) ∧
    (∀ s' data booking tp,
      create properties s c newId body = (s', .created data booking tp) →
      (data.rentDetails.isSome = true ↔ data.bookingType = "rent") ∧
      (data.buyDetails.isSome = true ↔ data.bookingType = "buy") ∧
      (data.ownDetails.isSome = true ↔ data.bookingType = "own_contact") ∧
      s'.bookings newId = some booking ∧
      booking.rentTotalPrice = data.rentDetails.bind (fun r => r.totalPrice) ∧
      booking.buyTotalPrice = data.buyDetails.bind (fun b => b.totalPrice)) := by
  refine ⟨fun hrole hp => ?_, fun hrole hp => ?_, ⟨rfl, rfl, rfl, rfl⟩,
    create_unchanged properties s c newId body, fun s' data booking tp h => ?_⟩
  · simp only [create, roleCheck_pass c .tenant hrole, hp]
  · obtain ⟨property, hp⟩ := Option.isSome_iff_exists.mp hp
    refine ⟨fun hbt hr => ?_, fun hbt hr => ?_, fun hbt hr => ?_⟩
    · simp [create, roleCheck_pass c .tenant hrole, hp, hbt, hr]
    · simp [create, roleCheck_pass c .tenant hrole, hp, hbt, hr]
    · simp [create, roleCheck_pass c .tenant hrole, hp, hbt, hr]
  · obtain ⟨property, bt, d, total, _, _, _, _, _, hty, h1, h2, h3, _, _, hf⟩ :=
      create_created properties s s' c newId body data booking tp h
    obtain ⟨hdata, _, t, _, hb, hs'⟩ := createFinish_created s s' newId bt _ d data total tp
      booking hf
    have hw := withPayment_fields bt body.paymentMethod d
    rw [hdata, hw.2.2.1, hw.2.2.2.1, hw.2.2.2.2.1, hw.2.2.2.2.2, hty]
    refine ⟨h1, h2, h3, by rw [hs']; simp, ?_, ?_⟩
    · rw [hb, hdata]; simp [BookingData.toBooking, hw.2.2.2.1]
    · rw [hb, hdata]; simp [BookingData.toBooking, hw.2.2.2.2.1]

/-- Witness of C22: tenant 1 asks to rent property 9, which does not exist,
and to rent property 5 without rent details. -/
theorem create_validation_witness :
    create exProperties (exState 100 (exBooking .awaiting_payment .pending 0)) exTenant 8
        (exRentBody 9 (some exRent))
      = (exState 100 (exBooking .awaiting_payment .pending 0), .propertyNotFound) ∧
    create exProperties (exState 100 (exBooking .awaiting_payment .pending 0)) exTenant 8
        (exRentBody 5 none)
      = (exState 100 (exBooking .awaiting_payment .pending 0), .rentDetailsRequired) :=
  ⟨(create_validation exProperties (exState 100 (exBooking .awaiting_payment .pending 0))
      exTenant 8 (exRentBody 9 (some exRent))).1 rfl (by simp [exRentBody, exProperties]),
   ((create_validation exProperties (exState 100 (exBooking .awaiting_payment .pending 0))
      exTenant 8 (exRentBody 5 none)).2.1 rfl (by simp [exRentBody, exProperties])).1 rfl rfl⟩

/-! ## Claims on unknown users and the top-up limit -/

theorem addCredit_unknown (s : State) (c : Caller) (a : Amount)
    (hu : s.users c.userId = none) (ha : 0 < a) (hcap : a ≤ 50000) :
    addCredit s c (some a) = (s, .internalError) := by
  have hv : invalidAmount (some a) = false := by
    rw [invalidAmount_some]; exact decide_eq_false (not_le.mpr ha)
  simp only [addCredit, hv, Option.getD_some, incBalance_none s.users c.userId a hu]
  simp [not_lt.mpr hcap]

theorem refund_unknown (s : State) (c : Caller) (a : Amount) (b : Option BookingId)
    (reason : Option String) (hu : s.users c.userId = none) (ha : 0 < a) :
    refund s c (some a) b reason = (s, .internalError) := by
  have hv : invalidAmount (some a) = false := by
    rw [invalidAmount_some]; exact decide_eq_false (not_le.mpr ha)
  simp only [refund, hv, Option.getD_some, incBalance_none s.users c.userId a hu]
  simp

theorem deduct_unknown (s : State) (c : Caller) (a : Amount) (reason : Option String)
    (b : Option BookingId) (d : Option String) (hu : s.users c.userId = none) (ha : 0 < a) :
    deduct s c (some a) reason b d = (s, .userNotFound) := by
  have hv : invalidAmount (some a) = false := by
    rw [invalidAmount_some]; exact decide_eq_false (not_le.mpr ha)
  simp only [deduct, hv, Option.getD_some, findUser, hu]
  simp

theorem pay_unknown (s : State) (c : Caller) (bid : BookingId) (booking : Booking)
    (hrole : c.role = some .tenant) (hbk : s.bookings bid = some booking)
    (hten : booking.tenant = c.userId) (hst : booking.bookingStatus = .awaiting_payment)
    (hpos : 0 < totalPrice booking) (hu : s.users c.userId = none) :
    pay s c bid (some "wallet") = (s, .internalError) := by
  have h1 : ¬ booking.tenant ≠ c.userId := not_not.mpr hten
  have h2 : ¬ booking.bookingStatus ≠ .awaiting_payment := not_not.mpr hst
  have h3 : ¬ (totalPrice booking = 0 ∨ totalPrice booking ≤ 0) := by
    rintro (h | h)
    · exact (ne_of_gt hpos) h
    · exact (not_le.mpr hpos) h
  simp only [pay, roleCheck_pass c .tenant hrole, hbk, findUser, hu]
  rw [if_neg h1, if_neg h2, if_neg h3, if_pos trivial]

/-- C23.  Unknown user.  User 3 is not in the database.  `/deduct` answers it
with 404 `User not found`, but `/add-credit`, `/refund` and the wallet branch
of `/pay` answer with the 500 of the handler's catch (the message of the
TypeError raised on the missing document); none of them writes anything. -/
theorem unknown_user_internal_error :
    exStrangerState.users exStranger.userId = none ∧
    addCredit exStrangerState exStranger (some 10) = (exStrangerState, .internalError) ∧
    refund exStrangerState exStranger (some 10) (some 7) none
      = (exStrangerState, .internalError) ∧
    pay exStrangerState exStranger 7 (some "wallet") = (exStrangerState, .internalError) ∧
    Response.internalError.status = 500 ∧
    deduct exStrangerState exStranger (some 10) none none none
      = (exStrangerState, .userNotFound) ∧
    Response.userNotFound.status = 404 := by
  have hu : exStrangerState.users exStranger.userId = none := by
    simp [exStrangerState, exState, exUsers, exStranger]
  refine ⟨hu, addCredit_unknown _ _ 10 hu (by norm_num) (by norm_num),
    refund_unknown _ _ 10 _ _ hu (by norm_num), ?_, rfl,
    deduct_unknown _ _ 10 _ _ _ hu (by norm_num), rfl⟩
  refine pay_unknown _ _ 7 { exBooking .awaiting_payment .pending 0 with tenant := 3 }
    rfl ?_ rfl rfl ?_ hu
  · simp [exStrangerState, exState]
  · simp [totalPrice, exBooking, numOr]

/-- C25.  Test top-up limit.  `/add-credit` answers every amount above 50000
with 400 and leaves the state (balances and log) as it was; for a caller in
the database it accepts every amount `a` with `0 < a ≤ 50000`: the answer is
200, the caller's balance has grown by exactly `a`, every other user is
untouched and one credit record of `a` is appended. -/
theorem addCredit_test_limit (s : State) (c : Caller) (a : Amount) :
    (50000 < a → addCredit s c (some a) = (s, .maxTopup)) ∧
    Response.maxTopup.status = 400 ∧
    (∀ user, 0 < a → a ≤ 50000 → s.users c.userId = some user →
      (addCredit s c (some a)).2 = .walletOk (user.wallet.balance + a) ∧
      (addCredit s c (some a)).1.users c.userId
        = some { wallet := { balance := user.wallet.balance + a } } ∧
      (∀ u, u ≠ c.userId → (addCredit s c (some a)).1.users u = s.users u) ∧
      (∃ t : WalletTransaction, (addCredit s c (some a)).1.log = s.log ++ [t] ∧
        t.userId = c.userId ∧ t.type = .credit ∧ t.amount = a)) := by
  refine ⟨fun h => ?_, rfl, fun user ha hcap hu => ?_⟩
  · have hv : invalidAmount (some a) = false := by
      rw [invalidAmount_some]
      exact decide_eq_false (not_le.mpr (lt_trans (by norm_num) h))
    simp only [addCredit, hv, Option.getD_some]
    simp [h]
  · rw [addCredit_eq_ok s c a user hu ha hcap]
    refine ⟨rfl, by simp, fun u hne => by simp [Function.update_noteq hne], _, rfl, rfl, rfl,
      rfl⟩

/-- Witness of C25: tenant 1, holding 100, adds 50001 and then 50000. -/
theorem addCredit_test_limit_witness :
    addCredit (exState 100 (exBooking .awaiting_payment .pending 0)) exTenant (some 50001)
      = (exState 100 (exBooking .awaiting_payment .pending 0), .maxTopup) ∧
    (addCredit (exState 100 (exBooking .awaiting_payment .pending 0)) exTenant
      (some 50000)).2 = .walletOk (100 + 50000) :=
  ⟨(addCredit_test_limit (exState 100 (exBooking .awaiting_payment .pending 0)) exTenant
      50001).1 (by norm_num),
   ((addCredit_test_limit (exState 100 (exBooking .awaiting_payment .pending 0)) exTenant
      50000).2.2 { wallet := { balance := 100 } } (by norm_num) (by norm_num)
      (by simp [exState, exUsers, exTenant])).1⟩

/-! ## Claims on concurrent debits -/

theorem deduct_eq_check_commit (s : State) (c : Caller) (amount : Option Amount)
    (reason : Option String) (bookingId : Option BookingId) (description : Option String) :
    deductAdvance (deductAdvance s ⟨c, amount, reason, bookingId, description⟩ .start).1
        ⟨c, amount, reason, bookingId, description⟩
        (deductAdvance s ⟨c, amount, reason, bookingId, description⟩ .start).2
      = ((deduct s c amount reason bookingId description).1,
         .answered (deduct s c amount reason bookingId description).2) := by
  by_cases hv : invalidAmount amount = true
  · simp [deductAdvance, deductCheck, deduct, hv]
  · cases hu : findUser s c.userId with
    | none => simp [deductAdvance, deductCheck, deduct, hv, hu]
    | some user =>
      by_cases hlt : user.wallet.balance < amount.getD 0
      · simp [deductAdvance, deductCheck, deduct, hv, hu, hlt]
      · simp [deductAdvance, deductCheck, deductCommit, deduct, hv, hu, hlt]

theorem deductCheck_eq_checked (s : State) (q : DeductRequest) (a : Amount) (user : User)
    (hq : q.amount = some a) (ha : 0 < a) (hu : s.users q.caller.userId = some user)
    (hle : a ≤ user.wallet.balance) : deductCheck s q = .checked a user := by
  have hv : invalidAmount (some a) = false := by
    rw [invalidAmount_some]; exact decide_eq_false (not_le.mpr ha)
  simp only [deductCheck, hq, hv, Option.getD_some, findUser, hu]
  simp [not_lt.mpr hle]

theorem deductCheck_eq_insufficient (s : State) (q : DeductRequest) (a : Amount) (user : User)
    (hq : q.amount = some a) (ha : 0 < a) (hu : s.users q.caller.userId = some user)
    (hlt : user.wallet.balance < a) :
    deductCheck s q
      = .answered (.insufficient a user.wallet.balance (some (a - user.wallet.balance))) := by
  have hv : invalidAmount (some a) = false := by
    rw [invalidAmount_some]; exact decide_eq_false (not_le.mpr ha)
  simp only [deductCheck, hq, hv, Option.getD_some, findUser, hu]
  simp [hlt]

theorem deductCommit_eq (s : State) (q : DeductRequest) (a : Amount) (read user : User)
    (r : Reason) (hu : s.users q.caller.userId = some user) (ha : 0 ≤ a)
    (hr : Reason.ofString (strOr q.reason "payment") = some r) :
    (deductCommit s q a read).1.users
        = Function.update s.users q.caller.userId
            (some { wallet := { balance := user.wallet.balance + -a } }) ∧
    (deductCommit s q a read).2 = .walletOk (user.wallet.balance + -a) := by
  simp only [deductCommit, incBalance_some s.users q.caller.userId (-a) user hu]
  rw [create_eq_some s.log _ r hr ha]
  exact ⟨rfl, rfl⟩

/-- C24.  Concurrent debits.  Tenant 1 holds 100 and sends two debits of 60
at once.  When both handlers read the balance before either writes (turns
0, 1, 0, 1), both pass the balance check on 100, both are answered 200 and
the balance ends at -20, although 100 pays for one debit of 60 only; when
the handlers run one after the other (turns 0, 0, 1, 1) the second is
refused. -/
theorem concurrent_deducts_overdraw :
    (interleave (exState 100 (exBooking .awaiting_payment .pending 0)) exDeduct 2
        [0, 1, 0, 1]).2
      = [.answered (.walletOk 40), .answered (.walletOk (-20))] ∧
    (interleave (exState 100 (exBooking .awaiting_payment .pending 0)) exDeduct 2
        [0, 1, 0, 1]).1.users 1 = some { wallet := { balance := -20 } } ∧
    successes (interleave (exState 100 (exBooking .awaiting_payment .pending 0)) exDeduct 2
        [0, 1, 0, 1]).2 = 2 ∧
    min 2 ⌊(100 : ℚ) / 60⌋₊ = 1 ∧
    (interleave (exState 100 (exBooking .awaiting_payment .pending 0)) exDeduct 2
        [0, 0, 1, 1]).2
      = [.answered (.walletOk 40), .answered (.insufficient 60 40 (some 20))] := by
  have hu0 : (exState 100 (exBooking .awaiting_payment .pending 0)).users
      exDeduct.caller.userId = some { wallet := { balance := 100 } } := by
    simp [exState, exUsers, exDeduct, exTenant]
  have hr : Reason.ofString (strOr exDeduct.reason "payment") = some .payment := by
    simp [exDeduct, strOr, Reason.ofString]
  have hc0 := deductCheck_eq_checked (exState 100 (exBooking .awaiting_payment .pending 0))
    exDeduct 60 _ rfl (by norm_num) hu0 (by norm_num)
  have h1 := deductCommit_eq (exState 100 (exBooking .awaiting_payment .pending 0))
    exDeduct 60 { wallet := { balance := 100 } } _ _ hu0 (by norm_num) hr
  have hu1 : (deductCommit (exState 100 (exBooking .awaiting_payment .pending 0))
      exDeduct 60 { wallet := { balance := 100 } }).1.users exDeduct.caller.userId
      = some { wallet := { balance := 40 } } := by
    rw [h1.1]; simp; norm_num
  have h2 := deductCommit_eq (deductCommit (exState 100 (exBooking .awaiting_payment .pending 0))
    exDeduct 60 { wallet := { balance := 100 } }).1
    exDeduct 60 { wallet := { balance := 100 } } _ _ hu1 (by norm_num) hr
  have hc1 := deductCheck_eq_insufficient
    (deductCommit (exState 100 (exBooking .awaiting_payment .pending 0))
      exDeduct 60 { wallet := { balance := 100 } }).1 exDeduct 60 _ rfl (by norm_num) hu1
    (by norm_num)
  have hI : interleave (exState 100 (exBooking .awaiting_payment .pending 0)) exDeduct 2
      [0, 1, 0, 1]
      = ((deductCommit (deductCommit (exState 100 (exBooking .awaiting_payment .pending 0))
            exDeduct 60 { wallet := { balance := 100 } }).1
            exDeduct 60 { wallet := { balance := 100 } }).1,
         [.answered (deductCommit (exState 100 (exBooking .awaiting_payment .pending 0))
            exDeduct 60 { wallet := { balance := 100 } }).2,
          .answered (deductCommit
            (deductCommit (exState 100 (exBooking .awaiting_payment .pending 0))
              exDeduct 60 { wallet := { balance := 100 } }).1
            exDeduct 60 { wallet := { balance := 100 } }).2]) := by
    simp [interleave, tick, deductAdvance, hc0]
  have hS : interleave (exState 100 (exBooking .awaiting_payment .pending 0)) exDeduct 2
      [0, 0, 1, 1]
      = ((deductCommit (exState 100 (exBooking .awaiting_payment .pending 0))
            exDeduct 60 { wallet := { balance := 100 } }).1,
         [.answered (deductCommit (exState 100 (exBooking .awaiting_payment .pending 0))
            exDeduct 60 { wallet := { balance := 100 } }).2,
          .answered (.insufficient 60 40 (some (60 - 40)))]) := by
    simp [interleave, tick, deductAdvance, hc0, hc1]
  have hfloor : ⌊(100 : ℚ) / 60⌋₊ = 1 := by
    rw [Nat.floor_eq_iff (by norm_num)]; norm_num
  rw [hI, hS, h1.2, h2.1, h2.2, hfloor]
  refine ⟨?_, ?_, ?_, ?_, ?_⟩
  · norm_num
  · have : exDeduct.caller.userId = 1 := rfl
    rw [this]; simp; norm_num
  · simp [successes, Response.isSuccess, Response.status]
  · simp
  · norm_num

/-! ## Claims on the user management -/

theorem findAccount_some (users : List Account) (id : UserId) (user : Account)
    (h : findAccount users id = some user) : user ∈ users ∧ user.id = id := by
  unfold findAccount at h
  exact ⟨List.mem_of_find?_eq_some h, by simpa using List.find?_some h⟩

theorem account_eq_of_id (users : List Account) (hu : UniqueIds users) (v w : Account)
    (hv : v ∈ users) (hw : w ∈ users) (h : v.id = w.id) : v = w :=
  List.inj_on_of_nodup_map hu hv hw h

theorem other_admin (users : List Account) (user : Account) (hu : UniqueIds users)
    (hm : user ∈ users)
    (h : (user.role ≠ .admin ∧ HasAdmin users) ∨ 2 ≤ countAdmins users) :
    ∃ w ∈ users, w.role = .admin ∧ w.id ≠ user.id := by
  rcases h with ⟨hr, w, hw, hwr⟩ | h
  · refine ⟨w, hw, hwr, fun hid => hr ?_⟩
    rw [← account_eq_of_id users hu w user hw hm hid]; exact hwr
  · by_contra hcon
    push_neg at hcon
    have hnd : (users.filter (fun u => u.role = .admin)).Nodup :=
      (List.Nodup.of_map _ hu).filter _
    have hsub : users.filter (fun u => u.role = .admin) ⊆ [user] := by
      intro w hw
      rw [List.mem_filter] at hw
      have hid := hcon w hw.1 (by simpa using hw.2)
      rw [account_eq_of_id users hu w user hw.1 hm hid]
      exact List.mem_singleton_self user
    have hle := (List.subperm_of_subset hnd hsub).length_le
    simp only [countAdmins] at h
    simp at hle
    omega

theorem saveAccount_ids (users : List Account) (user : Account) :
    (saveAccount users user).map (fun u => u.id) = users.map (fun u => u.id) := by
  simp only [saveAccount, List.map_map]
  apply List.map_congr_left
  intro v _
  by_cases h : v.id = user.id
  · simp [h]
  · simp [h]

theorem saveAccount_mem_other (users : List Account) (user w : Account) (hw : w ∈ users)
    (h : w.id ≠ user.id) : w ∈ saveAccount users user := by
  simp only [saveAccount, List.mem_map]
  exact ⟨w, hw, if_neg h⟩

theorem saveAccount_mem_self (users : List Account) (user v : Account) (hv : v ∈ users)
    (h : v.id = user.id) : user ∈ saveAccount users user := by
  simp only [saveAccount, List.mem_map]
  exact ⟨v, hv, if_pos h⟩

theorem withName_fields (user : Account) (name : Option String) :
    (withName user name).id = user.id ∧ (withName user name).role = user.role := by
  cases name with
  | none => exact ⟨rfl, rfl⟩
  | some n =>
    by_cases h : n = ""
    · simp [withName, h]
    · simp [withName, h]

theorem roleChange_some (user : Account) (x : Option String) (r : String)
    (h : roleChange user x = some r) : x = some r ∧ r ≠ "" ∧ r ≠ user.role.toString := by
  cases x with
  | none => simp [roleChange] at h
  | some y =>
    simp only [roleChange] at h
    split at h
    · rename_i hy
      cases h
      exact ⟨rfl, hy⟩
    · cases h

theorem saveAccount_hasAdmin (users : List Account) (user new : Account)
    (hm : user ∈ users) (hid : new.id = user.id)
    (h : new.role = .admin ∨ ∃ w ∈ users, w.role = .admin ∧ w.id ≠ user.id) :
    HasAdmin (saveAccount users new) := by
  rcases h with h | ⟨w, hw, hwr, hne⟩
  · exact ⟨new, saveAccount_mem_self users new user hm hid.symm, h⟩
  · exact ⟨w, saveAccount_mem_other users new w hw (by rw [hid]; exact hne), hwr⟩

theorem updateUser_inv (m : Mongoose) (users : List Account) (c : Caller) (id : UserId)
    (body : UpdateBody) (hu : UniqueIds users) (ha : HasAdmin users) :
    HasAdmin (updateUser m users c id body).1 ∧ UniqueIds (updateUser m users c id body).1 := by
  generalize hres : updateUser m users c id body = res
  simp only [updateUser] at hres
  repeat' split at hres
  all_goals subst hres
  all_goals try exact ⟨ha, hu⟩
  · rename_i user hf _ _ _ _ r hrc hguard _ role hrole
    obtain ⟨hm, _⟩ := findAccount_some users id user hf
    obtain ⟨_, _, hne⟩ := roleChange_some user body.role r hrc
    have hw := withName_fields { user with role := role } body.name
    refine ⟨saveAccount_hasAdmin users user _ hm hw.1 (Or.inr ?_), ?_⟩
    · apply other_admin users user hu hm
      by_cases hadm : user.role = .admin
      · right
        have hr : r ≠ "admin" := by rw [hadm] at hne; exact hne
        by_contra hlt
        exact hguard ⟨hadm, hr, by omega⟩
      · exact Or.inl ⟨hadm, ha⟩
    · unfold UniqueIds; rw [saveAccount_ids]; exact hu
  · rename_i user hf _ _ _ _ hrc
    obtain ⟨hm, _⟩ := findAccount_some users id user hf
    have hw := withName_fields user body.name
    refine ⟨?_, ?_⟩
    · by_cases hadm : user.role = .admin
      · exact saveAccount_hasAdmin users user _ hm hw.1 (Or.inl (by rw [hw.2]; exact hadm))
      · exact saveAccount_hasAdmin users user _ hm hw.1
          (Or.inr (other_admin users user hu hm (Or.inl ⟨hadm, ha⟩)))
    · unfold UniqueIds; rw [saveAccount_ids]; exact hu

theorem deleteUser_inv (m : Mongoose) (users : List Account) (c : Caller) (id : UserId)
    (hu : UniqueIds users) (ha : HasAdmin users) :
    HasAdmin (deleteUser m users c id).1 ∧ UniqueIds (deleteUser m users c id).1 := by
  generalize hres : deleteUser m users c id = res
  simp only [deleteUser] at hres
  repeat' split at hres
  all_goals subst hres
  all_goals try exact ⟨ha, hu⟩
  rename_i user hf hguard _
  obtain ⟨hm, _⟩ := findAccount_some users id user hf
  have hoth : ∃ w ∈ users, w.role = .admin ∧ w.id ≠ user.id := by
    apply other_admin users user hu hm
    by_cases hadm : user.role = .admin
    · right
      by_contra hlt
      exact hguard ⟨hadm, by omega⟩
    · exact Or.inl ⟨hadm, ha⟩
  obtain ⟨w, hw, hwr, hne⟩ := hoth
  refine ⟨⟨w, ?_, hwr⟩, ?_⟩
  · simp only [deleteAccount, List.mem_filter]
    exact ⟨hw, by simpa using hne⟩
  · exact List.Nodup.sublist (List.Sublist.map _ (List.filter_sublist _)) hu

/-- C26.  Last-admin protection.  On a user collection with unique ids that
holds at least one admin, `PUT /users/:id` (every action, `deactivate` and
`update` with a role among them) and `DELETE /users/:id` leave at least one
admin in the collection (and the ids unique).  When the target is the only
admin, an admin's request to delete it, or to update it to a role other than
admin, is answered 400 and the collection is unchanged. -/
theorem last_admin_protected (m : Mongoose) (users : List Account) (c : Caller)
    (id : UserId) (body : UpdateBody) (hu : UniqueIds users) (ha : HasAdmin users) :
    HasAdmin (updateUser m users c id body).1 ∧
    UniqueIds (updateUser m users c id body).1 ∧
    HasAdmin (deleteUser m users c id).1 ∧
    UniqueIds (deleteUser m users c id).1 ∧
    (∀ user, c.role = some .admin → findAccount users id = some user →
      user.role = .admin → countAdmins users ≤ 1 →
      deleteUser m users c id = (users, .lastAdminDelete) ∧
      AdminResponse.lastAdminDelete.status = 400 ∧
      (∀ r, body.action = some "update" → body.role = some r → r ≠ "" → r ≠ "admin" →
        updateUser m users c id body = (users, .lastAdminRole)) ∧
      AdminResponse.lastAdminRole.status = 400) := by
  refine ⟨(updateUser_inv m users c id body hu ha).1, (updateUser_inv m users c id body hu ha).2,
    (deleteUser_inv m users c id hu ha).1, (deleteUser_inv m users c id hu ha).2,
    fun user hc hf hadm hcnt => ⟨?_, rfl, fun r hact hrole hne hna => ?_, rfl⟩⟩
  · simp only [deleteUser, roleCheck_pass c .admin hc, hf]
    rw [if_pos ⟨hadm, hcnt⟩]
  · have hrc : roleChange user body.role = some r := by
      simp [roleChange, hrole, hne, hadm, Role.toString, hna]
    simp only [updateUser, roleCheck_pass c .admin hc, hf, hact, hrc]
    rw [if_neg (by simp), if_neg (by simp), if_pos trivial, if_pos ⟨hadm, hna, hcnt⟩]

/-- Witness of C26: user 1 is the only admin of two users and asks to delete
itself, and to become a tenant. -/
theorem last_admin_protected_witness :
    deleteUser exMongoose exAccounts exAdmin 1 = (exAccounts, .lastAdminDelete) ∧
    updateUser exMongoose exAccounts exAdmin 1
        { action := some "update", role := some "tenant", name := none }
      = (exAccounts, .lastAdminRole) :=
  have h := (last_admin_protected exMongoose exAccounts exAdmin 1
    { action := some "update", role := some "tenant", name := none }
    (by simp [UniqueIds, exAccounts])
    ⟨{ id := 1, role := .admin, name := some "root" }, by simp [exAccounts], rfl⟩).2.2.2.2
    { id := 1, role := .admin, name := some "root" } rfl
    (by simp [findAccount, exAccounts]) rfl (by simp [countAdmins, exAccounts])
  ⟨h.1, h.2.2.1 "tenant" rfl rfl (by simp) (by simp)⟩

/-! ## Claims on refunds across transitions -/

theorem exPaid_refund_60 :
    cancelRefund (paidPatch 60 (exBooking .awaiting_payment .pending 0)) = 30 := by
  rw [cancelRefund_paid _ rfl rfl]
  have := mathRound_eq ((60 : Amount) * (1 / 2)) 30 (by norm_num) (by norm_num)
  simpa [paidPatch] using this

theorem exRefundTwice_run :
    (run (exState 100 (exBooking .awaiting_payment .pending 0)) exRefundTwice).log
      = [paymentRecord exTenant 7 (exBooking .awaiting_payment .pending 0),
         cancelRecord exTenant 7 (paidPatch 60 (exBooking .awaiting_payment .pending 0)),
         rejectRecord 7 (cancelPatch none 30
           (paidPatch 60 (exBooking .awaiting_payment .pending 0)))] ∧
    (run (exState 100 (exBooking .awaiting_payment .pending 0)) exRefundTwice).users 1
      = some { wallet := { balance := 130 } } := by
  have h1 := pay_eq_ok (exState 100 (exBooking .awaiting_payment .pending 0)) exTenant 7
    (exBooking .awaiting_payment .pending 0) { wallet := { balance := 100 } } rfl
    (by simp [exState]) rfl rfl (by rw [exBooking_total]; norm_num)
    (by simp [exState, exUsers, exTenant]) (by rw [exBooking_total]; norm_num)
  rw [exBooking_total] at h1
  simp only [exRefundTwice, run, List.foldl, step, h1]
  rw [cancel_eq_refund _ exTenant 7 (paidPatch 60 (exBooking .awaiting_payment .pending 0))
    none (by simp) rfl rfl (by rw [exPaid_refund_60]; norm_num)]
  rw [exPaid_refund_60]
  rw [reject_eq_refund _ exLandlord 7
    (cancelPatch none 30 (paidPatch 60 (exBooking .awaiting_payment .pending 0)))
    none rfl (by simp) rfl rfl (by simp [cancelPatch, paidPatch])]
  refine ⟨by simp [exState], ?_⟩
  simp [incBalance, exTenant, cancelPatch, paidPatch, exBooking, exState]
  norm_num

/-- C27 fails on the code.  Tenant 1 holds 100, pays booking 7 (total 60,
policy `paid`) from the wallet and cancels it: 30 is refunded and the payment
stays `completed`.  Landlord 2 then rejects the cancelled booking and the
full 60 is refunded again: 60 was debited for the booking, 90 is credited
back, and the tenant ends with 130. -/
theorem refunds_exceed_payment :
    paidFor (run (exState 100 (exBooking .awaiting_payment .pending 0)) exRefundTwice).log 7
      = 60 ∧
    refundedFor (run (exState 100 (exBooking .awaiting_payment .pending 0)) exRefundTwice).log 7
      = 90 ∧
    (run (exState 100 (exBooking .awaiting_payment .pending 0)) exRefundTwice).users 1
      = some { wallet := { balance := 130 } } := by
  refine ⟨?_, ?_, exRefundTwice_run.2⟩
  · rw [exRefundTwice_run.1]
    simp [paidFor, bookingTotal, paymentRecord, cancelRecord, rejectRecord, exBooking_total]
  · rw [exRefundTwice_run.1]
    have e : (cancelPatch none 30
        (paidPatch 60 (exBooking .awaiting_payment .pending 0))).payment.paidAmount = 60 := rfl
    simp [refundedFor, bookingTotal, paymentRecord, cancelRecord, rejectRecord,
      exPaid_refund_60, e]
    norm_num

theorem user_eta (user : User) :
    ({ wallet := { balance := user.wallet.balance } } : User) = user := by
  cases user with
  | mk wallet => cases wallet; rfl

/-- C28.  Pay/reject round trip.  A booking awaiting payment with a positive
total is paid from the wallet by its tenant, who holds at least the total,
and is then rejected by its landlord.  Both requests are answered 200, every
wallet balance is as it was before the pay, and the log has grown by exactly
two records for the booking: a debit of the total and a credit of the same
amount. -/
theorem pay_reject_round_trip (s : State) (c l : Caller) (bid : BookingId) (booking : Booking)
    (user : User) (m : Option String)
    (hrole : c.role = some .tenant) (hl : l.role = some .landlord)
    (hbk : s.bookings bid = some booking) (hten : booking.tenant = c.userId)
    (hland : booking.landlord = some l.userId)
    (hst : booking.bookingStatus = .awaiting_payment) (hpos : 0 < totalPrice booking)
    (hu : s.users c.userId = some user) (hle : totalPrice booking ≤ user.wallet.balance) :
    (pay s c bid (some "wallet")).2.isSuccess = true ∧
    (reject (pay s c bid (some "wallet")).1 l bid m).2.isSuccess = true ∧
    (reject (pay s c bid (some "wallet")).1 l bid m).1.users = s.users ∧
    (reject (pay s c bid (some "wallet")).1 l bid m).1.log
      = s.log ++ [paymentRecord c bid booking,
                  rejectRecord bid (paidPatch (totalPrice booking) booking)] ∧
    (paymentRecord c bid booking).type = .debit ∧
    (paymentRecord c bid booking).amount = totalPrice booking ∧
    (paymentRecord c bid booking).bookingId = some bid ∧
    (rejectRecord bid (paidPatch (totalPrice booking) booking)).type = .credit ∧
    (rejectRecord bid (paidPatch (totalPrice booking) booking)).amount = totalPrice booking ∧
    (rejectRecord bid (paidPatch (totalPrice booking) booking)).bookingId = some bid := by
  rw [pay_eq_ok s c bid booking user hrole hbk hten hst hpos hu hle]
  rw [reject_eq_refund _ l bid (paidPatch (totalPrice booking) booking) m hl (by simp) hland rfl
    (le_of_lt hpos)]
  refine ⟨rfl, rfl, ?_, by simp, rfl, rfl, rfl, rfl, rfl, rfl⟩
  have e : (paidPatch (totalPrice booking) booking).tenant = c.userId := hten
  have p : (paidPatch (totalPrice booking) booking).payment.paidAmount = totalPrice booking := rfl
  simp only [e, p]
  rw [incBalance_some _ c.userId _
    { wallet := { balance := user.wallet.balance + -totalPrice booking } } (by simp)]
  simp only [Function.update_idem]
  have : user.wallet.balance + -totalPrice booking + totalPrice booking = user.wallet.balance := by
    ring
  rw [this, user_eta, ← hu, Function.update_eq_self]

/-- Witness of C28: tenant 1, holding 100, pays booking 7 (total 60) and
landlord 2 rejects it. -/
theorem pay_reject_round_trip_witness :
    (reject (pay (exState 100 (exBooking .awaiting_payment .pending 0)) exTenant 7
      (some "wallet")).1 exLandlord 7 none).1.users
      = (exState 100 (exBooking .awaiting_payment .pending 0)).users :=
  (pay_reject_round_trip (exState 100 (exBooking .awaiting_payment .pending 0)) exTenant
    exLandlord 7 (exBooking .awaiting_payment .pending 0) { wallet := { balance := 100 } } none
    rfl rfl (by simp [exState]) rfl rfl rfl (by rw [exBooking_total]; norm_num)
    (by simp [exState, exUsers, exTenant]) (by rw [exBooking_total]; norm_num)).2.2.1

theorem roleCheck_none (c : Caller) (r : Role) (h : roleCheck [r] c = none) :
    c.role = some r := by
  unfold roleCheck at h
  split at h
  · cases h
  · rename_i r' hr
    split at h
    · rename_i hm
      rw [hr, List.mem_singleton.mp hm]
    · cases h

theorem reject_success (s s1 : State) (c : Caller) (bid : BookingId) (m : Option String)
    (b : Option Booking) (h : reject s c bid m = (s1, .rejected b)) :
    c.role = some .landlord ∧ ∃ bk, s.bookings bid = some bk ∧ bk.landlord = some c.userId ∧
      s1.bookings = Function.update s.bookings bid (some (rejectPatch m bk)) := by
  simp only [reject] at h
  split at h
  · simp at h
    exact absurd h.2 (by
      rename_i r hr
      intro e
      have := roleCheck_some_fails _ _ _ hr
      rw [e] at this
      simp [Response.isSuccess, Response.status] at this)
  · rename_i hrc
    split at h
    · simp at h
    · rename_i bk hbk
      split at h
      · simp at h
      · rename_i landlord hland
        split at h
        · simp at h
        · rename_i hne
          have hl : bk.landlord = some c.userId := by rw [hland, not_not.mp hne]
          refine ⟨roleCheck_none c .landlord hrc, bk, hbk, hl, ?_⟩
          rw [updateBooking_some _ _ _ _ hbk] at h
          split at h
          · split at h
            · simp at h
            · simp at h
              rw [← h.1]
          · simp at h
            rw [← h.1]

/-- C29.  Reject is idempotent on the wallet.  After a reject that was
answered 200, the booking's `payment.status` is `refunded`; a second reject
by the same landlord is answered 200 again, changes no wallet balance and
appends no record. -/
theorem reject_twice_keeps_wallet (s s1 : State) (c : Caller) (bid : BookingId)
    (m m' : Option String) (b : Option Booking)
    (h : reject s c bid m = (s1, .rejected b)) :
    (∃ bk, s1.bookings bid = some bk ∧ bk.payment.status = .refunded) ∧
    (reject s1 c bid m').2.isSuccess = true ∧
    (reject s1 c bid m').1.users = s1.users ∧
    (reject s1 c bid m').1.log = s1.log := by
  obtain ⟨hrole, bk, _, hl, hs1⟩ := reject_success s s1 c bid m b h
  have hbk1 : s1.bookings bid = some (rejectPatch m bk) := by rw [hs1]; simp
  refine ⟨⟨_, hbk1, rfl⟩, ?_⟩
  rw [reject_eq_plain s1 c bid (rejectPatch m bk) m' hrole hbk1 hl (by simp [rejectPatch])]
  exact ⟨rfl, rfl, rfl⟩

/-- Witness of C29: landlord 2 rejects the booking 7 that tenant 1 has paid,
and rejects it again. -/
theorem reject_twice_keeps_wallet_witness :
    (reject (reject (exState 40 (exPaidBooking .paid 60)) exLandlord 7 none).1 exLandlord 7
      none).1.log
      = (reject (exState 40 (exPaidBooking .paid 60)) exLandlord 7 none).1.log :=
  (reject_twice_keeps_wallet (exState 40 (exPaidBooking .paid 60)) _ exLandlord 7 none none _
    (reject_eq_refund (exState 40 (exPaidBooking .paid 60)) exLandlord 7
      (exPaidBooking .paid 60) none rfl (by simp [exState]) rfl rfl
      (by simp [exPaidBooking]))).2.2.2

/-! ## Claims on the bounds of the cancellation refund -/

theorem mathRound_half_bounds (p : Amount) (h : 0 ≤ p) :
    0 ≤ mathRound (p * (1 / 2)) ∧ mathRound (p * (1 / 2)) ≤ p := by
  unfold mathRound
  constructor
  · have : (0 : ℤ) ≤ ⌊p * (1 / 2) + 1 / 2⌋ := Int.floor_nonneg.mpr (by linarith)
    exact_mod_cast this
  · by_cases h1 : 1 ≤ p
    · have := Int.floor_le (p * (1 / 2) + 1 / 2)
      linarith
    · have hlt : ⌊p * (1 / 2) + 1 / 2⌋ < 1 := Int.floor_lt.mpr (by push_cast; linarith)
      have hle : ⌊p * (1 / 2) + 1 / 2⌋ ≤ 0 := by omega
      have : ((⌊p * (1 / 2) + 1 / 2⌋ : ℤ) : ℚ) ≤ 0 := by exact_mod_cast hle
      linarith

theorem cancelRefund_range (b : Booking) (h : 0 ≤ b.payment.paidAmount) :
    0 ≤ cancelRefund b ∧ cancelRefund b ≤ b.payment.paidAmount := by
  unfold cancelRefund
  split
  · split
    · exact ⟨h, le_refl _⟩
    · split
      · exact mathRound_half_bounds _ h
      · exact ⟨le_refl _, h⟩
  · exact ⟨le_refl _, h⟩

theorem cancel_cancelled (s s1 : State) (c : Caller) (bid : BookingId)
    (reason : Option String) (b : Booking) (r : Amount) (bk : Option Booking)
    (hbk : s.bookings bid = some b) (h : cancel s c bid reason = (s1, .cancelled r bk)) :
    r = cancelRefund b ∧ bk = some (cancelPatch reason (cancelRefund b) b) ∧
    s1.bookings bid = some (cancelPatch reason (cancelRefund b) b) := by
  simp only [cancel, hbk, updateBooking_some _ _ _ _ hbk] at h
  split at h
  · simp at h
  · split at h
    · simp at h
    · split at h
      · split at h
        · simp at h
        · simp at h
          obtain ⟨hs, hr, hb⟩ := h
          rw [← hs]
          exact ⟨hr.symm, hb.symm, by simp⟩
      · simp at h
        obtain ⟨hs, hr, hb⟩ := h
        rw [← hs]
        exact ⟨hr.symm, hb.symm, by simp⟩

/-- C30.  Cancellation refund bounds.  For a booking whose `paidAmount` is
not negative, under every cancellation policy, the refund computed by
cancel lies between 0 and `paidAmount`, and the `cancellation.refundStatus`
that cancel records is `processed` exactly when the refund is positive and
`no_refund` otherwise; every cancel answered 200 reports this refund and
stores the booking with this record. -/
theorem cancelRefund_bounds (b : Booking) (reason : Option String)
    (h : 0 ≤ b.payment.paidAmount) :
    0 ≤ cancelRefund b ∧ cancelRefund b ≤ b.payment.paidAmount ∧
    ((cancelPatch reason (cancelRefund b) b).cancellation.refundStatus = some "processed"
      ↔ 0 < cancelRefund b) ∧
    ((cancelPatch reason (cancelRefund b) b).cancellation.refundStatus = some "no_refund"
      ↔ ¬ 0 < cancelRefund b) ∧
    (cancelPatch reason (cancelRefund b) b).cancellation.refundAmount
      = some (cancelRefund b) ∧
    (∀ s s1 c bid r bk, s.bookings bid = some b →
      cancel s c bid reason = (s1, .cancelled r bk) →
      r = cancelRefund b ∧ s1.bookings bid = some (cancelPatch reason (cancelRefund b) b)) := by
  refine ⟨(cancelRefund_range b h).1, (cancelRefund_range b h).2, ?_, ?_, rfl,
    fun s s1 c bid r bk hbk hc => ?_⟩
  · by_cases hp : 0 < cancelRefund b
    · simp [cancelPatch, refundStatusOf, hp]
    · simp [cancelPatch, refundStatusOf, hp]
  · by_cases hp : 0 < cancelRefund b
    · simp [cancelPatch, refundStatusOf, hp]
    · simp [cancelPatch, refundStatusOf, hp]
  · obtain ⟨h1, _, h3⟩ := cancel_cancelled s s1 c bid reason b r bk hbk hc
    exact ⟨h1, h3⟩

/-- Witness of C30: a paid amount of 1000 under the policy `paid`; the
refund is 500. -/
theorem cancelRefund_bounds_witness :
    0 ≤ cancelRefund (exPaidBooking .paid 1000) ∧
    cancelRefund (exPaidBooking .paid 1000) ≤ 1000 :=
  ⟨(cancelRefund_bounds (exPaidBooking .paid 1000) none (by simp [exPaidBooking])).1,
   (cancelRefund_bounds (exPaidBooking .paid 1000) none (by simp [exPaidBooking])).2.1⟩

/-! ## Claims on the wallet invariants -/

theorem signup_inv (s : State) (id : UserId) (hb : BalancesNonneg s) (hp : PaidNonneg s) :
    BalancesNonneg (signup s id) ∧ PaidNonneg (signup s id) := by
  rw [signup_eq]
  refine ⟨fun u usr hu => ?_, hp⟩
  by_cases e : u = id
  · subst e
    simp only [Function.update_same, Option.some.injEq] at hu
    rw [← hu]
    norm_num
  · simp only [Function.update_noteq e] at hu
    exact hb u usr hu

theorem paidNonneg_insert (s : State) (newId : BookingId) (b : Booking)
    (h : b.payment.paidAmount = 0) (hp : PaidNonneg s) :
    PaidNonneg { s with bookings := Function.update s.bookings newId (some b) } := by
  intro i bk hbk hst
  by_cases e : i = newId
  · subst e
    simp only [Function.update_same, Option.some.injEq] at hbk
    rw [← hbk, h]
  · simp only [Function.update_noteq e] at hbk
    exact hp i bk hbk hst

theorem create_inv (properties : PropertyId → Option Property) (s : State) (c : Caller)
    (newId : BookingId) (body : CreateBody) (hb : BalancesNonneg s) (hp : PaidNonneg s) :
    BalancesNonneg (create properties s c newId body).1 ∧
    PaidNonneg (create properties s c newId body).1 := by
  by_cases hc : ∀ data booking tp,
      (create properties s c newId body).2 ≠ .created data booking tp
  · rw [create_unchanged properties s c newId body hc]
    exact ⟨hb, hp⟩
  · push_neg at hc
    obtain ⟨data, booking, tp, hr⟩ := hc
    have h : create properties s c newId body
        = ((create properties s c newId body).1, .created data booking tp) :=
      Prod.ext rfl hr
    obtain ⟨property, bt, d, total, _, _, _, _, _, _, _, _, _, _, hpay, hf⟩ :=
      create_created properties s _ c newId body data booking tp h
    obtain ⟨hdata, _, t, _, hbk, hs'⟩ := createFinish_created s _ newId bt _ d data total tp
      booking hf
    have hpaid : booking.payment.paidAmount = 0 := by
      rw [hbk, hdata]
      by_cases e : bt = "own_contact"
      · rw [withPayment_of_eq bt body.paymentMethod d e]
        simp [BookingData.toBooking, hpay]
      · simp [BookingData.toBooking, (withPayment_of_ne bt body.paymentMethod d e).1,
          initialPayment]
    rw [hs']
    exact ⟨hb, paidNonneg_insert s newId booking hpaid hp⟩

theorem postRequest_inv (s : State) (c : Caller) (newId : BookingId) (title : Option String)
    (hb : BalancesNonneg s) (hp : PaidNonneg s) :
    BalancesNonneg (postRequest s c newId title) ∧ PaidNonneg (postRequest s c newId title) := by
  unfold postRequest
  split
  · exact ⟨hb, hp⟩
  · split
    · exact ⟨hb, hp⟩
    · exact ⟨hb, paidNonneg_insert s newId _ rfl hp⟩

theorem reachable_inv (s : State) (h : Reachable s) : BalancesNonneg s ∧ PaidNonneg s := by
  induction h with
  | ofEmpty =>
    exact ⟨fun u usr hu => by simp [emptyState] at hu,
      fun i b hb => by simp [emptyState] at hb⟩
  | ofSignup s id _ ih => exact signup_inv s id ih.1 ih.2
  | ofCreate properties s c newId body _ ih => exact create_inv properties s c newId body ih.1 ih.2
  | ofRequest s c newId title _ ih => exact postRequest_inv s c newId title ih.1 ih.2
  | ofStep s op _ ih => exact step_inv s op ih.1 ih.2

/-- C1.  Balance non-negativity.  In every state that the routes build from
the empty database, requests served one after the other, every wallet
balance is at least zero (and every completed payment records a paid amount
of at least zero).  Starting from any state with these two properties, every
wallet balance is still at least zero after any sequence of add-credit,
deduct, refund, pay, cancel, approve and reject requests served one after
the other.  The two debits (deduct, wallet pay) never leave a balance below
zero, whatever the bookings hold. -/
theorem balance_nonneg_invariant (s : State) :
    (Reachable s → BalancesNonneg s ∧ PaidNonneg s ∧ ∀ ops, BalancesNonneg (run s ops)) ∧
    (BalancesNonneg s → PaidNonneg s → ∀ ops, BalancesNonneg (run s ops)) ∧
    (BalancesNonneg s → ∀ c a r b d, BalancesNonneg (deduct s c a r b d).1) ∧
    (BalancesNonneg s → ∀ c b m, BalancesNonneg (pay s c b m).1) :=
  ⟨fun h => ⟨(reachable_inv s h).1, (reachable_inv s h).2,
      fun ops => (run_inv ops s (reachable_inv s h).1 (reachable_inv s h).2).1⟩,
   fun hb hp ops => (run_inv ops s hb hp).1,
   fun hb c a r b d => (deduct_safe s c a r b d).nonneg hb,
   fun hb c b m => (pay_inv s c b m).1.nonneg hb⟩

/-- Witness of C1: user 1 signs up and rents property 5 as booking 8; and,
on the example state, tenant 1 holds 100 and pays the booking of 60, which
landlord 2 then rejects. -/
theorem balance_nonneg_invariant_witness :
    Reachable (create exProperties (signup emptyState 1) exTenant 8
      (exRentBody 5 (some exRent))).1 ∧
    BalancesNonneg (run (create exProperties (signup emptyState 1) exTenant 8
      (exRentBody 5 (some exRent))).1
      [Op.pay exTenant 8 (some "wallet"), Op.reject exLandlord 8 none]) ∧
    BalancesNonneg (exState 100 (exBooking .awaiting_payment .pending 0)) ∧
    PaidNonneg (exState 100 (exBooking .awaiting_payment .pending 0)) ∧
    BalancesNonneg (run (exState 100 (exBooking .awaiting_payment .pending 0))
      [Op.pay exTenant 7 (some "wallet"), Op.reject exLandlord 7 none]) ∧
    BalancesNonneg
      (deduct (exState 100 (exBooking .awaiting_payment .pending 0))
        exTenant (some 60) none none none).1 ∧
    BalancesNonneg
      (pay (exState 100 (exBooking .awaiting_payment .pending 0))
        exTenant 7 (some "wallet")).1 :=
  ⟨.ofCreate _ _ _ _ _ (.ofSignup _ _ .ofEmpty),
   ((balance_nonneg_invariant _).1 (.ofCreate _ _ _ _ _ (.ofSignup _ _ .ofEmpty))).2.2 _,
   exUsers_nonneg 100 (by norm_num) _,
   exState_paidNonneg 100 0 _ _ (fun _ => le_refl _),
   (balance_nonneg_invariant (exState 100 (exBooking .awaiting_payment .pending 0))).2.1
     (exUsers_nonneg 100 (by norm_num) _)
     (exState_paidNonneg 100 0 _ _ (fun _ => le_refl _)) _,
   (balance_nonneg_invariant (exState 100 (exBooking .awaiting_payment .pending 0))).2.2.1
     (exUsers_nonneg 100 (by norm_num) _) _ _ _ _ _,
   (balance_nonneg_invariant (exState 100 (exBooking .awaiting_payment .pending 0))).2.2.2
     (exUsers_nonneg 100 (by norm_num) _) _ _ _⟩

end Colive
